import Mathlib

/-!
# g923mac: command encoder, force calculator, LED controller and wheel control

A shallow embedding of the wire-format encoder (src/command.cpp, src/types.cpp,
include/command.hpp, include/constants.hpp), of the force calculator and the
LED controller (src/force_feedback.cpp, src/telemetry.cpp, src/utilities.cpp
and the headers telemetry.hpp, force_feedback.hpp, force_feedback_config.hpp),
of the device handle (src/device.cpp, HidDeviceInterface), of the wheel
controller (src/wheel.cpp) and of the update and reset paths of the
orchestrator (src/plugin_manager.cpp).

Conventions of the embedding:

* a std::uint8_t is a natural number; where the source narrows an int back
  to std::uint8_t (the static_cast of a packed nibble pair) the narrowing is
  written as an explicit remainder modulo 256;
* a Command is the list of its COMMAND_MAX_LENGTH data bytes, and a write
  through operator[] is List.set;
* a float is a rational number: comparisons, std::abs, std::min and std::max
  are exact on floats. Two products are rounded to the nearest binary32 value,
  as the source computes them: speed * 3.6f in speed_kmh, with 3.6f the
  binary32 value 7549747 / 2097152, and the product of the steering rate and
  the factor in calculate_steering_kickback. Their rounded values select a
  bucket or a byte. The other sums, products and quotients are taken without
  rounding, and their decimal literals stand for the decimal values;
* a method that mutates an argument in place returns the new value of that
  argument, and a method that mutates its object returns its result paired
  with the object as the call leaves it;
* the IOKit device is a log of the calls made on it together with the outcome
  of each call by position.
-/

namespace G923

/-! ## constants.hpp and command.hpp -/

/-- The number of bytes of a device report (constants.hpp). -/
def COMMAND_MAX_LENGTH : Nat := 8

def G923_VENDOR_ID : Nat := 0x046D
def G923_PRODUCT_ID : Nat := 0xC266
def G923_DEVICE_ID : Nat := 0xC266046D

def COMMAND_MAX_COUNT : Nat := 4

/-- Force feedback update every 8 frames. -/
def FORCE_UPDATE_RATE : Int := 8

/-- LED update every 32 frames. -/
def LED_UPDATE_RATE : Int := 32

def LED_PATTERN_OFF : Nat := 0x00
def LED_PATTERN_1 : Nat := 0x01
def LED_PATTERN_2 : Nat := 0x03
def LED_PATTERN_3 : Nat := 0x07
def LED_PATTERN_4 : Nat := 0x0F
def LED_PATTERN_5 : Nat := 0x1F

namespace g923_commands

def DISABLE_AUTOCENTER : Nat := 0xF5
def ENABLE_AUTOCENTER : Nat := 0xF4
def SET_AUTOCENTER_SPRING : Nat := 0xFE
def SET_FORCE_EFFECT : Nat := 0xF1
def STOP_FORCES : Nat := 0xF3
def SET_LED_PATTERN : Nat := 0xF8

def EFFECT_CONSTANT : Nat := 0x00
def EFFECT_SPRING : Nat := 0x01
def EFFECT_DAMPER : Nat := 0x02
def EFFECT_TRAPEZOID : Nat := 0x06

def LED_COMMAND_TYPE : Nat := 0x12

end g923_commands

/-! ## types.hpp and types.cpp: Command -/

/-- The data array of a Command, COMMAND_MAX_LENGTH bytes. -/
abbrev Command := List Nat

namespace Command

/-- The default constructor: the member initialiser sets every byte to 0. -/
def default : Command := List.replicate COMMAND_MAX_LENGTH 0

/-- The range-for loop of the initializer-list constructor: a value is stored
at index i, and i advanced, only while i is below COMMAND_MAX_LENGTH; later
values are skipped. Returns the data and the final i. -/
def storeInit : List Nat → Command → Nat → Command × Nat
  | [], data, i => (data, i)
  | value :: rest, data, i =>
    if i < COMMAND_MAX_LENGTH then storeInit rest (data.set i value) (i + 1)
    else storeInit rest data i

/-- The while loop of the initializer-list constructor, which writes 0 at i
and advances i while i is below COMMAND_MAX_LENGTH; the last argument counts
the iterations left, COMMAND_MAX_LENGTH - i at the call. -/
def zeroFill (data : Command) (i : Nat) : Nat → Command
  | 0 => data
  | n + 1 => zeroFill (data.set i 0) (i + 1) n

/-- Command::Command(std::initializer_list<std::uint8_t>). -/
def ofInit (init : List Nat) : Command :=
  let r := storeInit init Command.default 0
  zeroFill r.1 r.2 (COMMAND_MAX_LENGTH - r.2)

end Command

/-! ## command.cpp: CommandBuilder -/

namespace CommandBuilder

/-- The for loop of create_force_effect_command: it copies params(i) to
command(param_index) and stops as soon as the parameters are exhausted or
param_index reaches COMMAND_MAX_LENGTH. -/
def copyParams : List Nat → Command → Nat → Command
  | [], command, _ => command
  | p :: rest, command, param_index =>
    if param_index < COMMAND_MAX_LENGTH then
      copyParams rest (command.set param_index p) (param_index + 1)
    else command

def create_force_effect_command (effect_type : Nat) (params : List Nat) : Command :=
  let command := Command.default
  let command := command.set 0 g923_commands.SET_FORCE_EFFECT
  let command := command.set 1 effect_type
  copyParams params command 2

def create_disable_autocenter : Command :=
  Command.ofInit [g923_commands.DISABLE_AUTOCENTER]

def create_enable_autocenter : Command :=
  Command.ofInit [g923_commands.ENABLE_AUTOCENTER]

def create_autocenter_spring (k1 k2 clip : Nat) : Command :=
  Command.ofInit [g923_commands.SET_AUTOCENTER_SPRING, 0x00, k1, k2, clip, 0x00]

def create_constant_force (force_level : Nat) : Command :=
  create_force_effect_command g923_commands.EFFECT_CONSTANT
    [force_level, force_level, force_level, force_level, 0x00]

def create_custom_spring (d1 d2 k1 k2 s1 s2 clip : Nat) : Command :=
  create_force_effect_command g923_commands.EFFECT_SPRING
    [d1, d2, ((k2 <<< 4) ||| k1) % 256, ((s2 <<< 4) ||| s1) % 256, clip]

def create_damper (k1 k2 s1 s2 : Nat) : Command :=
  create_force_effect_command g923_commands.EFFECT_DAMPER [k1, s1, k2, s2, 0x00]

def create_trapezoid (l1 l2 t1 t2 t3 s : Nat) : Command :=
  create_force_effect_command g923_commands.EFFECT_TRAPEZOID
    [l1, l2, t1, t2, ((t3 <<< 4) ||| s) % 256]

def create_stop_forces : Command :=
  Command.ofInit [g923_commands.STOP_FORCES, 0x00]

def create_led_pattern (pattern : Nat) : Command :=
  Command.ofInit [g923_commands.SET_LED_PATTERN, g923_commands.LED_COMMAND_TYPE, pattern]

end CommandBuilder

/-! ## force_feedback_config.hpp -/

/-- The tunable thresholds and multipliers, with the defaults of the header. -/
structure FfbConfig where
  force_update_rate : Int := 8
  led_update_rate : Int := 32
  sat_base_torque_factor : ℚ := 0.8
  sat_speed_reduction_start : ℚ := 80.0
  sat_speed_reduction_range : ℚ := 120.0
  sat_min_factor : ℚ := 0.3
  sat_lateral_g_factor : ℚ := 0.8
  sat_max_lateral_reduction : ℚ := 0.7
  center_stationary_force : ℚ := 0.0
  center_stationary_slope : ℚ := 0.0
  center_low_speed_base : ℚ := 20.0
  center_low_speed_factor : ℚ := 0.8
  center_highway_base : ℚ := 18.0
  center_highway_factor : ℚ := 0.6
  center_max_force : ℚ := 45.0
  speed_stationary_threshold : ℚ := 2.0
  speed_low_threshold : ℚ := 15.0
  speed_medium_threshold : ℚ := 35.0
  speed_high_threshold : ℚ := 65.0
  speed_very_high_threshold : ℚ := 100.0
  damper_stationary_pos : ℚ := 2.0
  damper_stationary_neg : ℚ := 2.0
  damper_low_speed : ℚ := 2.5
  damper_speed_factor : ℚ := 40.0
  damper_max : ℚ := 3.0
  damper_brake_factor : ℚ := 0.8
  damper_retarder_factor : ℚ := 0.08
  damper_engine_brake_factor : ℚ := 0.25
  damper_max_total : ℚ := 6.0
  yaw_rate_threshold : ℚ := 0.1
  yaw_rate_factor : ℚ := 10.0
  yaw_max_factor : ℚ := 2.0
  understeer_factor : ℚ := 0.3
  oversteer_reduction : ℚ := 0.2
  oversteer_damping_add : ℚ := 1.0
  road_feel_speed_threshold : ℚ := 20.0
  road_feel_rpm_threshold : ℚ := 600.0
  road_feel_speed_factor : ℚ := 80.0
  road_feel_intensity_threshold : ℚ := 0.5
  road_feel_spring_base : ℚ := 1.5
  road_feel_spring_factor : ℚ := 1.5
  road_feel_clip_base : ℚ := 15.0
  road_feel_clip_factor : ℚ := 10.0
  terrain_offroad_multiplier : ℚ := 4.0
  terrain_rough_frequency : ℚ := 8.0
  terrain_smooth_frequency : ℚ := 15.0
  terrain_detection_threshold : ℚ := 0.08
  terrain_minor_threshold : ℚ := 0.02
  terrain_major_threshold : ℚ := 0.25
  terrain_impact_multiplier : ℚ := 10.0
  terrain_impact_duration : ℚ := 0.5
  terrain_smoothing_factor : ℚ := 0.8
  kickback_threshold : ℚ := 2.0
  kickback_speed_threshold : ℚ := 5.0
  kickback_factor : ℚ := 10.0
  kickback_max_force : ℚ := 40.0
  weight_transfer_threshold : ℚ := 0.2
  weight_transfer_factor : ℚ := 0.5
  weight_transfer_max_force : ℚ := 90.0
  parking_brake_force : ℚ := 80.0
  parking_brake_slope : ℚ := 6.0
  parking_brake_damper : ℚ := 8.0
  led_brake_threshold : ℚ := 0.5
  led_heavy_brake : ℚ := 0.9
  led_medium_brake : ℚ := 0.7
  led_speed_high_threshold : ℚ := 50.0
  led_speed_low_threshold : ℚ := 10.0
  led_rpm_base : ℚ := 1000.0
  led_rpm_highway : ℚ := 800.0
  led_rpm_city : ℚ := 1200.0
  led_rpm_step1 : ℚ := 300.0
  led_rpm_step2 : ℚ := 600.0
  led_rpm_step3 : ℚ := 800.0
  led_rpm_step4 : ℚ := 1000.0

/-- The default configuration FfbConfig{} of the ForceCalculator constructor. -/
def FfbConfig.default : FfbConfig := {}

/-! ## The float type: rounding to binary32

Rounding to the nearest binary32 value, ties to the even significand, with the
subnormal range. The exponent is not bounded above, so a value beyond the
binary32 range stays a large finite value, which compares with every threshold
as the infinity does. -/

namespace binary32

/-- Round to the nearest integer, ties to the even one. -/
def round_half_even (q : ℚ) : ℤ :=
  if q - ⌊q⌋ < 1 / 2 then ⌊q⌋
  else if q - ⌊q⌋ > 1 / 2 then ⌊q⌋ + 1
  else if ⌊q⌋ % 2 = 0 then ⌊q⌋ else ⌊q⌋ + 1

/-- The spacing of the binary32 values at the magnitude a: 2 ^ (e - 23), where
e is the binary exponent of a, at least -126 (below that the values are
subnormal and equally spaced). -/
def ulp (a : ℚ) : ℚ := 2 ^ (max (Int.log 2 a) (-126) - 23)

/-- The binary32 value nearest to a magnitude a. -/
def round_magnitude (a : ℚ) : ℚ := (round_half_even (a / ulp a) : ℚ) * ulp a

/-- The binary32 value nearest to x. -/
def round_nearest (x : ℚ) : ℚ :=
  if x < 0 then -round_magnitude (-x) else round_magnitude x

end binary32

/-! ## telemetry.hpp and telemetry.cpp -/

/-- One vehicle sample; every field starts at its neutral value. -/
structure TelemetryData where
  timestamp : Nat := 0
  raw_rendering_timestamp : Nat := 0
  raw_simulation_timestamp : Nat := 0
  raw_paused_simulation_timestamp : Nat := 0
  orientation_available : Bool := false
  heading : ℚ := 0
  pitch : ℚ := 0
  roll : ℚ := 0
  steering : ℚ := 0
  input_steering : ℚ := 0
  throttle : ℚ := 0
  brake : ℚ := 0
  clutch : ℚ := 0
  speed : ℚ := 0
  rpm : ℚ := 0
  gear : Int := 0
  linear_velocity_x : ℚ := 0
  linear_velocity_y : ℚ := 0
  linear_velocity_z : ℚ := 0
  angular_velocity_x : ℚ := 0
  angular_velocity_y : ℚ := 0
  angular_velocity_z : ℚ := 0
  linear_acceleration_x : ℚ := 0
  linear_acceleration_y : ℚ := 0
  linear_acceleration_z : ℚ := 0
  angular_acceleration_x : ℚ := 0
  angular_acceleration_y : ℚ := 0
  angular_acceleration_z : ℚ := 0
  parking_brake : Bool := false
  motor_brake : Bool := false
  retarder_level : Nat := 0
  brake_air_pressure : ℚ := 0
  cruise_control : ℚ := 0
  fuel_amount : ℚ := 0
  engine_enabled : Bool := false

namespace TelemetryData

/-- The product speed * 3.6f as a float: the literal 3.6f is the binary32
value 7549747 / 2097152, and the product is rounded to binary32. -/
def speed_kmh (t : TelemetryData) : ℚ :=
  binary32.round_nearest (t.speed * (7549747 / 2097152))
def lateral_g (t : TelemetryData) : ℚ := t.linear_acceleration_x / 9.81
def vertical_g (t : TelemetryData) : ℚ := t.linear_acceleration_y / 9.81
def longitudinal_g (t : TelemetryData) : ℚ := t.linear_acceleration_z / 9.81

end TelemetryData

/-- The rolling terrain estimator; a fresh state has every field 0. -/
structure TerrainState where
  smoothed_roughness : ℚ := 0
  impact_timer : ℚ := 0
  last_vertical_acceleration : ℚ := 0
  impact_cooldown : ℚ := 0

/-- TerrainState::update: each running timer decays by delta_time, floored at 0. -/
def TerrainState.update (s : TerrainState) (delta_time : ℚ) : TerrainState :=
  let s := if s.impact_timer > 0 then
      { s with impact_timer := max 0 (s.impact_timer - delta_time) } else s
  if s.impact_cooldown > 0 then
    { s with impact_cooldown := max 0 (s.impact_cooldown - delta_time) } else s

/-! ## utilities.cpp -/

namespace utils

def clamp (value min max : ℚ) : ℚ := Max.max min (Min.min max value)

def lerp (a b t : ℚ) : ℚ := a + t * (b - a)

end utils

/-! ## force_feedback.hpp and force_feedback.cpp: ForceCalculator -/

/-- The output of one force update; every field starts at 0 or false. -/
structure ForceParameters where
  autocenter_force : Nat := 0
  autocenter_slope : Nat := 0
  damper_force_positive : Nat := 0
  damper_force_negative : Nat := 0
  constant_force : Nat := 0
  use_constant_force : Bool := false
  spring_k1 : Nat := 0
  spring_k2 : Nat := 0
  spring_clip : Nat := 0
  use_custom_spring : Bool := false
deriving DecidableEq

namespace ForceCalculator

/-- The saturating cast: the value is clamped to the range 0..255 and then
converted to std::uint8_t, which drops the fractional part; on the clamped,
non-negative value that is the floor. -/
def clamp_to_byte (value : ℚ) : Nat := (Rat.floor (utils.clamp value 0 255)).toNat

def calculate_speed_factor (speed_kmh threshold_low threshold_high : ℚ) : ℚ :=
  if speed_kmh ≤ threshold_low then 0
  else if speed_kmh ≥ threshold_high then 1
  else (speed_kmh - threshold_low) / (threshold_high - threshold_low)

def calculate_power_steering_multiplier (telemetry : TelemetryData) : ℚ :=
  let speed_kmh := telemetry.speed_kmh
  if telemetry.engine_enabled = true ∧ telemetry.rpm > 500 then
    if speed_kmh < 10 then 0.7
    else if speed_kmh < 30 then 0.8
    else 0.9
  else
    if speed_kmh < 10 then 2.0
    else if speed_kmh < 30 then 1.6
    else 1.3

def calculate_centering_multiplier (telemetry : TelemetryData) : ℚ :=
  if telemetry.engine_enabled = true ∧ telemetry.rpm > 500 then 0.7 else 1.0

def calculate_base_forces (config_ : FfbConfig) (telemetry : TelemetryData)
    (params : ForceParameters) : ForceParameters :=
  let speed_kmh := telemetry.speed_kmh
  let abs_speed := |telemetry.speed|
  let centering_multiplier := calculate_centering_multiplier telemetry
  let power_steering_multiplier := calculate_power_steering_multiplier telemetry
  if abs_speed < config_.speed_stationary_threshold then
    { params with
      autocenter_force := clamp_to_byte (config_.center_stationary_force * centering_multiplier)
      autocenter_slope := clamp_to_byte config_.center_stationary_slope
      damper_force_positive :=
        clamp_to_byte (config_.damper_stationary_pos * power_steering_multiplier)
      damper_force_negative :=
        clamp_to_byte (config_.damper_stationary_neg * power_steering_multiplier) }
  else if speed_kmh < config_.speed_low_threshold then
    let speed_factor := speed_kmh * config_.center_low_speed_factor
    { params with
      autocenter_force :=
        clamp_to_byte ((config_.center_low_speed_base + speed_factor) * centering_multiplier)
      autocenter_slope := 2
      damper_force_positive := clamp_to_byte (config_.damper_low_speed * power_steering_multiplier)
      damper_force_negative := clamp_to_byte (config_.damper_low_speed * power_steering_multiplier) }
  else
    let base_damper := min config_.damper_max
      ((1 + speed_kmh / config_.damper_speed_factor) * power_steering_multiplier)
    { params with
      autocenter_force := clamp_to_byte (config_.center_highway_base * centering_multiplier)
      autocenter_slope :=
        if speed_kmh < config_.speed_medium_threshold then 2
        else if speed_kmh < config_.speed_high_threshold then 3
        else if speed_kmh < config_.speed_very_high_threshold then 4
        else 5
      damper_force_positive := clamp_to_byte base_damper
      damper_force_negative := clamp_to_byte base_damper }

def calculate_self_aligning_torque (config_ : FfbConfig) (telemetry : TelemetryData)
    (params : ForceParameters) : ForceParameters :=
  let abs_speed := |telemetry.speed|
  let speed_kmh := telemetry.speed_kmh
  if abs_speed ≤ config_.speed_stationary_threshold then params
  else
    let self_align_torque := abs_speed * config_.sat_base_torque_factor * |telemetry.steering|
    let self_align_torque :=
      if speed_kmh > config_.sat_speed_reduction_start then
        let speed_factor :=
          1 - ((speed_kmh - config_.sat_speed_reduction_start) / config_.sat_speed_reduction_range)
        self_align_torque * max config_.sat_min_factor speed_factor
      else self_align_torque
    let lateral_g := telemetry.lateral_g
    let lateral_factor :=
      1 - min config_.sat_max_lateral_reduction (|lateral_g| * config_.sat_lateral_g_factor)
    let self_align_torque := self_align_torque * lateral_factor
    let enhanced_center := min config_.center_max_force
      ((params.autocenter_force : ℚ) + self_align_torque * config_.center_highway_factor)
    { params with autocenter_force := clamp_to_byte enhanced_center }

def calculate_power_steering_effects (config_ : FfbConfig) (telemetry : TelemetryData)
    (params : ForceParameters) : ForceParameters :=
  if telemetry.motor_brake = true ∨ telemetry.retarder_level > 0 then
    let brake_factor := config_.damper_brake_factor +
      ((telemetry.retarder_level : ℚ) * config_.damper_retarder_factor)
    let brake_factor :=
      if telemetry.motor_brake = true then brake_factor + config_.damper_engine_brake_factor
      else brake_factor
    { params with
      damper_force_positive := clamp_to_byte
        (min config_.damper_max_total ((params.damper_force_positive : ℚ) * brake_factor))
      damper_force_negative := clamp_to_byte
        (min config_.damper_max_total ((params.damper_force_negative : ℚ) * brake_factor)) }
  else params

def update_terrain_state (telemetry : TelemetryData) (terrain_state : TerrainState) :
    TerrainState :=
  let terrain_state := terrain_state.update (1 / 60)
  { terrain_state with last_vertical_acceleration := telemetry.linear_acceleration_y }

/-- The dynamic impact threshold of detect_terrain_impact. -/
def impact_threshold (config_ : FfbConfig) (telemetry : TelemetryData) : ℚ :=
  let abs_speed := |telemetry.speed|
  let impact_threshold := config_.terrain_minor_threshold * 1.5
  let impact_threshold := if abs_speed > 25 then impact_threshold * 1.5 else impact_threshold
  let impact_threshold :=
    if |telemetry.angular_velocity_y| > 0.1 then impact_threshold * 1.2 else impact_threshold
  if |telemetry.linear_acceleration_z| > 1 then impact_threshold * 1.3 else impact_threshold

def detect_terrain_impact (config_ : FfbConfig) (telemetry : TelemetryData)
    (terrain_state : TerrainState) : Bool :=
  let abs_speed := |telemetry.speed|
  let vertical_acceleration := telemetry.linear_acceleration_y
  let abs_vertical_accel := |vertical_acceleration|
  let accel_change := |vertical_acceleration - terrain_state.last_vertical_acceleration|
  let impact_threshold := impact_threshold config_ telemetry
  decide (accel_change > impact_threshold) &&
    (decide (abs_vertical_accel > impact_threshold * 1.5) ||
      decide (accel_change > impact_threshold * 1.2)) &&
    decide (accel_change > 0.05) &&
    decide (abs_speed > 1) &&
    decide (terrain_state.impact_cooldown ≤ 0)

/-- The four locals of calculate_terrain_effects that its regime chain sets. -/
structure TerrainLocals where
  terrain_force_multiplier : ℚ := 1
  terrain_damping_add : ℚ := 0
  use_terrain_spring : Bool := false
  terrain_spring_intensity : Nat := 0

/-- The regime chain of calculate_terrain_effects: active impact, minor bump,
continuous rough terrain, or none of them. -/
def terrain_regime (config_ : FfbConfig) (telemetry : TelemetryData)
    (terrain_state : TerrainState) : TerrainLocals :=
  let abs_speed := |telemetry.speed|
  let current_roughness := |telemetry.vertical_g|
  if terrain_state.impact_timer > 0 then
    let impact_intensity := terrain_state.impact_timer / config_.terrain_impact_duration
    { terrain_force_multiplier := 1 + impact_intensity * 1.5
      terrain_damping_add := 0 + impact_intensity * 3
      use_terrain_spring := true
      terrain_spring_intensity := clamp_to_byte (impact_intensity * 25) }
  else if current_roughness > config_.terrain_minor_threshold ∧ abs_speed > 2 then
    let speed_factor := min 1 (abs_speed / 10)
    { terrain_force_multiplier := 1 + current_roughness * 1.5 * speed_factor
      terrain_damping_add := 0 + current_roughness * 1.2 * speed_factor
      use_terrain_spring := true
      terrain_spring_intensity := clamp_to_byte (2 + current_roughness * 8 * speed_factor) }
  else if terrain_state.smoothed_roughness > config_.terrain_detection_threshold
      ∧ abs_speed > 1 then
    let speed_factor := min 1 (abs_speed / 8)
    let major_terrain : Bool :=
      decide (terrain_state.smoothed_roughness > config_.terrain_major_threshold)
    { terrain_force_multiplier :=
        if major_terrain = true then 1 + config_.terrain_offroad_multiplier * 0.2 * speed_factor
        else 1 + terrain_state.smoothed_roughness * 1 * speed_factor
      terrain_damping_add :=
        if major_terrain = true then terrain_state.smoothed_roughness * 1.2 * speed_factor
        else terrain_state.smoothed_roughness * 0.8 * speed_factor
      use_terrain_spring := true
      terrain_spring_intensity :=
        clamp_to_byte (1 + terrain_state.smoothed_roughness * 4 * speed_factor) }
  else {}

def calculate_terrain_effects (config_ : FfbConfig) (telemetry : TelemetryData)
    (terrain_state : TerrainState) (params : ForceParameters) :
    TerrainState × ForceParameters :=
  let current_roughness := |telemetry.vertical_g|
  let terrain_state := { terrain_state with
    smoothed_roughness :=
      terrain_state.smoothed_roughness * config_.terrain_smoothing_factor +
        current_roughness * (1 - config_.terrain_smoothing_factor) }
  let terrain_state :=
    if detect_terrain_impact config_ telemetry terrain_state = true then
      { terrain_state with
        impact_timer := config_.terrain_impact_duration
        impact_cooldown := 0.6 }
    else terrain_state
  let l := terrain_regime config_ telemetry terrain_state
  let params :=
    if l.terrain_force_multiplier > 1 ∨ l.terrain_damping_add > 0 then
      { params with
        autocenter_force := clamp_to_byte
          (min 80 ((params.autocenter_force : ℚ) * l.terrain_force_multiplier))
        damper_force_positive := clamp_to_byte
          (min 8 ((params.damper_force_positive : ℚ) + l.terrain_damping_add))
        damper_force_negative := clamp_to_byte
          (min 8 ((params.damper_force_negative : ℚ) + l.terrain_damping_add)) }
    else params
  let params :=
    if l.use_terrain_spring = true then
      { params with
        use_custom_spring := true
        spring_k1 := l.terrain_spring_intensity
        spring_k2 := l.terrain_spring_intensity
        spring_clip := clamp_to_byte ((20 + l.terrain_spring_intensity * 8 : Nat) : ℚ) }
    else params
  (terrain_state, params)

def calculate_vehicle_dynamics_effects (config_ : FfbConfig) (telemetry : TelemetryData)
    (params : ForceParameters) : ForceParameters :=
  let abs_speed := |telemetry.speed|
  let yaw_rate := telemetry.angular_velocity_z
  if |yaw_rate| > config_.yaw_rate_threshold ∧ abs_speed > 5 then
    let yaw_factor := min config_.yaw_max_factor (|yaw_rate| * config_.yaw_rate_factor)
    let is_oversteer : Bool :=
      (decide (yaw_rate > 0) && decide (telemetry.steering > 0)) ||
        (decide (yaw_rate < 0) && decide (telemetry.steering < 0))
    if is_oversteer = true then
      { params with
        autocenter_force := clamp_to_byte
          ((params.autocenter_force : ℚ) * (1 - yaw_factor * config_.oversteer_reduction))
        damper_force_positive := clamp_to_byte
          ((params.damper_force_positive : ℚ) + yaw_factor * config_.oversteer_damping_add)
        damper_force_negative := clamp_to_byte
          ((params.damper_force_negative : ℚ) + yaw_factor * config_.oversteer_damping_add) }
    else
      { params with
        autocenter_force := clamp_to_byte
          (min 80 ((params.autocenter_force : ℚ) * (1 + yaw_factor * config_.understeer_factor))) }
  else params

/-- ForceCalculator::calculate_steering_kickback; the product of the steering
rate and the factor is a float, rounded to binary32 before the minimum and the
cast. -/
def calculate_steering_kickback (config_ : FfbConfig) (telemetry : TelemetryData)
    (params : ForceParameters) : ForceParameters :=
  let abs_speed := |telemetry.speed|
  let steering_rate := |telemetry.angular_acceleration_z|
  if steering_rate > config_.kickback_threshold ∧
      abs_speed > config_.kickback_speed_threshold ∧
      params.use_constant_force = false then
    { params with
      use_constant_force := true
      constant_force := clamp_to_byte
        (min config_.kickback_max_force
          (binary32.round_nearest (steering_rate * config_.kickback_factor))) }
  else params

/-- ForceCalculator::calculate: the returned pair is the ForceParameters and
the terrain state as the call leaves it. -/
def calculate (config_ : FfbConfig) (telemetry : TelemetryData) (terrain_state : TerrainState) :
    ForceParameters × TerrainState :=
  let params : ForceParameters := {}
  let terrain_state := update_terrain_state telemetry terrain_state
  let params := calculate_base_forces config_ telemetry params
  let params := calculate_self_aligning_torque config_ telemetry params
  let params := calculate_power_steering_effects config_ telemetry params
  let r := calculate_terrain_effects config_ telemetry terrain_state params
  let terrain_state := r.1
  let params := r.2
  let params := calculate_vehicle_dynamics_effects config_ telemetry params
  let params := calculate_steering_kickback config_ telemetry params
  (params, terrain_state)

end ForceCalculator

/-- The ForceCalculator object: it holds its configuration. -/
structure ForceCalculator where
  config_ : FfbConfig := FfbConfig.default

/-! ## force_feedback.hpp and force_feedback.cpp: LedController -/

/-- The LedController object: its configuration and the one-bit flash toggle. -/
structure LedController where
  config_ : FfbConfig := FfbConfig.default
  flash_state_ : Bool := false

namespace LedController

/-- A method that toggles flash_state_ returns the pattern and the controller
as the call leaves it. -/
def get_parking_brake_pattern (l : LedController) : Nat × LedController :=
  let l := { l with flash_state_ := !l.flash_state_ }
  (if l.flash_state_ = true then LED_PATTERN_5 else LED_PATTERN_OFF, l)

def calculate_brake_pattern (l : LedController) (brake : ℚ) : Nat :=
  if brake > l.config_.led_heavy_brake then LED_PATTERN_5
  else if brake > l.config_.led_medium_brake then LED_PATTERN_4
  else LED_PATTERN_3

def calculate_rpm_pattern (l : LedController) (rpm speed_kmh : ℚ) : Nat × LedController :=
  if rpm = 0 then (LED_PATTERN_OFF, l)
  else
    let rpm_threshold_base :=
      if speed_kmh > l.config_.led_speed_high_threshold then l.config_.led_rpm_highway
      else if speed_kmh < l.config_.led_speed_low_threshold then l.config_.led_rpm_city
      else l.config_.led_rpm_base
    if rpm < rpm_threshold_base then (LED_PATTERN_1, l)
    else if rpm < rpm_threshold_base + l.config_.led_rpm_step1 then (LED_PATTERN_2, l)
    else if rpm < rpm_threshold_base + l.config_.led_rpm_step2 then (LED_PATTERN_3, l)
    else if rpm < rpm_threshold_base + l.config_.led_rpm_step3 then (LED_PATTERN_4, l)
    else if rpm < rpm_threshold_base + l.config_.led_rpm_step4 then (LED_PATTERN_5, l)
    else
      let l := { l with flash_state_ := !l.flash_state_ }
      (if l.flash_state_ = true then LED_PATTERN_5 else LED_PATTERN_4, l)

def calculate_pattern (l : LedController) (telemetry : TelemetryData) : Nat × LedController :=
  if telemetry.parking_brake = true then l.get_parking_brake_pattern
  else if telemetry.brake > l.config_.led_brake_threshold then
    (l.calculate_brake_pattern telemetry.brake, l)
  else l.calculate_rpm_pattern telemetry.rpm telemetry.speed_kmh

end LedController

/-! ## types.hpp: HidDevice -/

/-- A discovered device; hid_device is the IOKit pointer, none for nullptr. -/
structure HidDevice where
  vendor_id : Nat := 0
  product_id : Nat := 0
  device_id : Nat := 0
  hid_device : Option Nat := none

namespace HidDevice

def is_valid (d : HidDevice) : Bool := d.hid_device.isSome

def is_g923 (d : HidDevice) : Bool := d.device_id == G923_DEVICE_ID

end HidDevice

namespace utils

def is_valid_device_id (device_id : Nat) : Bool := device_id != 0

end utils

/-! ## The IOKit device, outside the repository

The repository reaches the device through IOHIDDeviceOpen, IOHIDDeviceClose and
IOHIDDeviceSetReport. The device is modelled by the list of the calls made on it
so far, oldest first, and by the outcome of each call by its position in that
list, so that every sequence of outcomes is covered. Delays (usleep, the run
loop) and log output are not modelled. -/

/-- One call on the IOKit device. -/
inductive HidCall where
  | device_open
  | device_close
  | set_report (data : Command)
deriving DecidableEq

/-- The IOKit device: the calls made so far and, for each position, whether
the call at that position returns kIOReturnSuccess. -/
structure IOHIDDevice where
  calls : List HidCall := []
  succeeds : Nat → Bool := fun _ => true

/-- Make one call: its outcome is the one of its position, and it is logged. -/
def IOHIDDevice.call (d : IOHIDDevice) (c : HidCall) : Bool × IOHIDDevice :=
  (d.succeeds d.calls.length, { d with calls := d.calls ++ [c] })

/-! ## device.hpp and device.cpp: HidDeviceInterface -/

structure HidDeviceInterface where
  device_ : HidDevice
  is_open_ : Bool := false
  io : IOHIDDevice := {}

namespace HidDeviceInterface

def validate_device (h : HidDeviceInterface) : Bool :=
  if h.device_.is_valid = false then false
  else if utils.is_valid_device_id h.device_.device_id = false then false
  else true

def is_open (h : HidDeviceInterface) : Bool := h.is_open_

/-- HidDeviceInterface::open; named open_device since open is reserved. -/
def open_device (h : HidDeviceInterface) : Bool × HidDeviceInterface :=
  if h.is_open_ = true then (true, h)
  else if h.validate_device = false then (false, h)
  else
    let r := h.io.call HidCall.device_open
    if r.1 = true then (true, { h with is_open_ := true, io := r.2 })
    else (false, { h with io := r.2 })

def close (h : HidDeviceInterface) : Bool × HidDeviceInterface :=
  if h.is_open_ = false then (true, h)
  else
    let r := h.io.call HidCall.device_close
    if r.1 = true then (true, { h with is_open_ := false, io := r.2 })
    else (false, { h with io := r.2 })

def send_command (h : HidDeviceInterface) (command : Command) : Bool × HidDeviceInterface :=
  if h.is_open_ = false then (false, h)
  else
    let r := h.io.call (HidCall.set_report command)
    (r.1, { h with io := r.2 })

/-- The destructor closes a handle that is still open. -/
def destructor (h : HidDeviceInterface) : HidDeviceInterface :=
  if h.is_open_ = true then h.close.2 else h

end HidDeviceInterface

/-! ## wheel.hpp and wheel.cpp: WheelController

The constructor always allocates device_interface_ and nothing in the
repository moves from a controller, so the pointer is never null and the
interface is a plain field. -/

structure WheelController where
  device_ : HidDevice
  device_interface_ : HidDeviceInterface
  is_initialized_ : Bool := false
  is_calibrated_ : Bool := false

namespace WheelController

/-- The constructor, for a device and the IOKit device behind its pointer. -/
def create (device : HidDevice) (io : IOHIDDevice) : WheelController :=
  { device_ := device
    device_interface_ := { device_ := device, is_open_ := false, io := io }
    is_initialized_ := false
    is_calibrated_ := false }

def is_initialized (w : WheelController) : Bool := w.is_initialized_

def is_calibrated (w : WheelController) : Bool := w.is_calibrated_

def validate_device (w : WheelController) : Bool :=
  if w.device_.is_valid = false then false
  else if w.device_.is_g923 = false then false
  else true

def send_command (w : WheelController) (command : Command) : Bool × WheelController :=
  if w.device_interface_.is_open = false then (false, w)
  else
    let r := w.device_interface_.send_command command
    (r.1, { w with device_interface_ := r.2 })

def enable_autocenter (w : WheelController) : Bool × WheelController :=
  w.send_command CommandBuilder.create_enable_autocenter

def disable_autocenter (w : WheelController) : Bool × WheelController :=
  w.send_command CommandBuilder.create_disable_autocenter

def set_autocenter_spring (w : WheelController) (k1 k2 clip : Nat) : Bool × WheelController :=
  w.send_command (CommandBuilder.create_autocenter_spring k1 k2 clip)

def set_custom_spring (w : WheelController) (d1 d2 k1 k2 s1 s2 clip : Nat) :
    Bool × WheelController :=
  w.send_command (CommandBuilder.create_custom_spring d1 d2 k1 k2 s1 s2 clip)

def set_constant_force (w : WheelController) (force_level : Nat) : Bool × WheelController :=
  w.send_command (CommandBuilder.create_constant_force force_level)

def set_damper (w : WheelController) (k1 k2 s1 s2 : Nat) : Bool × WheelController :=
  w.send_command (CommandBuilder.create_damper k1 k2 s1 s2)

def set_trapezoid (w : WheelController) (l1 l2 t1 t2 t3 s : Nat) : Bool × WheelController :=
  w.send_command (CommandBuilder.create_trapezoid l1 l2 t1 t2 t3 s)

def stop_forces (w : WheelController) : Bool × WheelController :=
  w.send_command CommandBuilder.create_stop_forces

def set_led_pattern (w : WheelController) (pattern : Nat) : Bool × WheelController :=
  w.send_command (CommandBuilder.create_led_pattern pattern)

/-- WheelController::initialize; spelled initialise since initialize is
reserved. -/
def initialise (w : WheelController) : Bool × WheelController :=
  if w.is_initialized_ = true then (true, w)
  else if w.validate_device = false then (false, w)
  else
    let r := w.device_interface_.open_device
    let w := { w with device_interface_ := r.2 }
    if r.1 = false then (false, w)
    else
      let w := (w.set_led_pattern LED_PATTERN_OFF).2
      (true, { w with is_initialized_ := true })

/-- A sweep loop of perform_calibration_sequence over the successive values of
its counter i: each value is narrowed to std::uint8_t and sent as an LED
pattern, and a failed send is only logged. -/
def led_sweep (w : WheelController) : List Nat → WheelController
  | [] => w
  | i :: rest => led_sweep (w.set_led_pattern (i % 256)).2 rest

/-- The forward sweep counts i from 0 up to 31, the backward sweep from 31 down
to 0. -/
def perform_calibration_sequence (w : WheelController) : Bool × WheelController :=
  let r := w.set_led_pattern LED_PATTERN_OFF
  if r.1 = false then (false, r.2)
  else
    let w := led_sweep r.2 (List.range 32)
    let w := led_sweep w (List.range 32).reverse
    let r := w.disable_autocenter
    if r.1 = false then (false, r.2)
    else
      let r := r.2.set_constant_force 120
      if r.1 = false then (false, r.2)
      else
        let r := r.2.stop_forces
        if r.1 = false then (false, r.2)
        else
          let r := r.2.set_autocenter_spring 2 2 48
          if r.1 = false then (false, r.2)
          else
            let r := r.2.enable_autocenter
            if r.1 = false then (false, r.2)
            else (true, r.2)

def calibrate (w : WheelController) : Bool × WheelController :=
  if w.is_initialized_ = false then (false, w)
  else if w.is_calibrated_ = true then (true, w)
  else
    let r := w.perform_calibration_sequence
    if r.1 = false then (false, r.2)
    else (true, { r.2 with is_calibrated_ := true })

/-- The destructor: its body, then the destruction of the device_interface_
member. The result is the interface, and with it the IOKit device, as the
destruction leaves it. -/
def destructor (w : WheelController) : HidDeviceInterface :=
  let w :=
    if w.is_initialized_ = true then
      if w.device_interface_.is_open = true then
        let w := w.stop_forces.2
        let w := w.disable_autocenter.2
        let w := (w.set_led_pattern LED_PATTERN_OFF).2
        { w with device_interface_ := w.device_interface_.close.2 }
      else w
    else w
  w.device_interface_.destructor

end WheelController

/-! ## plugin_manager.hpp and plugin_manager.cpp: PluginManager

The members game_log_ and device_manager_ serve logging and discovery, which
are not modelled. -/

structure PluginManager where
  is_initialized_ : Bool := false
  is_paused_ : Bool := true
  last_timestamp_ : Nat := 2 ^ 64 - 1
  telemetry_data_ : TelemetryData := {}
  terrain_state_ : TerrainState := {}
  wheels_ : List WheelController := []
  force_calculator_ : Option ForceCalculator := none
  led_controller_ : Option LedController := none
  force_update_counter_ : Int := 0
  led_update_counter_ : Int := 0

namespace PluginManager

/-- The body of the loop over wheels_ in update_force_feedback, for one wheel:
the wheel and all_success as the iteration leaves them. -/
def update_force_feedback_wheel (params : ForceParameters) (wheel : WheelController)
    (all_success : Bool) : WheelController × Bool :=
  if wheel.is_initialized = false then (wheel, all_success)
  else if params.use_constant_force = true then
    let r := wheel.set_constant_force params.constant_force
    (r.2, if r.1 = false then false else all_success)
  else
    let wheel := wheel.stop_forces.2
    let (wheel, all_success) :=
      if params.use_custom_spring = true then
        let r := wheel.set_custom_spring 0 0 params.spring_k1 params.spring_k2 0 0
          params.spring_clip
        (r.2, if r.1 = false then false else all_success)
      else (wheel, all_success)
    let (wheel, all_success) :=
      if params.damper_force_positive > 0 ∨ params.damper_force_negative > 0 then
        let r := wheel.set_damper params.damper_force_positive params.damper_force_negative 0 0
        (r.2, if r.1 = false then false else all_success)
      else (wheel, all_success)
    if params.autocenter_force > 0 then
      let r := wheel.enable_autocenter
      if r.1 = false then (r.2, false)
      else
        let r := r.2.set_autocenter_spring params.autocenter_slope params.autocenter_slope
          params.autocenter_force
        (r.2, if r.1 = false then false else all_success)
    else
      let r := wheel.disable_autocenter
      (r.2, if r.1 = false then false else all_success)

/-- The loop over wheels_ in update_force_feedback. -/
def update_force_feedback_wheels (params : ForceParameters) :
    List WheelController → Bool → List WheelController × Bool
  | [], all_success => ([], all_success)
  | wheel :: rest, all_success =>
    let r := update_force_feedback_wheel params wheel all_success
    let rs := update_force_feedback_wheels params rest r.2
    (r.1 :: rs.1, rs.2)

def update_force_feedback (pm : PluginManager) : Bool × PluginManager :=
  match pm.force_calculator_ with
  | none => (false, pm)
  | some force_calculator =>
    if pm.wheels_.isEmpty = true then (false, pm)
    else
      let c := ForceCalculator.calculate force_calculator.config_ pm.telemetry_data_
        pm.terrain_state_
      let params := c.1
      let pm := { pm with terrain_state_ := c.2 }
      let r := update_force_feedback_wheels params pm.wheels_ true
      (r.2, { pm with wheels_ := r.1 })

/-- The loop over wheels_ in update_leds. -/
def update_leds_wheels (pattern : Nat) :
    List WheelController → Bool → List WheelController × Bool
  | [], all_success => ([], all_success)
  | wheel :: rest, all_success =>
    if wheel.is_initialized = false then
      let rs := update_leds_wheels pattern rest all_success
      (wheel :: rs.1, rs.2)
    else
      let r := wheel.set_led_pattern pattern
      let rs := update_leds_wheels pattern rest (if r.1 = false then false else all_success)
      (r.2 :: rs.1, rs.2)

def update_leds (pm : PluginManager) : Bool × PluginManager :=
  match pm.led_controller_ with
  | none => (false, pm)
  | some led_controller =>
    if pm.wheels_.isEmpty = true then (false, pm)
    else
      let c := led_controller.calculate_pattern pm.telemetry_data_
      let pattern := c.1
      let pm := { pm with led_controller_ := some c.2 }
      let r := update_leds_wheels pattern pm.wheels_ true
      (r.2, { pm with wheels_ := r.1 })

/-- The body of the loop of reset_all_wheels, for one wheel. -/
def reset_wheel (wheel : WheelController) : WheelController :=
  if wheel.is_initialized = false then wheel
  else
    let wheel := wheel.stop_forces.2
    let wheel := wheel.disable_autocenter.2
    (wheel.set_led_pattern LED_PATTERN_OFF).2

def reset_all_wheels (pm : PluginManager) : PluginManager :=
  { pm with wheels_ := pm.wheels_.map reset_wheel }

def on_frame_end (pm : PluginManager) : PluginManager :=
  if pm.is_paused_ = true then pm.reset_all_wheels
  else
    let pm : PluginManager := { pm with force_update_counter_ := pm.force_update_counter_ - 1 }
    let pm : PluginManager :=
      if pm.force_update_counter_ ≤ 0 then
        let pm := pm.update_force_feedback.2
        { pm with force_update_counter_ := FORCE_UPDATE_RATE }
      else pm
    let pm : PluginManager := { pm with led_update_counter_ := pm.led_update_counter_ - 1 }
    let pm : PluginManager :=
      if pm.led_update_counter_ ≤ 0 then
        let pm := pm.update_leds.2
        { pm with led_update_counter_ := LED_UPDATE_RATE }
      else pm
    { pm with terrain_state_ :=
        { pm.terrain_state_ with
          last_vertical_acceleration := pm.telemetry_data_.linear_acceleration_y } }

def on_pause (pm : PluginManager) (paused : Bool) : PluginManager :=
  let pm := { pm with is_paused_ := paused }
  if paused = true then pm.reset_all_wheels else pm

end PluginManager

/-! ## Predicates and functions used in the proofs -/

/-- The wheel after further calls have been logged on its IOKit device. -/
def WheelController.logged (w : WheelController) (cs : List HidCall) : WheelController :=
  { w with device_interface_ :=
      { w.device_interface_ with
        io := { w.device_interface_.io with calls := w.device_interface_.io.calls ++ cs } } }

/-- The outcome of the call that is k positions after the calls logged so far. -/
def WheelController.outcome (w : WheelController) (k : Nat) : Bool :=
  w.device_interface_.io.succeeds (w.device_interface_.io.calls.length + k)

/-- The report that carries an LED pattern after narrowing to a byte. -/
def led_report (i : Nat) : HidCall :=
  HidCall.set_report (CommandBuilder.create_led_pattern (i % 256))

/-- The calls of the LED part of the calibration: LED off, the forward sweep
and the backward sweep. -/
def led_calls : List HidCall :=
  HidCall.set_report (CommandBuilder.create_led_pattern LED_PATTERN_OFF) ::
    ((List.range 32).map led_report ++ (List.range 32).reverse.map led_report)

/-- The calls of the force-feedback self-test of the calibration. -/
def self_test_calls : List HidCall :=
  [HidCall.set_report CommandBuilder.create_disable_autocenter,
    HidCall.set_report (CommandBuilder.create_constant_force 120),
    HidCall.set_report CommandBuilder.create_stop_forces,
    HidCall.set_report (CommandBuilder.create_autocenter_spring 2 2 48),
    HidCall.set_report CommandBuilder.create_enable_autocenter]

/-- The calls of the neutral reset: stop forces, disable autocenter, LED off. -/
def reset_calls : List HidCall :=
  [HidCall.set_report CommandBuilder.create_stop_forces,
    HidCall.set_report CommandBuilder.create_disable_autocenter,
    HidCall.set_report (CommandBuilder.create_led_pattern LED_PATTERN_OFF)]

/-- The orchestrator after n consecutive frame ends, where tel k is the sample
that the telemetry feed has put in place before frame end number k + 1. -/
def PluginManager.run_frames (tel : Nat → TelemetryData) (pm : PluginManager) :
    Nat → PluginManager
  | 0 => pm
  | n + 1 => PluginManager.on_frame_end
      { PluginManager.run_frames tel pm n with telemetry_data_ := tel n }

/-- A sample used to show that the damper bound is attained: 10 m/s, a bump
of 10 g, and a yaw rate of 1 with the steering turned the same way. -/
def bump_oversteer_sample : TelemetryData :=
  { speed := 10, steering := 0.5, angular_velocity_z := 1, linear_acceleration_y := 98.1 }

/-- Every numeric field of the parameters is at most 255. -/
def ForceParameters.fits_bytes (p : ForceParameters) : Prop :=
  p.autocenter_force ≤ 255 ∧ p.autocenter_slope ≤ 255 ∧
  p.damper_force_positive ≤ 255 ∧ p.damper_force_negative ≤ 255 ∧
  p.constant_force ≤ 255 ∧ p.spring_k1 ≤ 255 ∧ p.spring_k2 ≤ 255 ∧ p.spring_clip ≤ 255

/-! ## Helper lemmas: rounding to binary32 -/

namespace binary32

theorem floor_le_round_half_even (q : ℚ) : ⌊q⌋ ≤ round_half_even q := by
  unfold round_half_even
  split_ifs <;> omega

theorem round_half_even_le_floor_add_one (q : ℚ) : round_half_even q ≤ ⌊q⌋ + 1 := by
  unfold round_half_even
  split_ifs <;> omega

theorem round_half_even_intCast (n : ℤ) : round_half_even (n : ℚ) = n := by
  unfold round_half_even
  simp

theorem round_half_even_mono {q r : ℚ} (h : q ≤ r) : round_half_even q ≤ round_half_even r := by
  have hf : ⌊q⌋ ≤ ⌊r⌋ := Int.floor_le_floor h
  rcases lt_or_eq_of_le hf with hlt | heq
  · exact le_trans (round_half_even_le_floor_add_one q)
      (le_trans (by omega) (floor_le_round_half_even r))
  · unfold round_half_even
    rw [← heq]
    have hd : q - ⌊q⌋ ≤ r - ⌊q⌋ := by linarith
    split_ifs <;> first | omega | (exfalso; linarith)

theorem ulp_pos (a : ℚ) : 0 < ulp a := by
  unfold ulp
  positivity

theorem round_magnitude_nonneg {a : ℚ} (h : 0 ≤ a) : 0 ≤ round_magnitude a := by
  unfold round_magnitude
  have h0 : (0 : ℚ) ≤ a / ulp a := div_nonneg h (ulp_pos a).le
  have := round_half_even_mono h0
  rw [show ((0 : ℚ)) = ((0 : ℤ) : ℚ) by simp, round_half_even_intCast] at this
  exact mul_nonneg (by exact_mod_cast this) (ulp_pos a).le


/-- The binary exponent used for a. -/
theorem ulp_eq (a : ℚ) : ulp a = 2 ^ (max (Int.log 2 a) (-126) - 23) := rfl

theorem lt_two_zpow (a : ℚ) : a < 2 ^ (max (Int.log 2 a) (-126) + 1) := by
  have h := Int.lt_zpow_succ_log_self (by norm_num : 1 < 2) a
  have h2 : ((2 : ℕ) : ℚ) ^ (Int.log 2 a + 1) ≤ (2 : ℚ) ^ (max (Int.log 2 a) (-126) + 1) := by
    rw [Nat.cast_ofNat]
    exact zpow_le_zpow_right₀ (by norm_num) (by omega)
  exact lt_of_lt_of_le h h2

theorem two_zpow_le {a : ℚ} (ha : 0 < a) (h : -126 < max (Int.log 2 a) (-126)) :
    (2 : ℚ) ^ (max (Int.log 2 a) (-126)) ≤ a := by
  have e : max (Int.log 2 a) (-126) = Int.log 2 a := by omega
  rw [e]
  have := Int.zpow_log_le_self (by norm_num : 1 < 2) ha
  rwa [Nat.cast_ofNat] at this

theorem two_zpow_split (e : ℤ) (k : ℕ) : (2 : ℚ) ^ (e - 23 + k) = 2 ^ k * 2 ^ (e - 23) := by
  rw [zpow_add₀ (by norm_num), zpow_natCast, mul_comm]

theorem round_magnitude_zero : round_magnitude 0 = 0 := by
  unfold round_magnitude
  rw [zero_div, show ((0 : ℚ)) = ((0 : ℤ) : ℚ) by simp, round_half_even_intCast]
  simp

theorem round_magnitude_le_two_zpow (a : ℚ) :
    round_magnitude a ≤ 2 ^ (max (Int.log 2 a) (-126) + 1) := by
  have h := lt_two_zpow a
  have hu := ulp_pos a
  have e : (2 : ℚ) ^ (max (Int.log 2 a) (-126) + 1) = ((2 ^ 24 : ℤ) : ℚ) * ulp a := by
    rw [ulp_eq, show max (Int.log 2 a) (-126) + 1 = max (Int.log 2 a) (-126) - 23 + (24 : ℕ) by
      push_cast; ring, two_zpow_split]
    norm_num
  rw [e] at h ⊢
  unfold round_magnitude
  have h1 : a / ulp a ≤ ((2 ^ 24 : ℤ) : ℚ) := by
    rw [div_le_iff₀ hu]
    exact h.le
  have h2 := round_half_even_mono h1
  rw [round_half_even_intCast] at h2
  exact mul_le_mul_of_nonneg_right (by exact_mod_cast h2) hu.le

theorem two_zpow_le_round_magnitude {a : ℚ} (ha : 0 < a)
    (h : -126 < max (Int.log 2 a) (-126)) :
    (2 : ℚ) ^ (max (Int.log 2 a) (-126)) ≤ round_magnitude a := by
  have h0 := two_zpow_le ha h
  have hu := ulp_pos a
  have e : (2 : ℚ) ^ (max (Int.log 2 a) (-126)) = ((2 ^ 23 : ℤ) : ℚ) * ulp a := by
    rw [ulp_eq, show max (Int.log 2 a) (-126) = max (Int.log 2 a) (-126) - 23 + (23 : ℕ) by
      push_cast; ring, two_zpow_split]
    norm_num
  rw [e] at h0 ⊢
  unfold round_magnitude
  have h1 : ((2 ^ 23 : ℤ) : ℚ) ≤ a / ulp a := by
    rw [le_div_iff₀ hu]
    exact h0
  have h2 := round_half_even_mono h1
  rw [round_half_even_intCast] at h2
  exact mul_le_mul_of_nonneg_right (by exact_mod_cast h2) hu.le

/-- Rounding is monotone on magnitudes. -/
theorem round_magnitude_mono {a b : ℚ} (ha : 0 ≤ a) (hab : a ≤ b) :
    round_magnitude a ≤ round_magnitude b := by
  rcases eq_or_lt_of_le ha with h0 | hpos
  · rw [← h0, round_magnitude_zero]
    exact round_magnitude_nonneg (le_trans ha hab)
  · have hlog : Int.log 2 a ≤ Int.log 2 b := Int.log_mono_right hpos hab
    have hle : max (Int.log 2 a) (-126) ≤ max (Int.log 2 b) (-126) := by omega
    rcases eq_or_lt_of_le hle with heq | hlt
    · have hu : ulp a = ulp b := by rw [ulp_eq, ulp_eq, heq]
      unfold round_magnitude
      rw [hu]
      have h1 : a / ulp b ≤ b / ulp b := div_le_div_of_nonneg_right hab (ulp_pos b).le
      exact mul_le_mul_of_nonneg_right (by exact_mod_cast round_half_even_mono h1) (ulp_pos b).le
    · have k1 := round_magnitude_le_two_zpow a
      have k2 := two_zpow_le_round_magnitude (lt_of_lt_of_le hpos hab) (by omega)
      have k3 : (2 : ℚ) ^ (max (Int.log 2 a) (-126) + 1) ≤ 2 ^ (max (Int.log 2 b) (-126)) :=
        zpow_le_zpow_right₀ (by norm_num) (by omega)
      exact le_trans k1 (le_trans k3 k2)

theorem round_nearest_zero : round_nearest 0 = 0 := by
  unfold round_nearest
  simp [round_magnitude_zero]

/-- Rounding to binary32 is monotone. -/
theorem round_nearest_mono {x y : ℚ} (h : x ≤ y) : round_nearest x ≤ round_nearest y := by
  unfold round_nearest
  split_ifs with hx hy hy
  · exact neg_le_neg (round_magnitude_mono (by linarith) (by linarith))
  · exact le_trans (neg_nonpos.mpr (round_magnitude_nonneg (by linarith)))
      (round_magnitude_nonneg (by linarith))
  · exfalso; linarith
  · exact round_magnitude_mono (by linarith) h

/-- A value m * 2 ^ k with m below 2 ^ 24 and k at least -149 is a binary32 value. -/
theorem round_magnitude_of_grid (m : ℕ) (k : ℤ) (hm : m < 2 ^ 24) (hk : -149 ≤ k) :
    round_magnitude ((m : ℚ) * 2 ^ k) = (m : ℚ) * 2 ^ k := by
  rcases Nat.eq_zero_or_pos m with h0 | hpos
  · rw [h0]
    simp [round_magnitude_zero]
  · have hk2 : (0 : ℚ) < 2 ^ k := by positivity
    have ha : (0 : ℚ) < (m : ℚ) * 2 ^ k := mul_pos (by exact_mod_cast hpos) hk2
    have hlt : (m : ℚ) * 2 ^ k < ((2 : ℕ) : ℚ) ^ (k + 24) := by
      rw [Nat.cast_ofNat, show k + 24 = k + (24 : ℕ) by push_cast; ring, zpow_add₀ (by norm_num),
        zpow_natCast, mul_comm]
      exact mul_lt_mul_of_pos_left (by exact_mod_cast hm) hk2
    have hlog : Int.log 2 ((m : ℚ) * 2 ^ k) < k + 24 :=
      (Int.lt_zpow_iff_log_lt (by norm_num) ha).mp hlt
    obtain ⟨n, hn⟩ : ∃ n : ℕ, k = max (Int.log 2 ((m : ℚ) * 2 ^ k)) (-126) - 23 + n :=
      ⟨(k - (max (Int.log 2 ((m : ℚ) * 2 ^ k)) (-126) - 23)).toNat, by omega⟩
    have hu : (2 : ℚ) ^ k = 2 ^ n * ulp ((m : ℚ) * 2 ^ k) := by
      rw [ulp_eq]
      nth_rewrite 1 [hn]
      exact two_zpow_split _ n
    have hq : (m : ℚ) * 2 ^ k / ulp ((m : ℚ) * 2 ^ k) = (((m * 2 ^ n : ℕ) : ℤ) : ℚ) := by
      rw [div_eq_iff (ulp_pos _).ne.symm]
      nth_rewrite 1 [hu]
      push_cast
      ring
    unfold round_magnitude
    rw [hq, round_half_even_intCast]
    push_cast
    rw [mul_assoc, ← hu]

theorem round_nearest_natCast (n : ℕ) (h : n < 2 ^ 24) : round_nearest (n : ℚ) = n := by
  unfold round_nearest
  rw [if_neg (by exact_mod_cast not_lt.mpr (Nat.zero_le n))]
  have := round_magnitude_of_grid n 0 h (by norm_num)
  simpa using this

theorem round_nearest_neg_natCast (n : ℕ) (h : n < 2 ^ 24) :
    round_nearest (-(n : ℚ)) = -(n : ℚ) := by
  rcases Nat.eq_zero_or_pos n with h0 | hpos
  · rw [h0]
    simp [round_nearest_zero]
  · unfold round_nearest
    rw [if_pos (by simpa using hpos), neg_neg]
    have := round_magnitude_of_grid n 0 h (by norm_num)
    simpa using this

/-- Rounding a magnitude with a known binary exponent. -/
theorem round_magnitude_eq (a : ℚ) (e n : ℤ) (he : -126 ≤ e) (h1 : (2 : ℚ) ^ e ≤ a)
    (h2 : a < 2 ^ (e + 1)) (hn : round_half_even (a / 2 ^ (e - 23)) = n) :
    round_magnitude a = (n : ℚ) * 2 ^ (e - 23) := by
  have ha : (0 : ℚ) < a := lt_of_lt_of_le (by positivity) h1
  have hlog : Int.log 2 a = e := by
    apply le_antisymm
    · have := (Int.lt_zpow_iff_log_lt (by norm_num : 1 < 2) ha).mp
        (by rw [Nat.cast_ofNat]; exact h2)
      omega
    · exact (Int.zpow_le_iff_le_log (by norm_num : 1 < 2) ha).mp
        (by rw [Nat.cast_ofNat]; exact h1)
  have hu : ulp a = 2 ^ (e - 23) := by
    rw [ulp_eq, hlog, max_eq_left he]
  unfold round_magnitude
  rw [hu, hn]

theorem round_half_even_of_lt (q : ℚ) (n : ℤ) (h1 : (n : ℚ) - 1 / 2 < q)
    (h2 : q < (n : ℚ) + 1 / 2) : round_half_even q = n := by
  unfold round_half_even
  rcases le_or_lt (n : ℚ) q with h | h
  · have hf : ⌊q⌋ = n := Int.floor_eq_iff.mpr ⟨h, by linarith⟩
    rw [hf, if_pos (by linarith)]
  · have hf : ⌊q⌋ = n - 1 := Int.floor_eq_iff.mpr ⟨by push_cast; linarith, by push_cast; linarith⟩
    rw [hf, if_neg (by push_cast; linarith), if_pos (by push_cast; linarith)]
    omega

end binary32

namespace binary32

theorem round_nearest_of_nonneg {x : ℚ} (h : 0 ≤ x) : round_nearest x = round_magnitude x := by
  unfold round_nearest
  rw [if_neg (not_lt.mpr h)]

/-- A rounded value stays at or below a small natural number that bounds it. -/
theorem round_nearest_le_natCast (x : ℚ) (n : ℕ) (hn : n < 2 ^ 24) (h : x ≤ (n : ℚ)) :
    round_nearest x ≤ (n : ℚ) := by
  have := round_nearest_mono h
  rwa [round_nearest_natCast n hn] at this

/-- A rounded value stays at or above a small natural number below it. -/
theorem natCast_le_round_nearest (x : ℚ) (n : ℕ) (hn : n < 2 ^ 24) (h : (n : ℚ) ≤ x) :
    (n : ℚ) ≤ round_nearest x := by
  have := round_nearest_mono h
  rwa [round_nearest_natCast n hn] at this

theorem round_nearest_le_neg_natCast (x : ℚ) (n : ℕ) (hn : n < 2 ^ 24) (h : x ≤ -(n : ℚ)) :
    round_nearest x ≤ -(n : ℚ) := by
  have := round_nearest_mono h
  rwa [round_nearest_neg_natCast n hn] at this

end binary32

/-! ## Helper lemmas: the speed in km/h -/

namespace TelemetryData

/-- The speed in km/h is monotone in the speed. -/
theorem speed_kmh_mono {t1 t2 : TelemetryData} (h : t1.speed ≤ t2.speed) :
    t1.speed_kmh ≤ t2.speed_kmh :=
  binary32.round_nearest_mono (mul_le_mul_of_nonneg_right h (by norm_num))

theorem speed_kmh_le_natCast (t : TelemetryData) (n : ℕ) (hn : n < 2 ^ 24)
    (h : t.speed * (7549747 / 2097152) ≤ (n : ℚ)) : t.speed_kmh ≤ (n : ℚ) :=
  binary32.round_nearest_le_natCast _ n hn h

theorem natCast_le_speed_kmh (t : TelemetryData) (n : ℕ) (hn : n < 2 ^ 24)
    (h : (n : ℚ) ≤ t.speed * (7549747 / 2097152)) : (n : ℚ) ≤ t.speed_kmh :=
  binary32.natCast_le_round_nearest _ n hn h

theorem speed_kmh_le_neg_natCast (t : TelemetryData) (n : ℕ) (hn : n < 2 ^ 24)
    (h : t.speed * (7549747 / 2097152) ≤ -(n : ℚ)) : t.speed_kmh ≤ -(n : ℚ) :=
  binary32.round_nearest_le_neg_natCast _ n hn h

/-- A reverse speed of 2 m/s or more is at most -7 km/h. -/
theorem speed_kmh_le_of_reverse (t : TelemetryData) (h : t.speed ≤ -2) : t.speed_kmh ≤ -7 := by
  have := t.speed_kmh_le_neg_natCast 7 (by norm_num) (by push_cast; linarith)
  simpa using this

/-- At 10 m/s the product 10 * 3.6f rounds to 36. -/
theorem speed_kmh_of_speed_ten (t : TelemetryData) (h : t.speed = 10) : t.speed_kmh = 36 := by
  unfold speed_kmh
  rw [h, binary32.round_nearest_of_nonneg (by norm_num),
    binary32.round_magnitude_eq _ 5 9437184 (by norm_num) (by norm_num) (by norm_num)
      (binary32.round_half_even_of_lt _ 9437184 (by norm_num) (by norm_num))]
  norm_num

/-- At the binary32 value nearest to 50 / 3.6, which is 3640889 / 262144, the
product with 3.6f rounds to 50. -/
theorem speed_kmh_eq_fifty (t : TelemetryData) (h : t.speed = 3640889 / 262144) :
    t.speed_kmh = 50 := by
  unfold speed_kmh
  rw [h, binary32.round_nearest_of_nonneg (by norm_num),
    binary32.round_magnitude_eq _ 5 13107200 (by norm_num) (by norm_num) (by norm_num)
      (binary32.round_half_even_of_lt _ 13107200 (by norm_num) (by norm_num))]
  norm_num

theorem speed_kmh_of_speed_zero (t : TelemetryData) (h : t.speed = 0) : t.speed_kmh = 0 := by
  unfold speed_kmh
  rw [h, zero_mul, binary32.round_nearest_zero]

end TelemetryData

/-! ## Helper lemmas: nibble packing -/

/-- A packed pair of nibbles fits a byte, so narrowing it changes nothing. -/
theorem pack_mod_of_nibbles (hi lo : Nat) (hhi : hi ≤ 15) (hlo : lo ≤ 15) :
    ((hi <<< 4) ||| lo) % 256 = (hi <<< 4) ||| lo := by
  apply Nat.mod_eq_of_lt
  have h1 : hi <<< 4 < 2 ^ 8 := by
    rw [Nat.shiftLeft_eq]
    omega
  have h2 : lo < 2 ^ 8 := by omega
  exact Nat.or_lt_two_pow h1 h2

/-- Narrowing a packed pair of bytes keeps the low four bits of the shifted
operand and the whole of the other operand. -/
theorem pack_mod_of_bytes (hi lo : Nat) (hlo : lo < 256) :
    ((hi <<< 4) ||| lo) % 256 = ((hi % 16) <<< 4) ||| lo := by
  have e : (256 : Nat) = 2 ^ 8 := by norm_num
  have e16 : (16 : Nat) = 2 ^ 4 := by norm_num
  apply Nat.eq_of_testBit_eq
  intro i
  rw [e, e16, Nat.testBit_mod_two_pow, Nat.testBit_or, Nat.testBit_or, Nat.testBit_shiftLeft,
    Nat.testBit_shiftLeft, Nat.testBit_mod_two_pow]
  by_cases h8 : i < 8
  · by_cases h4 : 4 ≤ i
    · have : i - 4 < 4 := by omega
      simp [h8, h4, this]
    · simp [h8, h4]
  · have hl : lo.testBit i = false := by
      apply Nat.testBit_lt_two_pow
      calc lo < 2 ^ 8 := by omega
        _ ≤ 2 ^ i := Nat.pow_le_pow_right (by norm_num) (by omega)
    have : ¬ (i - 4 < 4) := by omega
    simp [h8, hl, this]

/-- Unpacking a packed pair of nibbles gives the pair back. -/
theorem unpack_pack (hi lo : Nat) (hhi : hi ≤ 15) (hlo : lo ≤ 15) :
    ((hi <<< 4) ||| lo) &&& 0xF = lo ∧ ((hi <<< 4) ||| lo) >>> 4 = hi := by
  interval_cases hi <;> interval_cases lo <;> exact ⟨rfl, rfl⟩

/-- The bytes of a force-effect command with five parameters. -/
theorem create_force_effect_command_five (e p0 p1 p2 p3 p4 : Nat) :
    CommandBuilder.create_force_effect_command e [p0, p1, p2, p3, p4] =
      [0xF1, e, p0, p1, p2, p3, p4, 0] := rfl

/-! ## Helper lemmas: the force pipeline below the stationary threshold -/

namespace ForceCalculator

/-- The saturating cast is the identity on the natural numbers up to 255. -/
theorem clamp_to_byte_natCast (n : Nat) (h : n ≤ 255) : clamp_to_byte (n : ℚ) = n := by
  have h1 : ((n : ℚ)) ≤ 255 := by exact_mod_cast h
  have h2 : (0 : ℚ) ≤ (n : ℚ) := by positivity
  have h3 : Rat.floor (n : ℚ) = ⌊(n : ℚ)⌋ := rfl
  simp [clamp_to_byte, utils.clamp, h1, h2, h3]

theorem speed_kmh_lt_of_abs_lt (t : TelemetryData) (h : |t.speed| < 2) : t.speed_kmh < 10 := by
  have h2 := (abs_lt.mp h).2
  have h8 := t.speed_kmh_le_natCast 8 (by norm_num) (by push_cast; linarith)
  push_cast at h8
  linarith

/-- Base forces in the stationary regime without power steering. -/
theorem base_forces_stationary (t : TelemetryData) (hspeed : |t.speed| < 2)
    (hps : ¬ (t.engine_enabled = true ∧ t.rpm > 500)) :
    calculate_base_forces FfbConfig.default t {} =
      { damper_force_positive := 4, damper_force_negative := 4 } := by
  have hk := speed_kmh_lt_of_abs_lt t hspeed
  have e4 : clamp_to_byte 4 = 4 := by exact_mod_cast clamp_to_byte_natCast 4 (by norm_num)
  have e0 : clamp_to_byte 0 = 0 := by exact_mod_cast clamp_to_byte_natCast 0 (by norm_num)
  simp only [calculate_base_forces, FfbConfig.default, calculate_power_steering_multiplier,
    calculate_centering_multiplier, if_neg hps, if_pos hk]
  norm_num [hspeed, e4, e0]

/-- No self-aligning torque at or below the stationary threshold. -/
theorem self_aligning_torque_stationary (t : TelemetryData) (hspeed : |t.speed| ≤ 2)
    (p : ForceParameters) : calculate_self_aligning_torque FfbConfig.default t p = p := by
  simp only [calculate_self_aligning_torque, FfbConfig.default]
  norm_num [hspeed]

/-- The brake stage does nothing without motor brake and retarder. -/
theorem power_steering_effects_idle (c : FfbConfig) (t : TelemetryData)
    (hmb : t.motor_brake = false) (hret : t.retarder_level = 0) (p : ForceParameters) :
    calculate_power_steering_effects c t p = p := by
  simp [calculate_power_steering_effects, hmb, hret]

/-- The yaw stage does nothing at an absolute speed of at most 5. -/
theorem vehicle_dynamics_slow (c : FfbConfig) (t : TelemetryData) (h5 : |t.speed| ≤ 5)
    (p : ForceParameters) : calculate_vehicle_dynamics_effects c t p = p := by
  have h : ¬ (|t.speed| > 5) := not_lt.mpr h5
  simp [calculate_vehicle_dynamics_effects, h]

/-- The kickback stage does nothing at an absolute speed of at most 5. -/
theorem steering_kickback_slow (t : TelemetryData) (h5 : |t.speed| ≤ 5)
    (p : ForceParameters) : calculate_steering_kickback FfbConfig.default t p = p := by
  have h : ¬ (|t.speed| > 5) := not_lt.mpr h5
  simp only [calculate_steering_kickback, FfbConfig.default]
  norm_num [h]

/-- The terrain stage leaves the parameters alone on a fresh terrain state when
the sample has no vertical acceleration. -/
theorem terrain_effects_flat (t : TelemetryData) (hvert : t.linear_acceleration_y = 0)
    (p : ForceParameters) :
    (calculate_terrain_effects FfbConfig.default t (update_terrain_state t {}) p).2 = p := by
  simp only [calculate_terrain_effects, update_terrain_state, TerrainState.update,
    detect_terrain_impact, terrain_regime, impact_threshold, FfbConfig.default,
    TelemetryData.vertical_g, hvert]
  norm_num

end ForceCalculator

/-! ## Helper lemmas: the slope is set by the base stage alone -/

namespace ForceCalculator

theorem self_aligning_torque_slope (c : FfbConfig) (t : TelemetryData) (p : ForceParameters) :
    (calculate_self_aligning_torque c t p).autocenter_slope = p.autocenter_slope := by
  simp only [calculate_self_aligning_torque]
  split_ifs <;> rfl

theorem power_steering_effects_slope (c : FfbConfig) (t : TelemetryData) (p : ForceParameters) :
    (calculate_power_steering_effects c t p).autocenter_slope = p.autocenter_slope := by
  simp only [calculate_power_steering_effects]
  split_ifs <;> rfl

theorem terrain_effects_slope (c : FfbConfig) (t : TelemetryData) (s : TerrainState)
    (p : ForceParameters) :
    (calculate_terrain_effects c t s p).2.autocenter_slope = p.autocenter_slope := by
  simp only [calculate_terrain_effects]
  split_ifs <;> rfl

theorem vehicle_dynamics_slope (c : FfbConfig) (t : TelemetryData) (p : ForceParameters) :
    (calculate_vehicle_dynamics_effects c t p).autocenter_slope = p.autocenter_slope := by
  simp only [calculate_vehicle_dynamics_effects]
  split_ifs <;> rfl

theorem steering_kickback_slope (c : FfbConfig) (t : TelemetryData) (p : ForceParameters) :
    (calculate_steering_kickback c t p).autocenter_slope = p.autocenter_slope := by
  simp only [calculate_steering_kickback]
  split_ifs <;> rfl

/-- The slope that calculate returns is the one the base stage chose. -/
theorem calculate_slope (c : FfbConfig) (t : TelemetryData) (s : TerrainState) :
    (calculate c t s).1.autocenter_slope = (calculate_base_forces c t {}).autocenter_slope := by
  simp only [calculate, steering_kickback_slope, vehicle_dynamics_slope, terrain_effects_slope,
    power_steering_effects_slope, self_aligning_torque_slope]

/-- The slope of the base stage under the default configuration, by speed. -/
theorem base_forces_slope (t : TelemetryData) :
    (calculate_base_forces FfbConfig.default t {}).autocenter_slope =
      if |t.speed| < 2 then 0
      else if t.speed_kmh < 15 then 2
      else if t.speed_kmh < 35 then 2
      else if t.speed_kmh < 65 then 3
      else if t.speed_kmh < 100 then 4
      else 5 := by
  simp only [calculate_base_forces, FfbConfig.default]
  norm_num
  split_ifs <;> rfl

/-- The slope as a function of the speed alone is monotone except from reverse
driving into the stationary band. -/
theorem base_forces_slope_mono (t : TelemetryData) (v1 v2 : ℚ) (h : v1 ≤ v2)
    (hband : |v1| < 2 ∨ 2 ≤ |v2|) :
    (calculate_base_forces FfbConfig.default { t with speed := v1 } {}).autocenter_slope ≤
      (calculate_base_forces FfbConfig.default { t with speed := v2 } {}).autocenter_slope := by
  have hk : (({ t with speed := v1 } : TelemetryData)).speed_kmh ≤
      (({ t with speed := v2 } : TelemetryData)).speed_kmh := TelemetryData.speed_kmh_mono h
  rw [base_forces_slope, base_forces_slope]
  simp only []
  have hb : (-2 < v1 ∧ v1 < 2) ∨ (v2 ≤ -2 ∨ 2 ≤ v2) := by
    rcases hband with h1 | h2
    · exact Or.inl (abs_lt.mp h1)
    · exact Or.inr (le_abs'.mp h2)
  by_cases a1 : |v1| < 2
  · simp [a1]
  · have a1' : v1 ≤ -2 ∨ 2 ≤ v1 := le_abs'.mp (not_lt.mp a1)
    have a2 : ¬ |v2| < 2 := by
      rw [abs_lt]
      rintro ⟨x, y⟩
      rcases hb with ⟨u, w⟩ | u | u
      · rcases a1' with z | z <;> linarith
      · linarith
      · linarith
    rw [if_neg a1, if_neg a2]
    split_ifs <;> first | (exfalso; linarith) | norm_num

end ForceCalculator

/-! ## Helper lemmas: the constant-force flag is set by the kickback stage alone -/

namespace ForceCalculator

theorem base_forces_constant (c : FfbConfig) (t : TelemetryData) (p : ForceParameters) :
    (calculate_base_forces c t p).use_constant_force = p.use_constant_force ∧
    (calculate_base_forces c t p).constant_force = p.constant_force := by
  simp only [calculate_base_forces]
  split_ifs <;> exact ⟨rfl, rfl⟩

theorem self_aligning_torque_constant (c : FfbConfig) (t : TelemetryData)
    (p : ForceParameters) :
    (calculate_self_aligning_torque c t p).use_constant_force = p.use_constant_force ∧
    (calculate_self_aligning_torque c t p).constant_force = p.constant_force := by
  simp only [calculate_self_aligning_torque]
  split_ifs <;> exact ⟨rfl, rfl⟩

theorem power_steering_effects_constant (c : FfbConfig) (t : TelemetryData)
    (p : ForceParameters) :
    (calculate_power_steering_effects c t p).use_constant_force = p.use_constant_force ∧
    (calculate_power_steering_effects c t p).constant_force = p.constant_force := by
  simp only [calculate_power_steering_effects]
  split_ifs <;> exact ⟨rfl, rfl⟩

theorem terrain_effects_constant (c : FfbConfig) (t : TelemetryData) (s : TerrainState)
    (p : ForceParameters) :
    (calculate_terrain_effects c t s p).2.use_constant_force = p.use_constant_force ∧
    (calculate_terrain_effects c t s p).2.constant_force = p.constant_force := by
  simp only [calculate_terrain_effects]
  split_ifs <;> exact ⟨rfl, rfl⟩

theorem vehicle_dynamics_constant (c : FfbConfig) (t : TelemetryData) (p : ForceParameters) :
    (calculate_vehicle_dynamics_effects c t p).use_constant_force = p.use_constant_force ∧
    (calculate_vehicle_dynamics_effects c t p).constant_force = p.constant_force := by
  simp only [calculate_vehicle_dynamics_effects]
  split_ifs <;> exact ⟨rfl, rfl⟩

/-- The constant-force flag that calculate returns: the kickback condition. -/
theorem calculate_use_constant_force (c : FfbConfig) (t : TelemetryData) (s : TerrainState) :
    (calculate c t s).1.use_constant_force =
      decide (|t.angular_acceleration_z| > c.kickback_threshold ∧
        |t.speed| > c.kickback_speed_threshold) := by
  simp only [calculate, calculate_steering_kickback, (vehicle_dynamics_constant c t _).1,
    (terrain_effects_constant c t _ _).1, (power_steering_effects_constant c t _).1,
    (self_aligning_torque_constant c t _).1, (base_forces_constant c t _).1]
  split_ifs with h
  · simp [h.1, h.2.1]
  · have h2 : ¬ (|t.angular_acceleration_z| > c.kickback_threshold ∧
        |t.speed| > c.kickback_speed_threshold) := fun hx => h ⟨hx.1, hx.2, trivial⟩
    simp only [(vehicle_dynamics_constant c t _).1,
      (terrain_effects_constant c t _ _).1, (power_steering_effects_constant c t _).1,
      (self_aligning_torque_constant c t _).1, (base_forces_constant c t _).1]
    simp [h2]

end ForceCalculator

/-! ## Helper lemmas: the saturating cast -/

namespace ForceCalculator

theorem clamp_bounds (x : ℚ) : 0 ≤ utils.clamp x 0 255 ∧ utils.clamp x 0 255 ≤ 255 := by
  unfold utils.clamp
  exact ⟨le_max_left _ _, max_le (by norm_num) (min_le_left _ _)⟩

theorem clamp_to_byte_le (x : ℚ) : clamp_to_byte x ≤ 255 := by
  have h := (clamp_bounds x).2
  have hf : Rat.floor (utils.clamp x 0 255) ≤ 255 := by
    have h1 : (⌊utils.clamp x 0 255⌋ : ℤ) ≤ ⌊(255 : ℚ)⌋ := Int.floor_le_floor h
    have h2 : ⌊(255 : ℚ)⌋ = 255 := by
      have h3 : ⌊((255 : ℤ) : ℚ)⌋ = 255 := Int.floor_intCast 255
      exact_mod_cast h3
    rw [h2] at h1
    exact h1
  unfold clamp_to_byte
  omega

theorem clamp_to_byte_of_nonpos (x : ℚ) (h : x ≤ 0) : clamp_to_byte x = 0 := by
  have e : utils.clamp x 0 255 = 0 := by
    unfold utils.clamp
    rw [min_eq_right (by linarith : x ≤ 255), max_eq_left h]
  rw [clamp_to_byte, e]
  rfl

theorem clamp_to_byte_of_ge (x : ℚ) (h : 255 ≤ x) : clamp_to_byte x = 255 := by
  have e : utils.clamp x 0 255 = 255 := by
    unfold utils.clamp
    rw [min_eq_left h, max_eq_right (by norm_num)]
  rw [clamp_to_byte, e]
  rfl

theorem clamp_to_byte_of_mem (x : ℚ) (h0 : 0 ≤ x) (h : x ≤ 255) :
    clamp_to_byte x = ⌊x⌋.toNat := by
  have e : utils.clamp x 0 255 = x := by
    unfold utils.clamp
    rw [min_eq_right h, max_eq_right h0]
  rw [clamp_to_byte, e]
  rfl

end ForceCalculator

/-! ## Helper lemmas: every stage keeps the parameters within bytes -/

namespace ForceCalculator

theorem base_forces_fits (c : FfbConfig) (t : TelemetryData) (p : ForceParameters)
    (hp : p.fits_bytes) : (calculate_base_forces c t p).fits_bytes := by
  obtain ⟨h1, h2, h3, h4, h5, h6, h7, h8⟩ := hp
  simp only [calculate_base_forces]
  split_ifs <;>
    exact ⟨clamp_to_byte_le _, by first | exact clamp_to_byte_le _ | norm_num,
      clamp_to_byte_le _, clamp_to_byte_le _, h5, h6, h7, h8⟩

theorem self_aligning_torque_fits (c : FfbConfig) (t : TelemetryData) (p : ForceParameters)
    (hp : p.fits_bytes) : (calculate_self_aligning_torque c t p).fits_bytes := by
  obtain ⟨h1, h2, h3, h4, h5, h6, h7, h8⟩ := hp
  simp only [calculate_self_aligning_torque]
  split_ifs
  · exact ⟨h1, h2, h3, h4, h5, h6, h7, h8⟩
  · exact ⟨clamp_to_byte_le _, h2, h3, h4, h5, h6, h7, h8⟩
  · exact ⟨clamp_to_byte_le _, h2, h3, h4, h5, h6, h7, h8⟩

theorem power_steering_effects_fits (c : FfbConfig) (t : TelemetryData) (p : ForceParameters)
    (hp : p.fits_bytes) : (calculate_power_steering_effects c t p).fits_bytes := by
  obtain ⟨h1, h2, h3, h4, h5, h6, h7, h8⟩ := hp
  simp only [calculate_power_steering_effects]
  split_ifs <;>
    first
    | exact ⟨h1, h2, h3, h4, h5, h6, h7, h8⟩
    | exact ⟨h1, h2, clamp_to_byte_le _, clamp_to_byte_le _, h5, h6, h7, h8⟩

theorem terrain_regime_intensity_le (c : FfbConfig) (t : TelemetryData) (s : TerrainState) :
    (terrain_regime c t s).terrain_spring_intensity ≤ 255 := by
  simp only [terrain_regime]
  split_ifs <;> first | exact clamp_to_byte_le _ | exact Nat.zero_le _

theorem terrain_effects_fits (c : FfbConfig) (t : TelemetryData) (s : TerrainState)
    (p : ForceParameters) (hp : p.fits_bytes) :
    (calculate_terrain_effects c t s p).2.fits_bytes := by
  obtain ⟨h1, h2, h3, h4, h5, h6, h7, h8⟩ := hp
  simp only [calculate_terrain_effects]
  split_ifs <;>
    first
    | exact ⟨h1, h2, h3, h4, h5, h6, h7, h8⟩
    | exact ⟨h1, h2, h3, h4, h5, terrain_regime_intensity_le _ _ _,
        terrain_regime_intensity_le _ _ _, clamp_to_byte_le _⟩
    | exact ⟨clamp_to_byte_le _, h2, clamp_to_byte_le _, clamp_to_byte_le _, h5, h6, h7, h8⟩
    | exact ⟨clamp_to_byte_le _, h2, clamp_to_byte_le _, clamp_to_byte_le _, h5,
        terrain_regime_intensity_le _ _ _, terrain_regime_intensity_le _ _ _,
        clamp_to_byte_le _⟩

theorem vehicle_dynamics_fits (c : FfbConfig) (t : TelemetryData) (p : ForceParameters)
    (hp : p.fits_bytes) : (calculate_vehicle_dynamics_effects c t p).fits_bytes := by
  obtain ⟨h1, h2, h3, h4, h5, h6, h7, h8⟩ := hp
  simp only [calculate_vehicle_dynamics_effects]
  split_ifs <;>
    first
    | exact ⟨h1, h2, h3, h4, h5, h6, h7, h8⟩
    | exact ⟨clamp_to_byte_le _, h2, h3, h4, h5, h6, h7, h8⟩
    | exact ⟨clamp_to_byte_le _, h2, clamp_to_byte_le _, clamp_to_byte_le _, h5, h6, h7, h8⟩

theorem steering_kickback_fits (c : FfbConfig) (t : TelemetryData) (p : ForceParameters)
    (hp : p.fits_bytes) : (calculate_steering_kickback c t p).fits_bytes := by
  obtain ⟨h1, h2, h3, h4, h5, h6, h7, h8⟩ := hp
  simp only [calculate_steering_kickback]
  split_ifs <;>
    first
    | exact ⟨h1, h2, h3, h4, h5, h6, h7, h8⟩
    | exact ⟨h1, h2, h3, h4, clamp_to_byte_le _, h6, h7, h8⟩

theorem calculate_fits (c : FfbConfig) (t : TelemetryData) (s : TerrainState) :
    (calculate c t s).1.fits_bytes := by
  have h0 : ({} : ForceParameters).fits_bytes := by
    simp [ForceParameters.fits_bytes]
  simp only [calculate]
  exact steering_kickback_fits c t _ (vehicle_dynamics_fits c t _
    (terrain_effects_fits c t _ _ (power_steering_effects_fits c t _
      (self_aligning_torque_fits c t _ (base_forces_fits c t _ h0)))))

/-! ## Helper lemmas: the impact timers -/

theorem detect_terrain_impact_cooldown (c : FfbConfig) (t : TelemetryData) (s : TerrainState)
    (h : s.impact_cooldown > 0) : detect_terrain_impact c t s = false := by
  have h1 : ¬ (s.impact_cooldown ≤ 0) := not_le.mpr h
  simp [detect_terrain_impact, h1]

/-- The terrain state that the terrain stage leaves behind. -/
theorem terrain_effects_state (c : FfbConfig) (t : TelemetryData) (s : TerrainState)
    (p : ForceParameters) :
    (calculate_terrain_effects c t s p).1 =
      if detect_terrain_impact c t s = true then
        { smoothed_roughness := s.smoothed_roughness * c.terrain_smoothing_factor +
            |t.vertical_g| * (1 - c.terrain_smoothing_factor)
          impact_timer := c.terrain_impact_duration
          last_vertical_acceleration := s.last_vertical_acceleration
          impact_cooldown := 0.6 }
      else
        { s with smoothed_roughness := s.smoothed_roughness * c.terrain_smoothing_factor +
            |t.vertical_g| * (1 - c.terrain_smoothing_factor) } := by
  simp only [calculate_terrain_effects]
  have e : detect_terrain_impact c t
      { s with smoothed_roughness := s.smoothed_roughness * c.terrain_smoothing_factor +
        |t.vertical_g| * (1 - c.terrain_smoothing_factor) } = detect_terrain_impact c t s := rfl
  rw [e]

theorem update_impact_timer (s : TerrainState) (dt : ℚ) :
    (s.update dt).impact_timer =
      if s.impact_timer > 0 then max 0 (s.impact_timer - dt) else s.impact_timer := by
  simp only [TerrainState.update]
  split_ifs <;> rfl

theorem update_impact_cooldown (s : TerrainState) (dt : ℚ) :
    (s.update dt).impact_cooldown =
      if s.impact_cooldown > 0 then max 0 (s.impact_cooldown - dt) else s.impact_cooldown := by
  simp only [TerrainState.update]
  split_ifs <;> rfl

/-- The terrain state that calculate leaves behind has the timers of the decayed
state, unless the detector fired. -/
theorem calculate_timers (t : TelemetryData) (s : TerrainState) :
    ((calculate FfbConfig.default t s).2.impact_timer = 0.5 ∧
      (calculate FfbConfig.default t s).2.impact_cooldown = 0.6) ∨
    ((calculate FfbConfig.default t s).2.impact_timer = (s.update (1 / 60)).impact_timer ∧
      (calculate FfbConfig.default t s).2.impact_cooldown =
        (s.update (1 / 60)).impact_cooldown) := by
  simp only [calculate, terrain_effects_state, update_terrain_state]
  split_ifs
  · left
    exact ⟨rfl, rfl⟩
  · right
    exact ⟨rfl, rfl⟩

end ForceCalculator

/-! ## Helper lemmas: values of the saturating cast, reverse driving, kickback -/

namespace ForceCalculator

/-- The saturating cast of a value between n and n + 1, for n below 255. -/
theorem clamp_to_byte_eq (x : ℚ) (n : Nat) (h1 : (n : ℚ) ≤ x) (h2 : x < (n : ℚ) + 1)
    (hn : n < 255) : clamp_to_byte x = n := by
  have hn2 : ((n : ℚ) + 1) ≤ 255 := by exact_mod_cast hn
  have h0 : (0 : ℚ) ≤ x := le_trans (by positivity) h1
  rw [clamp_to_byte_of_mem x h0 (by linarith)]
  have hf : ⌊x⌋ = (n : ℤ) := by
    rw [Int.floor_eq_iff]
    exact ⟨by exact_mod_cast h1, by exact_mod_cast h2⟩
  rw [hf]
  exact Int.toNat_natCast n

/-- The saturating cast is monotone. -/
theorem clamp_to_byte_mono (x y : ℚ) (h : x ≤ y) : clamp_to_byte x ≤ clamp_to_byte y := by
  have hc : utils.clamp x 0 255 ≤ utils.clamp y 0 255 := by
    unfold utils.clamp
    exact max_le_max (le_refl _) (min_le_min (le_refl _) h)
  have hf : Rat.floor (utils.clamp x 0 255) ≤ Rat.floor (utils.clamp y 0 255) :=
    Int.floor_le_floor hc
  unfold clamp_to_byte
  exact Int.toNat_le_toNat hf

/-- The saturating cast of a value that is at most n is at most n. -/
theorem clamp_to_byte_le_of_le (x : ℚ) (n : Nat) (hn : n ≤ 255) (h : x ≤ (n : ℚ)) :
    clamp_to_byte x ≤ n := by
  have := clamp_to_byte_mono x n h
  rwa [clamp_to_byte_natCast n hn] at this

/-- Base forces under the default configuration at a reverse speed of 2 m/s or
more: the low-speed branch. -/
theorem base_forces_reverse (t : TelemetryData) (p : ForceParameters) (h : t.speed ≤ -2) :
    calculate_base_forces FfbConfig.default t p =
      { p with
        autocenter_force :=
          clamp_to_byte ((20 + t.speed_kmh * 0.8) * calculate_centering_multiplier t)
        autocenter_slope := 2
        damper_force_positive := clamp_to_byte (2.5 * calculate_power_steering_multiplier t)
        damper_force_negative := clamp_to_byte (2.5 * calculate_power_steering_multiplier t) } := by
  have h1 : ¬ (|t.speed| < 2) := by
    rw [abs_lt]
    rintro ⟨a, _⟩
    linarith
  have h2 : t.speed_kmh < 15 := by
    have := t.speed_kmh_le_of_reverse h
    linarith
  simp only [calculate_base_forces, FfbConfig.default]
  norm_num [h1, h2]

theorem steering_kickback_constant (c : FfbConfig) (t : TelemetryData) (p : ForceParameters)
    (hp : p.use_constant_force = false) (hc : p.constant_force = 0) :
    (calculate_steering_kickback c t p).constant_force =
      if |t.angular_acceleration_z| > c.kickback_threshold ∧
          |t.speed| > c.kickback_speed_threshold then
        clamp_to_byte (min c.kickback_max_force
          (binary32.round_nearest (|t.angular_acceleration_z| * c.kickback_factor)))
      else 0 := by
  simp only [calculate_steering_kickback, hp]
  by_cases h : |t.angular_acceleration_z| > c.kickback_threshold ∧
      |t.speed| > c.kickback_speed_threshold
  · rw [if_pos h, if_pos ⟨h.1, h.2, trivial⟩]
  · rw [if_neg h, if_neg (fun hx => h ⟨hx.1, hx.2.1⟩)]
    exact hc

/-- The constant force that calculate returns. -/
theorem calculate_constant_force (c : FfbConfig) (t : TelemetryData) (s : TerrainState) :
    (calculate c t s).1.constant_force =
      if |t.angular_acceleration_z| > c.kickback_threshold ∧
          |t.speed| > c.kickback_speed_threshold then
        clamp_to_byte (min c.kickback_max_force
          (binary32.round_nearest (|t.angular_acceleration_z| * c.kickback_factor)))
      else 0 := by
  simp only [calculate]
  apply steering_kickback_constant
  · simp only [(vehicle_dynamics_constant c t _).1,
      (terrain_effects_constant c t _ _).1, (power_steering_effects_constant c t _).1,
      (self_aligning_torque_constant c t _).1, (base_forces_constant c t _).1]
  · simp only [(vehicle_dynamics_constant c t _).2,
      (terrain_effects_constant c t _ _).2, (power_steering_effects_constant c t _).2,
      (self_aligning_torque_constant c t _).2, (base_forces_constant c t _).2]

end ForceCalculator

/-! ## Helper lemmas: the spring fields are set by the terrain stage alone -/

namespace ForceCalculator

theorem base_forces_spring (c : FfbConfig) (t : TelemetryData) (p : ForceParameters) :
    (calculate_base_forces c t p).use_custom_spring = p.use_custom_spring ∧
    (calculate_base_forces c t p).spring_k1 = p.spring_k1 ∧
    (calculate_base_forces c t p).spring_k2 = p.spring_k2 ∧
    (calculate_base_forces c t p).spring_clip = p.spring_clip := by
  simp only [calculate_base_forces]
  split_ifs <;> exact ⟨rfl, rfl, rfl, rfl⟩

theorem self_aligning_torque_spring (c : FfbConfig) (t : TelemetryData) (p : ForceParameters) :
    (calculate_self_aligning_torque c t p).use_custom_spring = p.use_custom_spring ∧
    (calculate_self_aligning_torque c t p).spring_k1 = p.spring_k1 ∧
    (calculate_self_aligning_torque c t p).spring_k2 = p.spring_k2 ∧
    (calculate_self_aligning_torque c t p).spring_clip = p.spring_clip := by
  simp only [calculate_self_aligning_torque]
  split_ifs <;> exact ⟨rfl, rfl, rfl, rfl⟩

theorem power_steering_effects_spring (c : FfbConfig) (t : TelemetryData)
    (p : ForceParameters) :
    (calculate_power_steering_effects c t p).use_custom_spring = p.use_custom_spring ∧
    (calculate_power_steering_effects c t p).spring_k1 = p.spring_k1 ∧
    (calculate_power_steering_effects c t p).spring_k2 = p.spring_k2 ∧
    (calculate_power_steering_effects c t p).spring_clip = p.spring_clip := by
  simp only [calculate_power_steering_effects]
  split_ifs <;> exact ⟨rfl, rfl, rfl, rfl⟩

theorem vehicle_dynamics_spring (c : FfbConfig) (t : TelemetryData) (p : ForceParameters) :
    (calculate_vehicle_dynamics_effects c t p).use_custom_spring = p.use_custom_spring ∧
    (calculate_vehicle_dynamics_effects c t p).spring_k1 = p.spring_k1 ∧
    (calculate_vehicle_dynamics_effects c t p).spring_k2 = p.spring_k2 ∧
    (calculate_vehicle_dynamics_effects c t p).spring_clip = p.spring_clip := by
  simp only [calculate_vehicle_dynamics_effects]
  split_ifs <;> exact ⟨rfl, rfl, rfl, rfl⟩

theorem steering_kickback_spring (c : FfbConfig) (t : TelemetryData) (p : ForceParameters) :
    (calculate_steering_kickback c t p).use_custom_spring = p.use_custom_spring ∧
    (calculate_steering_kickback c t p).spring_k1 = p.spring_k1 ∧
    (calculate_steering_kickback c t p).spring_k2 = p.spring_k2 ∧
    (calculate_steering_kickback c t p).spring_clip = p.spring_clip := by
  simp only [calculate_steering_kickback]
  split_ifs <;> exact ⟨rfl, rfl, rfl, rfl⟩

/-- The spring fields after the terrain stage, for parameters that had none:
they are read off the regime that the stage found on the state it leaves. -/
theorem terrain_effects_spring (c : FfbConfig) (t : TelemetryData) (s : TerrainState)
    (p : ForceParameters) (h0 : p.use_custom_spring = false) (h1 : p.spring_k1 = 0)
    (h2 : p.spring_k2 = 0) (h3 : p.spring_clip = 0) :
    (calculate_terrain_effects c t s p).2.use_custom_spring =
      (terrain_regime c t (calculate_terrain_effects c t s p).1).use_terrain_spring ∧
    (calculate_terrain_effects c t s p).2.spring_k1 =
      (if (terrain_regime c t (calculate_terrain_effects c t s p).1).use_terrain_spring = true
        then (terrain_regime c t (calculate_terrain_effects c t s p).1).terrain_spring_intensity
        else 0) ∧
    (calculate_terrain_effects c t s p).2.spring_k2 =
      (if (terrain_regime c t (calculate_terrain_effects c t s p).1).use_terrain_spring = true
        then (terrain_regime c t (calculate_terrain_effects c t s p).1).terrain_spring_intensity
        else 0) ∧
    (calculate_terrain_effects c t s p).2.spring_clip =
      (if (terrain_regime c t (calculate_terrain_effects c t s p).1).use_terrain_spring = true
        then clamp_to_byte (((20 +
          (terrain_regime c t (calculate_terrain_effects c t s p).1).terrain_spring_intensity * 8
            : Nat)) : ℚ)
        else 0) := by
  simp only [calculate_terrain_effects]
  split_ifs <;> simp_all

/-- The spring fields that calculate returns. -/
theorem calculate_spring (c : FfbConfig) (t : TelemetryData) (s : TerrainState) :
    (calculate c t s).1.use_custom_spring =
      (terrain_regime c t (calculate c t s).2).use_terrain_spring ∧
    (calculate c t s).1.spring_k1 =
      (if (terrain_regime c t (calculate c t s).2).use_terrain_spring = true
        then (terrain_regime c t (calculate c t s).2).terrain_spring_intensity else 0) ∧
    (calculate c t s).1.spring_k2 =
      (if (terrain_regime c t (calculate c t s).2).use_terrain_spring = true
        then (terrain_regime c t (calculate c t s).2).terrain_spring_intensity else 0) ∧
    (calculate c t s).1.spring_clip =
      (if (terrain_regime c t (calculate c t s).2).use_terrain_spring = true
        then clamp_to_byte (((20 +
          (terrain_regime c t (calculate c t s).2).terrain_spring_intensity * 8 : Nat)) : ℚ)
        else 0) := by
  have hp : ∀ q : ForceParameters, q = calculate_power_steering_effects c t
      (calculate_self_aligning_torque c t (calculate_base_forces c t {})) →
      q.use_custom_spring = false ∧ q.spring_k1 = 0 ∧ q.spring_k2 = 0 ∧ q.spring_clip = 0 := by
    intro q hq
    rw [hq]
    simp only [(power_steering_effects_spring c t _).1, (power_steering_effects_spring c t _).2.1,
      (power_steering_effects_spring c t _).2.2.1, (power_steering_effects_spring c t _).2.2.2,
      (self_aligning_torque_spring c t _).1, (self_aligning_torque_spring c t _).2.1,
      (self_aligning_torque_spring c t _).2.2.1, (self_aligning_torque_spring c t _).2.2.2,
      (base_forces_spring c t _).1, (base_forces_spring c t _).2.1,
      (base_forces_spring c t _).2.2.1, (base_forces_spring c t _).2.2.2]
    simp
  obtain ⟨a0, a1, a2, a3⟩ := hp _ rfl
  have ht := terrain_effects_spring c t (update_terrain_state t s) _ a0 a1 a2 a3
  simp only [calculate, (steering_kickback_spring c t _).1, (steering_kickback_spring c t _).2.1,
    (steering_kickback_spring c t _).2.2.1, (steering_kickback_spring c t _).2.2.2,
    (vehicle_dynamics_spring c t _).1, (vehicle_dynamics_spring c t _).2.1,
    (vehicle_dynamics_spring c t _).2.2.1, (vehicle_dynamics_spring c t _).2.2.2]
  exact ht

/-- The saturating cast of a natural number. -/
theorem clamp_to_byte_nat (n : Nat) : clamp_to_byte (n : ℚ) = min 255 n := by
  by_cases h : n ≤ 255
  · rw [clamp_to_byte_natCast n h, min_eq_right h]
  · have h2 : 255 ≤ n := by omega
    rw [clamp_to_byte_of_ge _ (by exact_mod_cast h2), min_eq_left h2]

/-- The terrain stage either leaves the three force bytes alone or caps them. -/
theorem terrain_effects_forces (c : FfbConfig) (t : TelemetryData) (s : TerrainState)
    (p : ForceParameters) :
    ((calculate_terrain_effects c t s p).2.autocenter_force = p.autocenter_force ∧
      (calculate_terrain_effects c t s p).2.damper_force_positive = p.damper_force_positive ∧
      (calculate_terrain_effects c t s p).2.damper_force_negative = p.damper_force_negative) ∨
    ((calculate_terrain_effects c t s p).2.autocenter_force ≤ 80 ∧
      (calculate_terrain_effects c t s p).2.damper_force_positive ≤ 8 ∧
      (calculate_terrain_effects c t s p).2.damper_force_negative ≤ 8) := by
  have k80 : ∀ x : ℚ, clamp_to_byte (min 80 x) ≤ 80 := fun x =>
    clamp_to_byte_le_of_le _ 80 (by norm_num) (by exact_mod_cast min_le_left _ _)
  have k8 : ∀ x : ℚ, clamp_to_byte (min 8 x) ≤ 8 := fun x =>
    clamp_to_byte_le_of_le _ 8 (by norm_num) (by exact_mod_cast min_le_left _ _)
  simp only [calculate_terrain_effects]
  split_ifs
  all_goals first
    | exact Or.inl ⟨rfl, rfl, rfl⟩
    | exact Or.inr ⟨k80 _, k8 _, k8 _⟩

end ForceCalculator

/-! ## Helper lemmas: the terrain state that calculate leaves -/

namespace ForceCalculator

/-- The dynamic impact threshold is positive under the default configuration. -/
theorem impact_threshold_pos (t : TelemetryData) : 0 < impact_threshold FfbConfig.default t := by
  simp only [impact_threshold, FfbConfig.default]
  split_ifs <;> norm_num

/-- Inside calculate the detector compares the sample with itself:
update_terrain_state has already stored the vertical acceleration of the sample,
so the change is 0 and the detector returns false. -/
theorem detect_terrain_impact_in_calculate (t : TelemetryData) (s : TerrainState) :
    detect_terrain_impact FfbConfig.default t (update_terrain_state t s) = false := by
  have hpos := impact_threshold_pos t
  have h : ¬ (|t.linear_acceleration_y - t.linear_acceleration_y| >
      impact_threshold FfbConfig.default t) := by
    rw [sub_self, abs_zero]
    exact not_lt.mpr (le_of_lt hpos)
  simp [detect_terrain_impact, update_terrain_state, h]
  intro hx
  linarith

/-- TerrainState::update leaves the smoothed roughness alone. -/
theorem update_smoothed_roughness (s : TerrainState) (dt : ℚ) :
    (s.update dt).smoothed_roughness = s.smoothed_roughness := by
  simp only [TerrainState.update]
  split_ifs <;> rfl

/-- The terrain state that calculate leaves under the default configuration:
the timers are those of the decayed state. -/
theorem calculate_state (t : TelemetryData) (s : TerrainState) :
    (calculate FfbConfig.default t s).2 =
      { smoothed_roughness := s.smoothed_roughness * 0.8 + |t.vertical_g| * (1 - 0.8)
        impact_timer := (s.update (1 / 60)).impact_timer
        last_vertical_acceleration := t.linear_acceleration_y
        impact_cooldown := (s.update (1 / 60)).impact_cooldown } := by
  simp only [calculate, terrain_effects_state, detect_terrain_impact_in_calculate]
  simp [update_terrain_state, FfbConfig.default, update_smoothed_roughness]

/-- The minor-bump regime under the default configuration. -/
theorem terrain_regime_minor (t : TelemetryData) (sr it lv ic : ℚ) (h1 : it ≤ 0)
    (h2 : |t.vertical_g| > 0.02) (h3 : |t.speed| > 2) :
    terrain_regime FfbConfig.default t
        { smoothed_roughness := sr, impact_timer := it, last_vertical_acceleration := lv,
          impact_cooldown := ic } =
      { terrain_force_multiplier := 1 + |t.vertical_g| * 1.5 * min 1 (|t.speed| / 10)
        terrain_damping_add := 0 + |t.vertical_g| * 1.2 * min 1 (|t.speed| / 10)
        use_terrain_spring := true
        terrain_spring_intensity :=
          clamp_to_byte (2 + |t.vertical_g| * 8 * min 1 (|t.speed| / 10)) } := by
  have h1n : ¬ (it > 0) := not_lt.mpr h1
  simp only [terrain_regime, FfbConfig.default, if_neg h1n]
  rw [if_pos ⟨h2, h3⟩]

/-- No terrain regime under the default configuration: no impact running, the
roughness of the sample at most 0.02 and the smoothed roughness at most 0.08. -/
theorem terrain_regime_none (t : TelemetryData) (sr it lv ic : ℚ) (h1 : it ≤ 0)
    (h2 : |t.vertical_g| ≤ 0.02) (h3 : sr ≤ 0.08) :
    terrain_regime FfbConfig.default t
        { smoothed_roughness := sr, impact_timer := it, last_vertical_acceleration := lv,
          impact_cooldown := ic } = {} := by
  have h1n : ¬ (it > 0) := not_lt.mpr h1
  have h2n : ¬ (|t.vertical_g| > 0.02 ∧ |t.speed| > 2) := fun hx => not_lt.mpr h2 hx.1
  have h3n : ¬ (sr > 0.08 ∧ |t.speed| > 1) := fun hx => not_lt.mpr h3 hx.1
  simp only [terrain_regime, FfbConfig.default, if_neg h1n]
  rw [if_neg h2n, if_neg h3n]

/-- The spring fields that calculate returns in the minor-bump regime. -/
theorem calculate_spring_minor (t : TelemetryData) (s : TerrainState)
    (h1 : (s.update (1 / 60)).impact_timer ≤ 0)
    (h2 : |t.vertical_g| > 0.02) (h3 : |t.speed| > 2) :
    (calculate FfbConfig.default t s).1.use_custom_spring = true ∧
    (calculate FfbConfig.default t s).1.spring_k1 =
      clamp_to_byte (2 + |t.vertical_g| * 8 * min 1 (|t.speed| / 10)) ∧
    (calculate FfbConfig.default t s).1.spring_k2 =
      clamp_to_byte (2 + |t.vertical_g| * 8 * min 1 (|t.speed| / 10)) ∧
    (calculate FfbConfig.default t s).1.spring_clip =
      clamp_to_byte (((20 +
        clamp_to_byte (2 + |t.vertical_g| * 8 * min 1 (|t.speed| / 10)) * 8 : Nat)) : ℚ) := by
  have h := calculate_spring FfbConfig.default t s
  rw [calculate_state, terrain_regime_minor t _ _ _ _ h1 h2 h3] at h
  simpa using h

/-- No spring from calculate when no terrain regime applies. -/
theorem calculate_no_spring (t : TelemetryData) (s : TerrainState)
    (h1 : (s.update (1 / 60)).impact_timer ≤ 0) (h2 : |t.vertical_g| ≤ 0.02)
    (h3 : s.smoothed_roughness * 0.8 + |t.vertical_g| * (1 - 0.8) ≤ 0.08) :
    (calculate FfbConfig.default t s).1.use_custom_spring = false := by
  have h := (calculate_spring FfbConfig.default t s).1
  rw [calculate_state, terrain_regime_none t _ _ _ _ h1 h2 h3] at h
  exact h

/-- The sample with speed 10 m/s and a vertical acceleration of 2 g on a fresh
terrain state: the spring fields are 18, 18 and 164. -/
theorem calculate_spring_two_g :
    (calculate FfbConfig.default { speed := 10, linear_acceleration_y := 19.62 }
      {}).1.use_custom_spring = true ∧
    (calculate FfbConfig.default { speed := 10, linear_acceleration_y := 19.62 }
      {}).1.spring_k1 = 18 ∧
    (calculate FfbConfig.default { speed := 10, linear_acceleration_y := 19.62 }
      {}).1.spring_k2 = 18 ∧
    (calculate FfbConfig.default { speed := 10, linear_acceleration_y := 19.62 }
      {}).1.spring_clip = 164 := by
  have hg : |(({ speed := 10, linear_acceleration_y := 19.62 } : TelemetryData)).vertical_g|
      = 2 := by
    norm_num [TelemetryData.vertical_g]
  have hv : |(({ speed := 10, linear_acceleration_y := 19.62 } : TelemetryData)).speed|
      = 10 := by
    norm_num
  have h := calculate_spring_minor { speed := 10, linear_acceleration_y := 19.62 } {}
    (by norm_num [TerrainState.update]) (by rw [hg]; norm_num) (by rw [hv]; norm_num)
  rw [hg, hv] at h
  have e18 : clamp_to_byte (2 + 2 * 8 * min 1 (10 / 10)) = 18 :=
    clamp_to_byte_eq _ 18 (by norm_num) (by norm_num) (by norm_num)
  rw [e18] at h
  have e164 : clamp_to_byte (((20 + 18 * 8 : Nat)) : ℚ) = 164 :=
    clamp_to_byte_natCast 164 (by norm_num)
  rw [e164] at h
  exact h

end ForceCalculator

/-! ## Helper lemmas: bounds through the pipeline under the default configuration -/

namespace ForceCalculator

theorem power_steering_multiplier_bounds (t : TelemetryData) :
    0 < calculate_power_steering_multiplier t ∧ calculate_power_steering_multiplier t ≤ 2 := by
  simp only [calculate_power_steering_multiplier]
  split_ifs <;> norm_num

theorem centering_multiplier_bounds (t : TelemetryData) :
    0 < calculate_centering_multiplier t ∧ calculate_centering_multiplier t ≤ 1 := by
  simp only [calculate_centering_multiplier]
  split_ifs <;> norm_num

/-- A product with a factor between 0 and 1 stays below a non-negative bound. -/
theorem mul_le_of_factor (x c B : ℚ) (hx : x ≤ B) (hB : 0 ≤ B) (hc0 : 0 ≤ c) (hc1 : c ≤ 1) :
    x * c ≤ B := by
  by_cases h : x ≤ 0
  · exact le_trans (mul_nonpos_of_nonpos_of_nonneg h hc0) hB
  · have hx0 : 0 ≤ x := le_of_lt (not_le.mp h)
    calc x * c ≤ x * 1 := mul_le_mul_of_nonneg_left hc1 hx0
      _ = x := mul_one x
      _ ≤ B := hx

/-- The base stage: centering at most 45 and dampers at most 6. -/
theorem base_forces_bounds (t : TelemetryData) (p : ForceParameters) :
    (calculate_base_forces FfbConfig.default t p).autocenter_force ≤ 45 ∧
    (calculate_base_forces FfbConfig.default t p).damper_force_positive ≤ 6 ∧
    (calculate_base_forces FfbConfig.default t p).damper_force_negative ≤ 6 := by
  obtain ⟨m0, m2⟩ := power_steering_multiplier_bounds t
  obtain ⟨c0, c1⟩ := centering_multiplier_bounds t
  by_cases h1 : |t.speed| < 2
  · have e : calculate_base_forces FfbConfig.default t p =
        { p with
          autocenter_force := clamp_to_byte (0.0 * calculate_centering_multiplier t)
          autocenter_slope := clamp_to_byte 0.0
          damper_force_positive := clamp_to_byte (2.0 * calculate_power_steering_multiplier t)
          damper_force_negative :=
            clamp_to_byte (2.0 * calculate_power_steering_multiplier t) } := by
      simp only [calculate_base_forces, FfbConfig.default]
      rw [if_pos (by norm_num; exact h1)]
    rw [e]
    refine ⟨clamp_to_byte_le_of_le _ 45 (by norm_num) (by norm_num),
      clamp_to_byte_le_of_le _ 6 (by norm_num) (by norm_num; linarith),
      clamp_to_byte_le_of_le _ 6 (by norm_num) (by norm_num; linarith)⟩
  · by_cases h2 : t.speed_kmh < 15
    · have e : calculate_base_forces FfbConfig.default t p =
          { p with
            autocenter_force :=
              clamp_to_byte ((20.0 + t.speed_kmh * 0.8) * calculate_centering_multiplier t)
            autocenter_slope := 2
            damper_force_positive := clamp_to_byte (2.5 * calculate_power_steering_multiplier t)
            damper_force_negative :=
              clamp_to_byte (2.5 * calculate_power_steering_multiplier t) } := by
        simp only [calculate_base_forces, FfbConfig.default]
        rw [if_neg (by norm_num; exact not_lt.mp h1), if_pos (by norm_num; exact h2)]
      rw [e]
      refine ⟨clamp_to_byte_le_of_le _ 45 (by norm_num) ?_,
        clamp_to_byte_le_of_le _ 6 (by norm_num) (by norm_num; linarith),
        clamp_to_byte_le_of_le _ 6 (by norm_num) (by norm_num; linarith)⟩
      apply mul_le_of_factor _ _ _ _ (by norm_num) (le_of_lt c0) c1
      norm_num
      linarith
    · have e : calculate_base_forces FfbConfig.default t p =
          { p with
            autocenter_force := clamp_to_byte (18.0 * calculate_centering_multiplier t)
            autocenter_slope := (calculate_base_forces FfbConfig.default t p).autocenter_slope
            damper_force_positive := clamp_to_byte (min 3.0
              ((1 + t.speed_kmh / 40.0) * calculate_power_steering_multiplier t))
            damper_force_negative := clamp_to_byte (min 3.0
              ((1 + t.speed_kmh / 40.0) * calculate_power_steering_multiplier t)) } := by
        simp only [calculate_base_forces, FfbConfig.default]
        rw [if_neg (by norm_num; exact not_lt.mp h1), if_neg (by norm_num; exact not_lt.mp h2)]
      rw [e]
      refine ⟨clamp_to_byte_le_of_le _ 45 (by norm_num) (by norm_num; linarith),
        clamp_to_byte_le_of_le _ 6 (by norm_num) ?_, clamp_to_byte_le_of_le _ 6 (by norm_num) ?_⟩
      · exact le_trans (min_le_left _ _) (by norm_num)
      · exact le_trans (min_le_left _ _) (by norm_num)

/-- The self-aligning torque stage keeps the centering at most 45 and leaves
the dampers alone. -/
theorem self_aligning_torque_bounds (t : TelemetryData) (p : ForceParameters)
    (ha : p.autocenter_force ≤ 45) :
    (calculate_self_aligning_torque FfbConfig.default t p).autocenter_force ≤ 45 ∧
    (calculate_self_aligning_torque FfbConfig.default t p).damper_force_positive =
      p.damper_force_positive ∧
    (calculate_self_aligning_torque FfbConfig.default t p).damper_force_negative =
      p.damper_force_negative := by
  have k : ∀ x : ℚ, clamp_to_byte (min 45.0 x) ≤ 45 := fun x =>
    clamp_to_byte_le_of_le _ 45 (by norm_num) (le_trans (min_le_left _ _) (by norm_num))
  simp only [calculate_self_aligning_torque, FfbConfig.default]
  split_ifs
  all_goals first
    | exact ⟨ha, rfl, rfl⟩
    | exact ⟨k _, rfl, rfl⟩

/-- The brake stage leaves the centering alone and keeps the dampers at most 6. -/
theorem power_steering_effects_bounds (t : TelemetryData) (p : ForceParameters)
    (hp : p.damper_force_positive ≤ 6) (hn : p.damper_force_negative ≤ 6) :
    (calculate_power_steering_effects FfbConfig.default t p).autocenter_force =
      p.autocenter_force ∧
    (calculate_power_steering_effects FfbConfig.default t p).damper_force_positive ≤ 6 ∧
    (calculate_power_steering_effects FfbConfig.default t p).damper_force_negative ≤ 6 := by
  have k : ∀ x : ℚ, clamp_to_byte (min 6.0 x) ≤ 6 := fun x =>
    clamp_to_byte_le_of_le _ 6 (by norm_num) (le_trans (min_le_left _ _) (by norm_num))
  simp only [calculate_power_steering_effects, FfbConfig.default]
  split_ifs
  all_goals first
    | exact ⟨rfl, hp, hn⟩
    | exact ⟨rfl, k _, k _⟩

/-- The terrain stage keeps the centering at most 80 and the dampers at most 8. -/
theorem terrain_effects_bounds (c : FfbConfig) (t : TelemetryData) (s : TerrainState)
    (p : ForceParameters) (ha : p.autocenter_force ≤ 80) (hp : p.damper_force_positive ≤ 8)
    (hn : p.damper_force_negative ≤ 8) :
    (calculate_terrain_effects c t s p).2.autocenter_force ≤ 80 ∧
    (calculate_terrain_effects c t s p).2.damper_force_positive ≤ 8 ∧
    (calculate_terrain_effects c t s p).2.damper_force_negative ≤ 8 := by
  rcases terrain_effects_forces c t s p with ⟨e1, e2, e3⟩ | h
  · rw [e1, e2, e3]
    exact ⟨ha, hp, hn⟩
  · exact h

/-- The yaw stage keeps the centering at most 80 and adds at most 2 to the
dampers. -/
theorem vehicle_dynamics_bounds (t : TelemetryData) (p : ForceParameters)
    (ha : p.autocenter_force ≤ 80) (hp : p.damper_force_positive ≤ 8)
    (hn : p.damper_force_negative ≤ 8) :
    (calculate_vehicle_dynamics_effects FfbConfig.default t p).autocenter_force ≤ 80 ∧
    (calculate_vehicle_dynamics_effects FfbConfig.default t p).damper_force_positive ≤ 10 ∧
    (calculate_vehicle_dynamics_effects FfbConfig.default t p).damper_force_negative ≤ 10 := by
  have hy0 : (0 : ℚ) ≤ min 2.0 (|t.angular_velocity_z| * 10.0) :=
    le_min (by norm_num) (mul_nonneg (abs_nonneg _) (by norm_num))
  have hy2 : min 2.0 (|t.angular_velocity_z| * 10.0) ≤ (2 : ℚ) :=
    le_trans (min_le_left _ _) (by norm_num)
  have ka : clamp_to_byte ((p.autocenter_force : ℚ) *
      (1 - min 2.0 (|t.angular_velocity_z| * 10.0) * 0.2)) ≤ 80 := by
    apply clamp_to_byte_le_of_le _ 80 (by norm_num)
    have h80 : ((p.autocenter_force : ℚ)) ≤ 80 := by exact_mod_cast ha
    have h0 : (0 : ℚ) ≤ (p.autocenter_force : ℚ) := by positivity
    have hf : 1 - min 2.0 (|t.angular_velocity_z| * 10.0) * 0.2 ≤ (1 : ℚ) := by
      have hm : (0 : ℚ) ≤ min 2.0 (|t.angular_velocity_z| * 10.0) * 0.2 :=
        mul_nonneg hy0 (by norm_num)
      linarith
    calc (p.autocenter_force : ℚ) * (1 - min 2.0 (|t.angular_velocity_z| * 10.0) * 0.2)
        ≤ (p.autocenter_force : ℚ) * 1 := mul_le_mul_of_nonneg_left hf h0
      _ = (p.autocenter_force : ℚ) := mul_one _
      _ ≤ ((80 : Nat) : ℚ) := by exact_mod_cast ha
  have kd : ∀ d : Nat, d ≤ 8 →
      clamp_to_byte ((d : ℚ) + min 2.0 (|t.angular_velocity_z| * 10.0) * 1.0) ≤ 10 := by
    intro d hd
    apply clamp_to_byte_le_of_le _ 10 (by norm_num)
    have h8 : ((d : ℚ)) ≤ 8 := by exact_mod_cast hd
    have e1 : (1.0 : ℚ) = 1 := by norm_num
    have e10 : (((10 : Nat)) : ℚ) = 10 := by norm_num
    rw [e1, mul_one, e10]
    linarith
  have ku : ∀ x : ℚ, clamp_to_byte (min 80 x) ≤ 80 := fun x =>
    clamp_to_byte_le_of_le _ 80 (by norm_num) (by exact_mod_cast min_le_left _ _)
  simp only [calculate_vehicle_dynamics_effects, FfbConfig.default]
  split_ifs
  all_goals first
    | exact ⟨ha, le_trans hp (by norm_num), le_trans hn (by norm_num)⟩
    | exact ⟨ka, kd _ hp, kd _ hn⟩
    | exact ⟨ku _, le_trans hp (by norm_num), le_trans hn (by norm_num)⟩

/-- The kickback stage leaves the centering and the dampers alone. -/
theorem steering_kickback_forces (c : FfbConfig) (t : TelemetryData) (p : ForceParameters) :
    (calculate_steering_kickback c t p).autocenter_force = p.autocenter_force ∧
    (calculate_steering_kickback c t p).damper_force_positive = p.damper_force_positive ∧
    (calculate_steering_kickback c t p).damper_force_negative = p.damper_force_negative := by
  simp only [calculate_steering_kickback]
  split_ifs <;> exact ⟨rfl, rfl, rfl⟩

/-- The bounds of the centering and of the dampers that calculate returns. -/
theorem calculate_bounds (t : TelemetryData) (s : TerrainState) :
    (calculate FfbConfig.default t s).1.autocenter_force ≤ 80 ∧
    (calculate FfbConfig.default t s).1.damper_force_positive ≤ 10 ∧
    (calculate FfbConfig.default t s).1.damper_force_negative ≤ 10 := by
  obtain ⟨b1, b2, b3⟩ := base_forces_bounds t {}
  obtain ⟨s1, s2, s3⟩ := self_aligning_torque_bounds t _ b1
  rw [← s2] at b2
  rw [← s3] at b3
  obtain ⟨p1, p2, p3⟩ := power_steering_effects_bounds t _ b2 b3
  rw [← p1] at s1
  obtain ⟨t1, t2, t3⟩ := terrain_effects_bounds FfbConfig.default t (update_terrain_state t s) _
    (le_trans s1 (by norm_num)) (le_trans p2 (by norm_num)) (le_trans p3 (by norm_num))
  obtain ⟨d1, d2, d3⟩ := vehicle_dynamics_bounds t _ t1 t2 t3
  obtain ⟨k1, k2, k3⟩ := steering_kickback_forces FfbConfig.default t
    (calculate_vehicle_dynamics_effects FfbConfig.default t
      (calculate_terrain_effects FfbConfig.default t (update_terrain_state t s)
        (calculate_power_steering_effects FfbConfig.default t
          (calculate_self_aligning_torque FfbConfig.default t
            (calculate_base_forces FfbConfig.default t {})))).2)
  simp only [calculate]
  rw [k1, k2, k3]
  exact ⟨d1, d2, d3⟩

/-- The force bytes after the terrain stage in the minor-bump regime, when the
detector does not fire. -/
theorem terrain_effects_minor (t : TelemetryData) (s : TerrainState) (p : ForceParameters)
    (h1 : s.impact_timer ≤ 0) (hd : detect_terrain_impact FfbConfig.default t s = false)
    (h2 : |t.vertical_g| > 0.02) (h3 : |t.speed| > 2) :
    (calculate_terrain_effects FfbConfig.default t s p).2.autocenter_force =
      clamp_to_byte (min 80 ((p.autocenter_force : ℚ) *
        (1 + |t.vertical_g| * 1.5 * min 1 (|t.speed| / 10)))) ∧
    (calculate_terrain_effects FfbConfig.default t s p).2.damper_force_positive =
      clamp_to_byte (min 8 ((p.damper_force_positive : ℚ) +
        (0 + |t.vertical_g| * 1.2 * min 1 (|t.speed| / 10)))) ∧
    (calculate_terrain_effects FfbConfig.default t s p).2.damper_force_negative =
      clamp_to_byte (min 8 ((p.damper_force_negative : ℚ) +
        (0 + |t.vertical_g| * 1.2 * min 1 (|t.speed| / 10)))) := by
  have hd2 : detect_terrain_impact FfbConfig.default t
      { s with smoothed_roughness :=
          s.smoothed_roughness * FfbConfig.default.terrain_smoothing_factor +
            |t.vertical_g| * (1 - FfbConfig.default.terrain_smoothing_factor) } = false := hd
  have hadd : 0 + |t.vertical_g| * 1.2 * min 1 (|t.speed| / 10) > 0 := by
    have hg : (0 : ℚ) < |t.vertical_g| := lt_trans (by norm_num) h2
    have hm : (0 : ℚ) < min 1 (|t.speed| / 10) :=
      lt_min (by norm_num) (div_pos (lt_trans (by norm_num) h3) (by norm_num))
    have := mul_pos (mul_pos hg (by norm_num : (0 : ℚ) < 1.2)) hm
    linarith
  simp only [calculate_terrain_effects, hd2, Bool.false_eq_true, if_false,
    terrain_regime_minor t _ _ _ _ h1 h2 h3, if_pos (Or.inr hadd), if_true]
  exact ⟨trivial, trivial, trivial⟩

/-- The dampers after the yaw stage in oversteer with a positive yaw rate. -/
theorem vehicle_dynamics_oversteer (t : TelemetryData) (p : ForceParameters)
    (hy : t.angular_velocity_z > 0.1) (hs : |t.speed| > 5) (ho : t.steering > 0) :
    (calculate_vehicle_dynamics_effects FfbConfig.default t p).damper_force_positive =
      clamp_to_byte ((p.damper_force_positive : ℚ) + min 2 (t.angular_velocity_z * 10)) ∧
    (calculate_vehicle_dynamics_effects FfbConfig.default t p).damper_force_negative =
      clamp_to_byte ((p.damper_force_negative : ℚ) + min 2 (t.angular_velocity_z * 10)) := by
  have hpos : t.angular_velocity_z > 0 := lt_trans (by norm_num) hy
  have habs : |t.angular_velocity_z| = t.angular_velocity_z := abs_of_pos hpos
  simp only [calculate_vehicle_dynamics_effects, FfbConfig.default, habs]
  rw [if_pos ⟨hy, hs⟩]
  norm_num [hpos, ho]

/-- On bump_oversteer_sample and a fresh terrain state both dampers leave the
terrain stage of calculate at 8 and come out of calculate at 10. -/
theorem calculate_damper_ten :
    (calculate_terrain_effects FfbConfig.default bump_oversteer_sample
      (update_terrain_state bump_oversteer_sample {})
      (calculate_power_steering_effects FfbConfig.default bump_oversteer_sample
        (calculate_self_aligning_torque FfbConfig.default bump_oversteer_sample
          (calculate_base_forces FfbConfig.default bump_oversteer_sample
            {})))).2.damper_force_positive = 8 ∧
    (calculate_terrain_effects FfbConfig.default bump_oversteer_sample
      (update_terrain_state bump_oversteer_sample {})
      (calculate_power_steering_effects FfbConfig.default bump_oversteer_sample
        (calculate_self_aligning_torque FfbConfig.default bump_oversteer_sample
          (calculate_base_forces FfbConfig.default bump_oversteer_sample
            {})))).2.damper_force_negative = 8 ∧
    (calculate FfbConfig.default bump_oversteer_sample {}).1.damper_force_positive = 10 ∧
    (calculate FfbConfig.default bump_oversteer_sample {}).1.damper_force_negative = 10 := by
  have hb : (calculate_base_forces FfbConfig.default bump_oversteer_sample
      {}).damper_force_positive = 2 ∧
    (calculate_base_forces FfbConfig.default bump_oversteer_sample
      {}).damper_force_negative = 2 := by
    simp only [calculate_base_forces, FfbConfig.default, calculate_power_steering_multiplier,
      TelemetryData.speed_kmh_of_speed_ten bump_oversteer_sample rfl]
    norm_num [bump_oversteer_sample]
    exact clamp_to_byte_eq _ 2 (by norm_num) (by norm_num) (by norm_num)
  obtain ⟨_, s2, s3⟩ := self_aligning_torque_bounds bump_oversteer_sample _
    (base_forces_bounds bump_oversteer_sample {}).1
  have hg : |bump_oversteer_sample.vertical_g| = 10 := by
    norm_num [TelemetryData.vertical_g, bump_oversteer_sample]
  have hv : |bump_oversteer_sample.speed| = 10 := by
    norm_num [bump_oversteer_sample]
  obtain ⟨_, t2, t3⟩ := terrain_effects_minor bump_oversteer_sample
    (update_terrain_state bump_oversteer_sample {})
    (calculate_self_aligning_torque FfbConfig.default bump_oversteer_sample
      (calculate_base_forces FfbConfig.default bump_oversteer_sample {}))
    (by norm_num [update_terrain_state, TerrainState.update])
    (detect_terrain_impact_in_calculate _ _) (by rw [hg]; norm_num) (by rw [hv]; norm_num)
  rw [s2, hb.1, hg, hv] at t2
  rw [s3, hb.2, hg, hv] at t3
  have e8 : clamp_to_byte (min 8 (((2 : Nat) : ℚ) + (0 + 10 * 1.2 * min 1 (10 / 10)))) = 8 := by
    norm_num
    exact_mod_cast clamp_to_byte_natCast 8 (by norm_num)
  rw [e8] at t2 t3
  obtain ⟨d2, d3⟩ := vehicle_dynamics_oversteer bump_oversteer_sample
    (calculate_terrain_effects FfbConfig.default bump_oversteer_sample
      (update_terrain_state bump_oversteer_sample {})
      (calculate_self_aligning_torque FfbConfig.default bump_oversteer_sample
        (calculate_base_forces FfbConfig.default bump_oversteer_sample {}))).2
    (by norm_num [bump_oversteer_sample]) (by rw [hv]; norm_num)
    (by norm_num [bump_oversteer_sample])
  rw [t2] at d2
  rw [t3] at d3
  have e10 : clamp_to_byte (((8 : Nat) : ℚ) + min 2 (bump_oversteer_sample.angular_velocity_z
      * 10)) = 10 := by
    norm_num [bump_oversteer_sample]
    exact_mod_cast clamp_to_byte_natCast 10 (by norm_num)
  simp only [calculate, power_steering_effects_idle FfbConfig.default bump_oversteer_sample
    rfl rfl, (steering_kickback_forces _ _ _).2.1, (steering_kickback_forces _ _ _).2.2]
  exact ⟨t2, t3, d2.trans e10, d3.trans e10⟩

end ForceCalculator

/-! ## Helper lemmas: the LED controller -/

namespace LedController

/-- The parking-brake branch: the toggle flips and selects the pattern. -/
theorem calculate_pattern_parking (l : LedController) (t : TelemetryData)
    (h : t.parking_brake = true) :
    l.calculate_pattern t =
      (if l.flash_state_ = true then 0x00 else 0x1F, { l with flash_state_ := !l.flash_state_ }) := by
  simp only [calculate_pattern, if_pos h, get_parking_brake_pattern]
  cases hf : l.flash_state_ <;> simp [LED_PATTERN_5, LED_PATTERN_OFF]

/-- The redline branch under the default configuration: the toggle flips and
selects between the two highest patterns. -/
theorem calculate_pattern_redline (l : LedController) (t : TelemetryData)
    (hcfg : l.config_ = FfbConfig.default)
    (hpark : t.parking_brake = false) (hbrake : t.brake ≤ 0.5) (hrpm : t.rpm ≠ 0)
    (hred : t.rpm ≥ (if t.speed_kmh > 50 then 800 else if t.speed_kmh < 10 then 1200
      else 1000) + 1000) :
    l.calculate_pattern t =
      (if l.flash_state_ = true then 0x0F else 0x1F, { l with flash_state_ := !l.flash_state_ }) := by
  have hb : ¬ (t.brake > 0.5) := not_lt.mpr hbrake
  simp only [calculate_pattern, calculate_rpm_pattern, hcfg, FfbConfig.default, hpark]
  rw [if_neg (by simp), if_neg hb, if_neg hrpm]
  norm_num at hred ⊢
  have e : ∀ b : ℚ, t.rpm ≥ b + 1000 →
      ¬ (t.rpm < b) ∧ ¬ (t.rpm < b + 300) ∧ ¬ (t.rpm < b + 600) ∧ ¬ (t.rpm < b + 800) ∧
        ¬ (t.rpm < b + 1000) := by
    intro b hb2
    refine ⟨?_, ?_, ?_, ?_, ?_⟩ <;> (apply not_lt.mpr; linarith)
  obtain ⟨e1, e2, e3, e4, e5⟩ := e _ hred
  rw [if_neg e1, if_neg e2, if_neg e3, if_neg e4, if_neg e5]
  cases hf : l.flash_state_ <;> simp [LED_PATTERN_5, LED_PATTERN_4]

/-- With the parking brake off and the brake at most 0.5, under the default
configuration, the pattern below the top step is read off the bucket table and
the controller is left as it was. -/
theorem calculate_pattern_table (l : LedController) (t : TelemetryData) (B : ℚ)
    (hcfg : l.config_ = FfbConfig.default)
    (hpark : t.parking_brake = false) (hbrake : t.brake ≤ 0.5)
    (hB : B = if t.speed_kmh > 50 then 800 else if t.speed_kmh < 10 then 1200 else 1000)
    (htop : t.rpm < B + 1000) :
    l.calculate_pattern t =
      (if t.rpm = 0 then 0x00
        else if t.rpm < B then 0x01
        else if t.rpm < B + 300 then 0x03
        else if t.rpm < B + 600 then 0x07
        else if t.rpm < B + 800 then 0x0F
        else 0x1F, l) := by
  have hb : ¬ (t.brake > 0.5) := not_lt.mpr hbrake
  simp only [calculate_pattern, calculate_rpm_pattern, hcfg, FfbConfig.default, hpark]
  rw [if_neg (by simp), if_neg hb]
  by_cases h0 : t.rpm = 0
  · rw [if_pos h0, if_pos h0]
    rfl
  · rw [if_neg h0, if_neg h0]
    norm_num at hB ⊢
    rw [← hB]
    have h5 : t.rpm < B + 1000 := htop
    rw [if_pos h5]
    split_ifs <;> rfl

end LedController

/-! ## Helper lemmas: commands on an open wheel -/

namespace WheelController

theorem logged_nil (w : WheelController) : w.logged [] = w := by
  simp [logged]

theorem logged_logged (w : WheelController) (a b : List HidCall) :
    (w.logged a).logged b = w.logged (a ++ b) := by
  simp [logged, List.append_assoc]

/-- On an open wheel every command is passed to the device and logged, and its
outcome is the one of its position. -/
theorem send_command_logged (w : WheelController) (h : w.device_interface_.is_open_ = true)
    (cs : List HidCall) (command : Command) :
    (w.logged cs).send_command command =
      (w.outcome cs.length, w.logged (cs ++ [HidCall.set_report command])) := by
  simp [send_command, logged, outcome, HidDeviceInterface.is_open, HidDeviceInterface.send_command,
    IOHIDDevice.call, h, List.append_assoc]

theorem send_command_open (w : WheelController) (h : w.device_interface_.is_open_ = true)
    (command : Command) :
    w.send_command command = (w.outcome 0, w.logged [HidCall.set_report command]) := by
  have e := send_command_logged w h [] command
  rw [logged_nil] at e
  exact e

theorem led_sweep_logged (w : WheelController) (h : w.device_interface_.is_open_ = true)
    (l : List Nat) : ∀ cs : List HidCall,
      led_sweep (w.logged cs) l = w.logged (cs ++ l.map led_report) := by
  induction l with
  | nil => intro cs; simp [led_sweep]
  | cons i rest ih =>
    intro cs
    simp only [led_sweep, set_led_pattern, send_command_logged w h, ih, List.map_cons,
      List.append_assoc, List.singleton_append, led_report]

/-- The calibration sequence on an open wheel: only the first LED command and
the five self-test commands can abort it, each at its position. -/
theorem perform_calibration_sequence_open (w : WheelController)
    (h : w.device_interface_.is_open_ = true) :
    w.perform_calibration_sequence =
      if w.outcome 0 = false then (false, w.logged (led_calls.take 1))
      else if w.outcome 65 = false then (false, w.logged (led_calls ++ self_test_calls.take 1))
      else if w.outcome 66 = false then (false, w.logged (led_calls ++ self_test_calls.take 2))
      else if w.outcome 67 = false then (false, w.logged (led_calls ++ self_test_calls.take 3))
      else if w.outcome 68 = false then (false, w.logged (led_calls ++ self_test_calls.take 4))
      else if w.outcome 69 = false then (false, w.logged (led_calls ++ self_test_calls))
      else (true, w.logged (led_calls ++ self_test_calls)) := by
  have e : (w.logged []).perform_calibration_sequence = w.perform_calibration_sequence := by
    rw [logged_nil]
  rw [← e]
  simp only [perform_calibration_sequence, set_led_pattern, disable_autocenter,
    set_constant_force, stop_forces, set_autocenter_spring, enable_autocenter,
    send_command_logged w h, led_sweep_logged w h]
  simp only [List.length_append, List.length_map, List.length_range, List.length_reverse,
    List.length_cons, List.length_nil, List.nil_append, List.append_assoc, List.singleton_append,
    List.cons_append]
  norm_num
  rfl

/-- Whether the calibration sequence succeeds on an open wheel. -/
theorem perform_calibration_sequence_result (w : WheelController)
    (h : w.device_interface_.is_open_ = true) :
    w.perform_calibration_sequence.1 =
      (w.outcome 0 && w.outcome 65 && w.outcome 66 && w.outcome 67 && w.outcome 68 &&
        w.outcome 69) := by
  rw [perform_calibration_sequence_open w h]
  cases w.outcome 0 <;> cases w.outcome 65 <;> cases w.outcome 66 <;> cases w.outcome 67 <;>
    cases w.outcome 68 <;> cases w.outcome 69 <;> rfl

theorem logged_flags (w : WheelController) (cs : List HidCall) :
    (w.logged cs).is_initialized_ = w.is_initialized_ ∧
    (w.logged cs).is_calibrated_ = w.is_calibrated_ ∧
    (w.logged cs).device_interface_.is_open_ = w.device_interface_.is_open_ ∧
    (w.logged cs).device_interface_.io.calls = w.device_interface_.io.calls ++ cs :=
  ⟨rfl, rfl, rfl, rfl⟩

/-- The calibration sequence changes neither flag of the wheel. -/
theorem perform_calibration_sequence_flags (w : WheelController)
    (h : w.device_interface_.is_open_ = true) :
    w.perform_calibration_sequence.2.is_initialized_ = w.is_initialized_ ∧
    w.perform_calibration_sequence.2.is_calibrated_ = w.is_calibrated_ := by
  rw [perform_calibration_sequence_open w h]
  split_ifs <;> exact ⟨rfl, rfl⟩

/-- The neutral reset on an open wheel logs its three reports, whatever their
outcomes. -/
theorem reset_logged (w : WheelController) (h : w.device_interface_.is_open_ = true) :
    ((w.stop_forces.2.disable_autocenter.2).set_led_pattern LED_PATTERN_OFF).2 =
      w.logged reset_calls := by
  have e : w.stop_forces = (w.logged []).stop_forces := by rw [logged_nil]
  rw [e]
  simp only [set_led_pattern, disable_autocenter, stop_forces, send_command_logged w h]
  rfl

/-- A command changes neither the flags of the wheel nor whether its transport
is open. -/
theorem send_command_keeps (w : WheelController) (command : Command) :
    (w.send_command command).2.is_initialized_ = w.is_initialized_ ∧
    (w.send_command command).2.is_calibrated_ = w.is_calibrated_ ∧
    (w.send_command command).2.device_interface_.is_open_ = w.device_interface_.is_open_ := by
  simp only [send_command, HidDeviceInterface.send_command, HidDeviceInterface.is_open]
  split_ifs <;> exact ⟨rfl, rfl, rfl⟩

/-- A successful open leaves the handle open. -/
theorem open_device_open (h : HidDeviceInterface) :
    h.open_device.1 = true → h.open_device.2.is_open_ = true := by
  simp only [HidDeviceInterface.open_device]
  split_ifs <;> simp_all

/-- A controller is initialized only with its transport open: initialise
establishes this and keeps it. -/
theorem initialise_open (w : WheelController)
    (hw : w.is_initialized_ = true → w.device_interface_.is_open_ = true) :
    w.initialise.2.is_initialized_ = true → w.initialise.2.device_interface_.is_open_ = true := by
  simp only [initialise]
  split_ifs with h1 h2 h3
  · exact hw
  · intro hx
    exact absurd hx h1
  · intro hx
    exact absurd hx h1
  · intro _
    simp only [set_led_pattern]
    rw [(send_command_keeps _ _).2.2]
    apply open_device_open
    cases hr : w.device_interface_.open_device.1
    · exact absurd hr h3
    · rfl

/-- The destructor of an initialized wheel with an open transport logs the
neutral reset and then closes; a failed close is repeated once by the
destruction of the interface. -/
theorem destructor_calls (w : WheelController) (hinit : w.is_initialized_ = true)
    (hopen : w.device_interface_.is_open_ = true) :
    w.destructor.io.calls = w.device_interface_.io.calls ++ reset_calls ++
      (if w.outcome 3 = true then [HidCall.device_close]
        else [HidCall.device_close, HidCall.device_close]) := by
  have hlen : (w.device_interface_.io.calls ++ reset_calls).length =
      w.device_interface_.io.calls.length + 3 := by
    simp [reset_calls]
  simp only [destructor, hinit, HidDeviceInterface.is_open, hopen, if_true, reset_logged w hopen]
  by_cases hs : w.device_interface_.io.succeeds (w.device_interface_.io.calls.length + 3) = true
  · simp [HidDeviceInterface.destructor, HidDeviceInterface.close, logged, IOHIDDevice.call,
      hopen, outcome, hlen, hs]
  · simp [HidDeviceInterface.destructor, HidDeviceInterface.close, logged, IOHIDDevice.call,
      hopen, outcome, hlen, hs]
    split_ifs <;> rfl

/-- The outcome of calibrate on an initialized, uncalibrated wheel with an open
transport. -/
theorem calibrate_open (w : WheelController) (hinit : w.is_initialized_ = true)
    (huncal : w.is_calibrated_ = false) (hopen : w.device_interface_.is_open_ = true) :
    w.calibrate.1 = (w.outcome 0 && w.outcome 65 && w.outcome 66 && w.outcome 67 &&
      w.outcome 68 && w.outcome 69) ∧
    w.calibrate.2.is_calibrated_ = (w.outcome 0 && w.outcome 65 && w.outcome 66 &&
      w.outcome 67 && w.outcome 68 && w.outcome 69) ∧
    w.calibrate.2.is_initialized_ = true := by
  have h1 := perform_calibration_sequence_result w hopen
  have h2 := perform_calibration_sequence_flags w hopen
  simp only [calibrate, hinit, huncal]
  rw [← h1]
  cases hr : w.perform_calibration_sequence.1
  · simp [h2.1, h2.2, hinit, huncal]
  · simp [h2.1, hinit]

end WheelController

namespace PluginManager

theorem update_force_feedback_wheel_constant (params : ForceParameters) (w : WheelController)
    (all_success : Bool) (hc : params.use_constant_force = true)
    (hinit : w.is_initialized_ = true) (hopen : w.device_interface_.is_open_ = true) :
    (update_force_feedback_wheel params w all_success).1 =
      w.logged [HidCall.set_report (CommandBuilder.create_constant_force params.constant_force)] := by
  simp [update_force_feedback_wheel, WheelController.is_initialized, hinit, hc,
    WheelController.set_constant_force, WheelController.send_command_open w hopen]

theorem update_force_feedback_wheel_skipped (params : ForceParameters) (w : WheelController)
    (all_success : Bool) (hinit : w.is_initialized_ = false) :
    update_force_feedback_wheel params w all_success = (w, all_success) := by
  simp [update_force_feedback_wheel, WheelController.is_initialized, hinit]

/-- The neutral reset of one wheel: three reports on an initialized wheel with
an open transport, nothing otherwise. -/
theorem reset_wheel_calls (w : WheelController) :
    (reset_wheel w).device_interface_.io.calls = w.device_interface_.io.calls ++
      (if w.is_initialized_ = true ∧ w.device_interface_.is_open_ = true then reset_calls
        else []) := by
  cases hinit : w.is_initialized_
  · simp [reset_wheel, WheelController.is_initialized, hinit]
  · cases hopen : w.device_interface_.is_open_
    · simp [reset_wheel, WheelController.is_initialized, hinit, WheelController.stop_forces,
        WheelController.disable_autocenter, WheelController.set_led_pattern,
        WheelController.send_command, HidDeviceInterface.is_open, hopen]
    · simp only [reset_wheel, WheelController.is_initialized, hinit,
        WheelController.reset_logged w hopen]
      simp [WheelController.logged]

/-- The force update touches neither the cadence counters, nor the pause flag,
nor the LED controller, nor the sample. -/
theorem update_force_feedback_keeps (pm : PluginManager) :
    pm.update_force_feedback.2.force_update_counter_ = pm.force_update_counter_ ∧
    pm.update_force_feedback.2.led_update_counter_ = pm.led_update_counter_ ∧
    pm.update_force_feedback.2.is_paused_ = pm.is_paused_ ∧
    pm.update_force_feedback.2.led_controller_ = pm.led_controller_ ∧
    pm.update_force_feedback.2.telemetry_data_ = pm.telemetry_data_ := by
  simp only [update_force_feedback]
  split
  · exact ⟨rfl, rfl, rfl, rfl, rfl⟩
  · split_ifs <;> exact ⟨rfl, rfl, rfl, rfl, rfl⟩

/-- The LED update touches neither the cadence counters, nor the pause flag,
nor the terrain state, nor the sample. -/
theorem update_leds_keeps (pm : PluginManager) :
    pm.update_leds.2.force_update_counter_ = pm.force_update_counter_ ∧
    pm.update_leds.2.led_update_counter_ = pm.led_update_counter_ ∧
    pm.update_leds.2.is_paused_ = pm.is_paused_ ∧
    pm.update_leds.2.terrain_state_ = pm.terrain_state_ ∧
    pm.update_leds.2.telemetry_data_ = pm.telemetry_data_ := by
  simp only [update_leds]
  split
  · exact ⟨rfl, rfl, rfl, rfl, rfl⟩
  · split_ifs <;> exact ⟨rfl, rfl, rfl, rfl, rfl⟩

/-- One frame end of an orchestrator that is not paused: each counter is
decremented and, when that leaves it at or below 0, reloaded with its rate. -/
theorem on_frame_end_counters (pm : PluginManager) (h : pm.is_paused_ = false) :
    pm.on_frame_end.force_update_counter_ =
      (if pm.force_update_counter_ - 1 ≤ 0 then 8 else pm.force_update_counter_ - 1) ∧
    pm.on_frame_end.led_update_counter_ =
      (if pm.led_update_counter_ - 1 ≤ 0 then 32 else pm.led_update_counter_ - 1) ∧
    pm.on_frame_end.is_paused_ = false := by
  simp only [on_frame_end, h]
  refine ⟨?_, ?_, ?_⟩
  · split_ifs <;>
      simp_all [(update_leds_keeps _).1, (update_force_feedback_keeps _).1, FORCE_UPDATE_RATE]
  · split_ifs <;>
      simp_all [(update_leds_keeps _).2.1, (update_force_feedback_keeps _).2.1, LED_UPDATE_RATE]
  · split_ifs <;>
      simp_all [(update_leds_keeps _).2.2.1, (update_force_feedback_keeps _).2.2.1]

/-- One frame end of an orchestrator that is not paused, with the two guards
replaced by conditions equivalent to them: the force update is called exactly
under the first condition and the LED update exactly under the second, each on
the orchestrator as the steps before it left it. -/
theorem on_frame_end_running (pm : PluginManager) (f l : Prop) [Decidable f] [Decidable l]
    (hp : pm.is_paused_ = false) (hf : pm.force_update_counter_ - 1 ≤ 0 ↔ f)
    (hl : pm.led_update_counter_ - 1 ≤ 0 ↔ l) :
    pm.on_frame_end =
      (let p1 : PluginManager :=
        { pm with force_update_counter_ := pm.force_update_counter_ - 1 }
      let p2 : PluginManager :=
        if f then { p1.update_force_feedback.2 with force_update_counter_ := 8 } else p1
      let p3 : PluginManager :=
        { p2 with led_update_counter_ := p2.led_update_counter_ - 1 }
      let p4 : PluginManager :=
        if l then { p3.update_leds.2 with led_update_counter_ := 32 } else p3
      { p4 with terrain_state_ :=
          { p4.terrain_state_ with
            last_vertical_acceleration := p4.telemetry_data_.linear_acceleration_y } }) := by
  simp only [on_frame_end, hp, Bool.false_eq_true, if_false, FORCE_UPDATE_RATE, LED_UPDATE_RATE]
  by_cases h1 : f
  · have g1 : pm.force_update_counter_ - 1 ≤ 0 := hf.mpr h1
    by_cases h2 : l
    · have g2 : pm.led_update_counter_ - 1 ≤ 0 := hl.mpr h2
      simp [h1, h2, g1, g2, (update_force_feedback_keeps _).2.1]
    · have g2 : ¬ pm.led_update_counter_ - 1 ≤ 0 := fun h => h2 (hl.mp h)
      simp [h1, h2, g1, g2, (update_force_feedback_keeps _).2.1]
  · have g1 : ¬ pm.force_update_counter_ - 1 ≤ 0 := fun h => h1 (hf.mp h)
    by_cases h2 : l
    · have g2 : pm.led_update_counter_ - 1 ≤ 0 := hl.mpr h2
      simp [h1, h2, g1, g2]
    · have g2 : ¬ pm.led_update_counter_ - 1 ≤ 0 := fun h => h2 (hl.mp h)
      simp [h1, h2, g1, g2]

/-- The counters after n frame ends of an orchestrator that started with both
counters at 0 and not paused. -/
theorem run_frames_counters (tel : Nat → TelemetryData) (pm : PluginManager)
    (hf : pm.force_update_counter_ = 0) (hl : pm.led_update_counter_ = 0)
    (hp : pm.is_paused_ = false) (n : Nat) :
    (run_frames tel pm n).is_paused_ = false ∧
    (run_frames tel pm n).force_update_counter_ =
      (if n = 0 then 0 else 8 - (((n - 1) % 8 : Nat) : Int)) ∧
    (run_frames tel pm n).led_update_counter_ =
      (if n = 0 then 0 else 32 - (((n - 1) % 32 : Nat) : Int)) := by
  induction n with
  | zero => exact ⟨hp, by simp [run_frames, hf], by simp [run_frames, hl]⟩
  | succ n ih =>
    obtain ⟨i1, i2, i3⟩ := ih
    have hc := on_frame_end_counters
      { run_frames tel pm n with telemetry_data_ := tel n } i1
    simp only [] at hc
    obtain ⟨c1, c2, c3⟩ := hc
    refine ⟨c3, ?_, ?_⟩
    · show (PluginManager.on_frame_end _).force_update_counter_ = _
      rw [c1, i2]
      by_cases h0 : n = 0
      · subst h0
        simp
      · simp only [h0, if_false, Nat.succ_ne_zero, Nat.add_sub_cancel]
        split_ifs <;> omega
    · show (PluginManager.on_frame_end _).led_update_counter_ = _
      rw [c2, i3]
      by_cases h0 : n = 0
      · subst h0
        simp
      · simp only [h0, if_false, Nat.succ_ne_zero, Nat.add_sub_cancel]
        split_ifs <;> omega

/-- The neutral reset over wheels that are initialized only with an open
transport: three reports to each initialized wheel, nothing to the others. -/
theorem reset_wheels_calls (ws : List WheelController)
    (hopen : ∀ w ∈ ws, w.is_initialized_ = true → w.device_interface_.is_open_ = true) :
    List.Forall₂
      (fun (w w2 : WheelController) =>
        w2.device_interface_.io.calls = w.device_interface_.io.calls ++
          (if w.is_initialized_ = true then reset_calls else []))
      ws (ws.map reset_wheel) := by
  induction ws with
  | nil => exact List.Forall₂.nil
  | cons u rest ih =>
    rw [List.map_cons]
    refine List.Forall₂.cons ?_ (ih (fun w hw => hopen w (List.mem_cons_of_mem _ hw)))
    rw [reset_wheel_calls u]
    cases hinit : u.is_initialized_
    · simp
    · simp [hopen u (List.mem_cons_self _ _) hinit]

/-- With the constant force off and the custom spring on, an initialized wheel
with an open transport receives the stop-forces report and then the spring
report built from the spring fields as they are. -/
theorem update_force_feedback_wheel_spring (params : ForceParameters) (w : WheelController)
    (all_success : Bool) (hc : params.use_constant_force = false)
    (hs : params.use_custom_spring = true)
    (hinit : w.is_initialized_ = true) (hopen : w.device_interface_.is_open_ = true) :
    ∃ rest : List HidCall,
      (update_force_feedback_wheel params w all_success).1 =
        w.logged (HidCall.set_report CommandBuilder.create_stop_forces ::
          HidCall.set_report (CommandBuilder.create_custom_spring 0 0 params.spring_k1
            params.spring_k2 0 0 params.spring_clip) :: rest) := by
  have e2 : ∀ (a b : HidCall) (command : Command),
      (w.logged [a, b]).send_command command =
        (w.outcome 2, w.logged [a, b, HidCall.set_report command]) :=
    fun a b command => WheelController.send_command_logged w hopen [a, b] command
  have e3 : ∀ (a b c : HidCall) (command : Command),
      (w.logged [a, b, c]).send_command command =
        (w.outcome 3, w.logged [a, b, c, HidCall.set_report command]) :=
    fun a b c command => WheelController.send_command_logged w hopen [a, b, c] command
  have e4 : ∀ (a b c d : HidCall) (command : Command),
      (w.logged [a, b, c, d]).send_command command =
        (w.outcome 4, w.logged [a, b, c, d, HidCall.set_report command]) :=
    fun a b c d command => WheelController.send_command_logged w hopen [a, b, c, d] command
  have e1 : ∀ (a : HidCall) (command : Command),
      (w.logged [a]).send_command command =
        (w.outcome 1, w.logged [a, HidCall.set_report command]) :=
    fun a command => WheelController.send_command_logged w hopen [a] command
  simp only [update_force_feedback_wheel, WheelController.is_initialized, hinit, hc, hs,
    WheelController.stop_forces, WheelController.set_custom_spring, WheelController.set_damper,
    WheelController.enable_autocenter, WheelController.disable_autocenter,
    WheelController.set_autocenter_spring, WheelController.send_command_open w hopen,
    e1, e2, e3, e4, Bool.true_eq_false, Bool.false_eq_true, if_false, if_true]
  split_ifs <;> simp only [e1, e2, e3, e4] <;> exact ⟨_, rfl⟩

end PluginManager

/-! ## Theorems -/

open CommandBuilder ForceCalculator

/-- C1: with k1, k2, s1, s2 in 0..15, create_custom_spring returns exactly the
eight bytes 0xF1, 0x01, d1, d2, (k2<<4)|k1, (s2<<4)|s1, clip, 0x00. -/
theorem create_custom_spring_bytes (d1 d2 k1 k2 s1 s2 clip : Nat)
    (hk1 : k1 ≤ 15) (hk2 : k2 ≤ 15) (hs1 : s1 ≤ 15) (hs2 : s2 ≤ 15) :
    create_custom_spring d1 d2 k1 k2 s1 s2 clip =
      [0xF1, 0x01, d1, d2, (k2 <<< 4) ||| k1, (s2 <<< 4) ||| s1, clip, 0x00] := by
  rw [create_custom_spring, create_force_effect_command_five,
    pack_mod_of_nibbles k2 k1 hk2 hk1, pack_mod_of_nibbles s2 s1 hs2 hs1]
  rfl

theorem create_custom_spring_bytes_witness :
    CommandBuilder.create_custom_spring 0x10 0x20 3 4 5 6 0xFF =
      [0xF1, 0x01, 0x10, 0x20, 0x43, 0x65, 0xFF, 0x00] :=
  create_custom_spring_bytes 0x10 0x20 3 4 5 6 0xFF (by decide) (by decide) (by decide)
    (by decide)

/-- C2: for k1, k2 in 0..15 and any d1, d2, s1, s2, clip, command byte 4 of
create_custom_spring is a byte b with (b & 0xF) = k1 and (b >> 4) = k2. -/
theorem spring_k_round_trip (d1 d2 k1 k2 s1 s2 clip : Nat) (hk1 : k1 ≤ 15) (hk2 : k2 ≤ 15) :
    ∃ b, (create_custom_spring d1 d2 k1 k2 s1 s2 clip)[4]? = some b ∧
      b &&& 0xF = k1 ∧ b >>> 4 = k2 := by
  refine ⟨(k2 <<< 4) ||| k1, ?_, unpack_pack k2 k1 hk2 hk1⟩
  rw [create_custom_spring, create_force_effect_command_five,
    pack_mod_of_nibbles k2 k1 hk2 hk1]
  rfl

theorem spring_k_round_trip_witness :
    ∃ b, (CommandBuilder.create_custom_spring 1 2 9 12 200 100 7)[4]? = some b ∧
      b &&& 0xF = 9 ∧ b >>> 4 = 12 :=
  spring_k_round_trip 1 2 9 12 200 100 7 (by decide) (by decide)

/-- C3, as stated, fails: with k1 = 16 and k2 = 0 command byte 4 of the spring
command is 16, while the packing of the inputs truncated to four bits is 0. -/
theorem spring_low_operand_not_truncated :
    (CommandBuilder.create_custom_spring 0 0 16 0 0 0 0)[4]? = some 16 ∧
      (CommandBuilder.create_custom_spring 0 0 16 0 0 0 0)[4]? ≠
        some (((0 % 16) <<< 4) ||| (16 % 16)) := by
  decide

/-- C3, amended: for all bytes, only the shifted operand of a packed pair is
truncated to its low four bits; the other operand is or-ed in whole. Command
byte 4 of the spring command is ((k2 mod 16) << 4) | k1, byte 5 is
((s2 mod 16) << 4) | s1, and the last trapezoid parameter byte (command byte 6)
is ((t3 mod 16) << 4) | s. -/
theorem packed_bytes_truncate_shifted_operand (d1 d2 k1 k2 s1 s2 clip l1 l2 t1 t2 t3 s : Nat)
    (hk1 : k1 < 256) (hs1 : s1 < 256) (hs : s < 256) :
    (create_custom_spring d1 d2 k1 k2 s1 s2 clip)[4]? = some (((k2 % 16) <<< 4) ||| k1) ∧
    (create_custom_spring d1 d2 k1 k2 s1 s2 clip)[5]? = some (((s2 % 16) <<< 4) ||| s1) ∧
    (create_trapezoid l1 l2 t1 t2 t3 s)[6]? = some (((t3 % 16) <<< 4) ||| s) := by
  rw [create_custom_spring, create_trapezoid, create_force_effect_command_five,
    create_force_effect_command_five, pack_mod_of_bytes k2 k1 hk1, pack_mod_of_bytes s2 s1 hs1,
    pack_mod_of_bytes t3 s hs]
  exact ⟨rfl, rfl, rfl⟩

theorem packed_bytes_truncate_shifted_operand_witness :
    (CommandBuilder.create_custom_spring 1 2 0x2A 0x93 0x17 0xF5 9)[4]? = some 0x3A ∧
    (CommandBuilder.create_custom_spring 1 2 0x2A 0x93 0x17 0xF5 9)[5]? = some 0x57 ∧
    (CommandBuilder.create_trapezoid 1 2 3 4 0x81 0x42)[6]? = some 0x52 :=
  packed_bytes_truncate_shifted_operand 1 2 0x2A 0x93 0x17 0xF5 9 1 2 3 4 0x81 0x42
    (by decide) (by decide) (by decide)

/-- C4: create_constant_force f is 0xF1, 0x00, f, f, f, f, 0x00, 0x00: the four
magnitude slots carry the same value. -/
theorem create_constant_force_bytes (f : Nat) :
    CommandBuilder.create_constant_force f = [0xF1, 0x00, f, f, f, f, 0x00, 0x00] := rfl

/-- C5: create_damper k1 k2 s1 s2 is 0xF1, 0x02, k1, s1, k2, s2, 0x00, 0x00, the
k and s arguments interleaved. -/
theorem create_damper_bytes (k1 k2 s1 s2 : Nat) :
    CommandBuilder.create_damper k1 k2 s1 s2 = [0xF1, 0x02, k1, s1, k2, s2, 0x00, 0x00] := rfl

/-- C6: with t3 and s in 0..15, create_trapezoid returns exactly the bytes
0xF1, 0x06, l1, l2, t1, t2, (t3<<4)|s, 0x00. -/
theorem create_trapezoid_bytes (l1 l2 t1 t2 t3 s : Nat) (ht3 : t3 ≤ 15) (hs : s ≤ 15) :
    create_trapezoid l1 l2 t1 t2 t3 s = [0xF1, 0x06, l1, l2, t1, t2, (t3 <<< 4) ||| s, 0x00] := by
  rw [create_trapezoid, create_force_effect_command_five, pack_mod_of_nibbles t3 s ht3 hs]
  rfl

theorem create_trapezoid_bytes_witness :
    CommandBuilder.create_trapezoid 10 20 30 40 7 11 = [0xF1, 0x06, 10, 20, 30, 40, 0x7B, 0x00] :=
  create_trapezoid_bytes 10 20 30 40 7 11 (by decide) (by decide)

/-- C7: create_autocenter_spring k1 k2 clip is 0xFE, 0x00, k1, k2, clip, 0x00,
0x00, 0x00. -/
theorem create_autocenter_spring_bytes (k1 k2 clip : Nat) :
    CommandBuilder.create_autocenter_spring k1 k2 clip =
      [0xFE, 0x00, k1, k2, clip, 0x00, 0x00, 0x00] := rfl

/-- C8: create_led_pattern p is 0xF8, 0x12, p followed by five zero bytes. -/
theorem create_led_pattern_bytes (p : Nat) :
    CommandBuilder.create_led_pattern p = [0xF8, 0x12, p, 0, 0, 0, 0, 0] := rfl

/-- C9: each parameterless command is its opcode followed by seven zero bytes:
0xF5 for disable-autocenter, 0xF4 for enable-autocenter, 0xF3 for stop-forces. -/
theorem parameterless_commands_bytes :
    CommandBuilder.create_disable_autocenter = [0xF5, 0, 0, 0, 0, 0, 0, 0] ∧
    CommandBuilder.create_enable_autocenter = [0xF4, 0, 0, 0, 0, 0, 0, 0] ∧
    CommandBuilder.create_stop_forces = [0xF3, 0, 0, 0, 0, 0, 0, 0] :=
  ⟨rfl, rfl, rfl⟩

/-- C10: for every sample in the stationary regime (absolute speed below 2)
without power steering (engine disabled or rpm at most 500), with no motor
brake, no retarder and no vertical acceleration, and whatever its other fields,
calculate with the default configuration on a fresh terrain state returns
autocenter_force = 0, autocenter_slope = 0, both damper bytes 4,
use_constant_force = false and use_custom_spring = false. -/
theorem calculate_stationary (t : TelemetryData)
    (hspeed : |t.speed| < 2)
    (hps : t.engine_enabled = false ∨ t.rpm ≤ 500)
    (hmb : t.motor_brake = false) (hret : t.retarder_level = 0)
    (hvert : t.linear_acceleration_y = 0) :
    (calculate FfbConfig.default t {}).1.autocenter_force = 0 ∧
    (calculate FfbConfig.default t {}).1.autocenter_slope = 0 ∧
    (calculate FfbConfig.default t {}).1.damper_force_positive = 4 ∧
    (calculate FfbConfig.default t {}).1.damper_force_negative = 4 ∧
    (calculate FfbConfig.default t {}).1.use_constant_force = false ∧
    (calculate FfbConfig.default t {}).1.use_custom_spring = false := by
  have hps2 : ¬ (t.engine_enabled = true ∧ t.rpm > 500) := by
    rintro ⟨he, hr⟩
    rcases hps with h | h
    · rw [h] at he
      exact Bool.false_ne_true he
    · exact absurd hr (not_lt.mpr h)
  have h5 : |t.speed| ≤ 5 := by linarith
  have e : (calculate FfbConfig.default t {}).1 =
      { damper_force_positive := 4, damper_force_negative := 4 } := by
    simp only [calculate, base_forces_stationary t hspeed hps2,
      self_aligning_torque_stationary t (le_of_lt hspeed),
      power_steering_effects_idle FfbConfig.default t hmb hret,
      terrain_effects_flat t hvert, vehicle_dynamics_slow FfbConfig.default t h5,
      steering_kickback_slow t h5]
  rw [e]
  exact ⟨rfl, rfl, rfl, rfl, rfl, rfl⟩

theorem calculate_stationary_witness :
    (ForceCalculator.calculate FfbConfig.default
      { speed := -1.5, steering := 0.5, rpm := 400, engine_enabled := true } {}).1.autocenter_force
      = 0 ∧
    (ForceCalculator.calculate FfbConfig.default
      { speed := -1.5, steering := 0.5, rpm := 400, engine_enabled := true } {}).1.autocenter_slope
      = 0 ∧
    (ForceCalculator.calculate FfbConfig.default
      { speed := -1.5, steering := 0.5, rpm := 400, engine_enabled := true }
      {}).1.damper_force_positive = 4 ∧
    (ForceCalculator.calculate FfbConfig.default
      { speed := -1.5, steering := 0.5, rpm := 400, engine_enabled := true }
      {}).1.damper_force_negative = 4 ∧
    (ForceCalculator.calculate FfbConfig.default
      { speed := -1.5, steering := 0.5, rpm := 400, engine_enabled := true }
      {}).1.use_constant_force = false ∧
    (ForceCalculator.calculate FfbConfig.default
      { speed := -1.5, steering := 0.5, rpm := 400, engine_enabled := true }
      {}).1.use_custom_spring = false :=
  calculate_stationary { speed := -1.5, steering := 0.5, rpm := 400, engine_enabled := true }
    (by norm_num [abs_lt]) (Or.inr (by norm_num)) rfl rfl rfl

/-- C11, as stated, fails: from the reverse speed -3 m/s to the speed 0 the
slope that calculate returns drops from 2 to 0, all other fields being equal. -/
theorem slope_drops_from_reverse_to_stationary :
    (-3 : ℚ) ≤ 0 ∧
    (calculate FfbConfig.default { speed := -3 } {}).1.autocenter_slope = 2 ∧
    (calculate FfbConfig.default { speed := 0 } {}).1.autocenter_slope = 0 ∧
    ¬ ((calculate FfbConfig.default { speed := -3 } {}).1.autocenter_slope ≤
      (calculate FfbConfig.default { speed := 0 } {}).1.autocenter_slope) := by
  have h3 : (({ speed := -3 } : TelemetryData)).speed_kmh < 15 := by
    have := TelemetryData.speed_kmh_le_of_reverse { speed := -3 } (by norm_num)
    linarith
  have e3 : (calculate FfbConfig.default { speed := -3 } {}).1.autocenter_slope = 2 := by
    rw [calculate_slope, base_forces_slope, if_neg (by norm_num [abs_lt]), if_pos h3]
  have e0 : (calculate FfbConfig.default { speed := 0 } {}).1.autocenter_slope = 0 := by
    rw [calculate_slope, base_forces_slope, if_pos (by norm_num)]
  rw [e3, e0]
  norm_num

/-- C11, amended: for all speeds v1 <= v2, all other telemetry fields and the
terrain state equal and the configuration the default one, the autocenter_slope
that calculate returns at v1 is at most the one at v2, provided the pair does
not go from reverse driving (v1 <= -2) into the stationary band (|v2| < 2): that
is, provided |v1| < 2 or |v2| >= 2. This covers every pair of forward speeds, so
the slope does not decrease across the 35, 65 and 100 km/h boundaries. -/
theorem autocenter_slope_monotone (t : TelemetryData) (s : TerrainState) (v1 v2 : ℚ)
    (h : v1 ≤ v2) (hband : |v1| < 2 ∨ 2 ≤ |v2|) :
    (calculate FfbConfig.default { t with speed := v1 } s).1.autocenter_slope ≤
      (calculate FfbConfig.default { t with speed := v2 } s).1.autocenter_slope := by
  rw [calculate_slope, calculate_slope]
  exact base_forces_slope_mono t v1 v2 h hband

theorem autocenter_slope_monotone_witness :
    (calculate FfbConfig.default { ({} : TelemetryData) with speed := 18 } {}).1.autocenter_slope ≤
      (calculate FfbConfig.default
        { ({} : TelemetryData) with speed := 19 } {}).1.autocenter_slope :=
  autocenter_slope_monotone {} {} 18 19 (by norm_num) (Or.inr (by norm_num [le_abs]))

/-- C12: clamp_to_byte x lies in 0..255; it is 0 for x <= 0, 255 for x >= 255
and the integer part of x otherwise. Every numeric field of the parameters that
calculate returns is at most 255 (and, being unsigned, at least 0), for every
configuration, sample and terrain state. -/
theorem clamp_to_byte_saturates (x : ℚ) (c : FfbConfig) (t : TelemetryData)
    (s : TerrainState) :
    clamp_to_byte x ≤ 255 ∧
    clamp_to_byte x = (if x ≤ 0 then 0 else if 255 ≤ x then 255 else ⌊x⌋.toNat) ∧
    (calculate c t s).1.autocenter_force ≤ 255 ∧
    (calculate c t s).1.autocenter_slope ≤ 255 ∧
    (calculate c t s).1.damper_force_positive ≤ 255 ∧
    (calculate c t s).1.damper_force_negative ≤ 255 ∧
    (calculate c t s).1.constant_force ≤ 255 ∧
    (calculate c t s).1.spring_k1 ≤ 255 ∧
    (calculate c t s).1.spring_k2 ≤ 255 ∧
    (calculate c t s).1.spring_clip ≤ 255 := by
  refine ⟨clamp_to_byte_le x, ?_, calculate_fits c t s⟩
  split_ifs with h0 h255
  · exact clamp_to_byte_of_nonpos x h0
  · exact clamp_to_byte_of_ge x h255
  · exact clamp_to_byte_of_mem x (le_of_lt (not_le.mp h0)) (le_of_lt (not_le.mp h255))

/-- C13: in the terrain stage under the default configuration, the impact
detector returns false whenever impact_cooldown > 0, and whenever the detector
returns true the stage leaves impact_timer = 0.5 and impact_cooldown = 0.6. -/
theorem impact_detector_cooldown_and_arming (t : TelemetryData) (s : TerrainState)
    (p : ForceParameters) :
    (s.impact_cooldown > 0 → detect_terrain_impact FfbConfig.default t s = false) ∧
    (detect_terrain_impact FfbConfig.default t s = true →
      (calculate_terrain_effects FfbConfig.default t s p).1.impact_timer = 0.5 ∧
      (calculate_terrain_effects FfbConfig.default t s p).1.impact_cooldown = 0.6) := by
  refine ⟨detect_terrain_impact_cooldown FfbConfig.default t s, ?_⟩
  intro hd
  rw [terrain_effects_state, if_pos hd]
  exact ⟨rfl, rfl⟩

theorem impact_detector_cooldown_and_arming_witness :
    detect_terrain_impact FfbConfig.default { speed := 10, linear_acceleration_y := 1 }
      { impact_cooldown := 0.2 } = false ∧
    (calculate_terrain_effects FfbConfig.default { speed := 10, linear_acceleration_y := 1 }
      {} {}).1.impact_timer = 0.5 ∧
    (calculate_terrain_effects FfbConfig.default { speed := 10, linear_acceleration_y := 1 }
      {} {}).1.impact_cooldown = 0.6 :=
  ⟨(impact_detector_cooldown_and_arming { speed := 10, linear_acceleration_y := 1 }
      { impact_cooldown := 0.2 } {}).1 (by norm_num),
    (impact_detector_cooldown_and_arming { speed := 10, linear_acceleration_y := 1 } {} {}).2
      (by norm_num [detect_terrain_impact, impact_threshold, FfbConfig.default])⟩

/-- C14: for a terrain state with both timers non-negative and delta_time >= 0,
TerrainState::update leaves each timer t2 with 0 <= t2 <= t, equal to
max(0, t - delta_time) when t > 0; and calculate, under the default
configuration and for every sample, leaves both timers non-negative. -/
theorem timers_never_negative (s : TerrainState) (delta_time : ℚ) (t : TelemetryData)
    (ht : 0 ≤ s.impact_timer) (hc : 0 ≤ s.impact_cooldown) (hd : 0 ≤ delta_time) :
    (0 ≤ (s.update delta_time).impact_timer ∧
      (s.update delta_time).impact_timer ≤ s.impact_timer ∧
      (0 < s.impact_timer →
        (s.update delta_time).impact_timer = max 0 (s.impact_timer - delta_time))) ∧
    (0 ≤ (s.update delta_time).impact_cooldown ∧
      (s.update delta_time).impact_cooldown ≤ s.impact_cooldown ∧
      (0 < s.impact_cooldown →
        (s.update delta_time).impact_cooldown = max 0 (s.impact_cooldown - delta_time))) ∧
    0 ≤ (calculate FfbConfig.default t s).2.impact_timer ∧
    0 ≤ (calculate FfbConfig.default t s).2.impact_cooldown := by
  have key : ∀ (x d : ℚ), 0 ≤ x → 0 ≤ d →
      0 ≤ (if x > 0 then max 0 (x - d) else x) ∧ (if x > 0 then max 0 (x - d) else x) ≤ x ∧
        (0 < x → (if x > 0 then max 0 (x - d) else x) = max 0 (x - d)) := by
    intro x d hx hd
    split_ifs with h
    · exact ⟨le_max_left _ _, max_le hx (by linarith), fun _ => rfl⟩
    · exact ⟨hx, le_refl _, fun h2 => absurd h2 h⟩
  have k1 := key s.impact_timer delta_time ht hd
  have k2 := key s.impact_cooldown delta_time hc hd
  have k3 := key s.impact_timer (1 / 60) ht (by norm_num)
  have k4 := key s.impact_cooldown (1 / 60) hc (by norm_num)
  rw [← update_impact_timer] at k1 k3
  rw [← update_impact_cooldown] at k2 k4
  refine ⟨k1, k2, ?_⟩
  rcases calculate_timers t s with ⟨e1, e2⟩ | ⟨e1, e2⟩
  · rw [e1, e2]
    norm_num
  · rw [e1, e2]
    exact ⟨k3.1, k4.1⟩

theorem timers_never_negative_witness :
    (0 ≤ (TerrainState.update { impact_timer := 0.3, impact_cooldown := 0.01 } 0.1).impact_timer ∧
      (TerrainState.update { impact_timer := 0.3, impact_cooldown := 0.01 } 0.1).impact_timer
        ≤ 0.3 ∧
      ((0 : ℚ) < 0.3 →
        (TerrainState.update { impact_timer := 0.3, impact_cooldown := 0.01 } 0.1).impact_timer
          = max 0 (0.3 - 0.1))) ∧
    (0 ≤ (TerrainState.update { impact_timer := 0.3, impact_cooldown := 0.01 }
        0.1).impact_cooldown ∧
      (TerrainState.update { impact_timer := 0.3, impact_cooldown := 0.01 } 0.1).impact_cooldown
        ≤ 0.01 ∧
      ((0 : ℚ) < 0.01 →
        (TerrainState.update { impact_timer := 0.3, impact_cooldown := 0.01 }
          0.1).impact_cooldown = max 0 (0.01 - 0.1))) ∧
    0 ≤ (calculate FfbConfig.default { speed := 10 }
      { impact_timer := 0.3, impact_cooldown := 0.01 }).2.impact_timer ∧
    0 ≤ (calculate FfbConfig.default { speed := 10 }
      { impact_timer := 0.3, impact_cooldown := 0.01 }).2.impact_cooldown :=
  timers_never_negative { impact_timer := 0.3, impact_cooldown := 0.01 } 0.1 { speed := 10 }
    (by norm_num) (by norm_num) (by norm_num)

/-- C15: for any two samples with parking_brake = true, whatever their other
fields, and two LedController states with the same toggle, calculate_pattern
returns the same byte and the same new toggle; the byte is 0x1F when the toggle
was false and 0x00 when it was true, the toggle flips, and so the next such call
returns the other of the two bytes. -/
theorem parking_brake_non_interference (l1 l2 : LedController) (t1 t2 : TelemetryData)
    (h1 : t1.parking_brake = true) (h2 : t2.parking_brake = true)
    (hl : l1.flash_state_ = l2.flash_state_) :
    (l1.calculate_pattern t1).1 = (l2.calculate_pattern t2).1 ∧
    (l1.calculate_pattern t1).2.flash_state_ = (l2.calculate_pattern t2).2.flash_state_ ∧
    (l1.calculate_pattern t1).1 = (if l1.flash_state_ = true then 0x00 else 0x1F) ∧
    (l1.calculate_pattern t1).2.flash_state_ = (!l1.flash_state_) ∧
    ((l1.calculate_pattern t1).2.calculate_pattern t2).1 =
      (if l1.flash_state_ = true then 0x1F else 0x00) := by
  simp only [LedController.calculate_pattern_parking _ _ h1,
    LedController.calculate_pattern_parking _ _ h2, ← hl]
  cases l1.flash_state_ <;> simp

theorem parking_brake_non_interference_witness :
    (LedController.calculate_pattern {} { parking_brake := true, brake := 1, rpm := 2500 }).1 =
      (LedController.calculate_pattern {} { parking_brake := true, speed := 30 }).1 ∧
    (LedController.calculate_pattern {}
        { parking_brake := true, brake := 1, rpm := 2500 }).2.flash_state_ =
      (LedController.calculate_pattern {} { parking_brake := true, speed := 30 }).2.flash_state_ ∧
    (LedController.calculate_pattern {} { parking_brake := true, brake := 1, rpm := 2500 }).1 =
      (if ({} : LedController).flash_state_ = true then 0x00 else 0x1F) ∧
    (LedController.calculate_pattern {}
        { parking_brake := true, brake := 1, rpm := 2500 }).2.flash_state_ =
      (!({} : LedController).flash_state_) ∧
    (LedController.calculate_pattern
        (LedController.calculate_pattern {} { parking_brake := true, brake := 1, rpm := 2500 }).2
        { parking_brake := true, speed := 30 }).1 =
      (if ({} : LedController).flash_state_ = true then 0x1F else 0x00) :=
  parking_brake_non_interference {} {} { parking_brake := true, brake := 1, rpm := 2500 }
    { parking_brake := true, speed := 30 } rfl rfl rfl

/-- C16: under the default configuration, for samples with parking brake off,
brake <= 0.5, non-zero rpm and rpm >= baseline(speed_kmh) + 1000, where the
baseline is 800 above 50 km/h, 1200 below 10 km/h and 1000 otherwise, a call of
calculate_pattern flips the toggle and returns 0x1F when the toggle was false
and 0x0F when it was true; two successive calls on the same controller
therefore return the two patterns 0x1F and 0x0F, never the same one twice. -/
theorem redline_flash_alternates (l : LedController) (t1 t2 : TelemetryData)
    (hcfg : l.config_ = FfbConfig.default)
    (hpark1 : t1.parking_brake = false) (hbrake1 : t1.brake ≤ 0.5) (hrpm1 : t1.rpm ≠ 0)
    (hred1 : t1.rpm ≥ (if t1.speed_kmh > 50 then 800 else if t1.speed_kmh < 10 then 1200
      else 1000) + 1000)
    (hpark2 : t2.parking_brake = false) (hbrake2 : t2.brake ≤ 0.5) (hrpm2 : t2.rpm ≠ 0)
    (hred2 : t2.rpm ≥ (if t2.speed_kmh > 50 then 800 else if t2.speed_kmh < 10 then 1200
      else 1000) + 1000) :
    (l.calculate_pattern t1).1 = (if l.flash_state_ = true then 0x0F else 0x1F) ∧
    (l.calculate_pattern t1).2.flash_state_ = (!l.flash_state_) ∧
    ((l.calculate_pattern t1).2.calculate_pattern t2).1 =
      (if l.flash_state_ = true then 0x1F else 0x0F) ∧
    ((l.calculate_pattern t1).2.calculate_pattern t2).2.flash_state_ = l.flash_state_ ∧
    ((l.calculate_pattern t1).2.calculate_pattern t2).1 ≠ (l.calculate_pattern t1).1 := by
  rw [LedController.calculate_pattern_redline
      (l.calculate_pattern t1).2 t2 (by
        rw [LedController.calculate_pattern_redline l t1 hcfg hpark1 hbrake1 hrpm1 hred1]
        exact hcfg) hpark2 hbrake2 hrpm2 hred2,
    LedController.calculate_pattern_redline l t1 hcfg hpark1 hbrake1 hrpm1 hred1]
  cases l.flash_state_ <;> simp

theorem redline_flash_alternates_witness :
    (LedController.calculate_pattern {}
      { speed := 250 / 9, rpm := 2000, engine_enabled := true }).1 =
      (if ({} : LedController).flash_state_ = true then 0x0F else 0x1F) ∧
    (LedController.calculate_pattern {}
      { speed := 250 / 9, rpm := 2000, engine_enabled := true }).2.flash_state_ =
      (!({} : LedController).flash_state_) ∧
    (LedController.calculate_pattern
      (LedController.calculate_pattern {}
        { speed := 250 / 9, rpm := 2000, engine_enabled := true }).2
      { speed := 250 / 9, rpm := 2000, engine_enabled := true }).1 =
        (if ({} : LedController).flash_state_ = true then 0x1F else 0x0F) ∧
    (LedController.calculate_pattern
      (LedController.calculate_pattern {}
        { speed := 250 / 9, rpm := 2000, engine_enabled := true }).2
      { speed := 250 / 9, rpm := 2000, engine_enabled := true }).2.flash_state_ =
        ({} : LedController).flash_state_ ∧
    (LedController.calculate_pattern
      (LedController.calculate_pattern {}
        { speed := 250 / 9, rpm := 2000, engine_enabled := true }).2
      { speed := 250 / 9, rpm := 2000, engine_enabled := true }).1 ≠
    (LedController.calculate_pattern {}
      { speed := 250 / 9, rpm := 2000, engine_enabled := true }).1 :=
  redline_flash_alternates {} { speed := 250 / 9, rpm := 2000, engine_enabled := true }
    { speed := 250 / 9, rpm := 2000, engine_enabled := true } rfl
    rfl (by norm_num) (by norm_num)
    (by
      have h := TelemetryData.natCast_le_speed_kmh
        { speed := 250 / 9, rpm := 2000, engine_enabled := true } 99 (by norm_num)
        (by norm_num)
      rw [if_pos (lt_of_lt_of_le (by norm_num) h)]
      norm_num)
    rfl (by norm_num) (by norm_num)
    (by
      have h := TelemetryData.natCast_le_speed_kmh
        { speed := 250 / 9, rpm := 2000, engine_enabled := true } 99 (by norm_num)
        (by norm_num)
      rw [if_pos (lt_of_lt_of_le (by norm_num) h)]
      norm_num)

/-- C17: for every ForceParameters with use_constant_force = true, whatever its
other fields, the loop of update_force_feedback over wheels that are
initialized only with an open transport sends to each initialized wheel exactly
one command, the constant-force command 0xF1, 0x00, f, f, f, f, 0, 0 with
f = constant_force, and sends nothing to the other wheels. Accordingly
update_force_feedback, whenever the parameters it computes have
use_constant_force = true, adds exactly that one report to each initialized
wheel. -/
theorem constant_force_exclusive (params : ForceParameters) (wheels : List WheelController)
    (all_success : Bool) (pm : PluginManager) (fc : ForceCalculator)
    (hc : params.use_constant_force = true)
    (hopen : ∀ w ∈ wheels, w.is_initialized_ = true → w.device_interface_.is_open_ = true)
    (hfc : pm.force_calculator_ = some fc)
    (hpc : (calculate fc.config_ pm.telemetry_data_ pm.terrain_state_).1.use_constant_force
      = true)
    (hpm : ∀ w ∈ pm.wheels_, w.is_initialized_ = true → w.device_interface_.is_open_ = true) :
    List.Forall₂
      (fun (w w2 : WheelController) =>
        w2.device_interface_.io.calls = w.device_interface_.io.calls ++
        (if w.is_initialized_ = true then
          [HidCall.set_report [0xF1, 0x00, params.constant_force, params.constant_force,
            params.constant_force, params.constant_force, 0, 0]]
        else []))
      wheels (PluginManager.update_force_feedback_wheels params wheels all_success).1 ∧
    List.Forall₂
      (fun (w w2 : WheelController) =>
        w2.device_interface_.io.calls = w.device_interface_.io.calls ++
        (if w.is_initialized_ = true then
          [HidCall.set_report [0xF1, 0x00,
            (calculate fc.config_ pm.telemetry_data_ pm.terrain_state_).1.constant_force,
            (calculate fc.config_ pm.telemetry_data_ pm.terrain_state_).1.constant_force,
            (calculate fc.config_ pm.telemetry_data_ pm.terrain_state_).1.constant_force,
            (calculate fc.config_ pm.telemetry_data_ pm.terrain_state_).1.constant_force, 0, 0]]
        else []))
      pm.wheels_ pm.update_force_feedback.2.wheels_ := by
  have key : ∀ (q : ForceParameters), q.use_constant_force = true →
      ∀ (ws : List WheelController) (a : Bool),
      (∀ w ∈ ws, w.is_initialized_ = true → w.device_interface_.is_open_ = true) →
      List.Forall₂
        (fun (w w2 : WheelController) =>
          w2.device_interface_.io.calls = w.device_interface_.io.calls ++
          (if w.is_initialized_ = true then
            [HidCall.set_report [0xF1, 0x00, q.constant_force, q.constant_force,
              q.constant_force, q.constant_force, 0, 0]]
          else []))
        ws (PluginManager.update_force_feedback_wheels q ws a).1 := by
    intro q hq ws
    induction ws with
    | nil => intro a _; exact List.Forall₂.nil
    | cons w rest ih =>
      intro a ho
      simp only [PluginManager.update_force_feedback_wheels]
      refine List.Forall₂.cons ?_ (ih _ (fun u hu => ho u (List.mem_cons_of_mem _ hu)))
      cases hinit : w.is_initialized_
      · rw [PluginManager.update_force_feedback_wheel_skipped q w a hinit]
        simp
      · rw [PluginManager.update_force_feedback_wheel_constant q w a hq hinit
          (ho w (List.mem_cons_self _ _) hinit)]
        rfl
  refine ⟨key params hc wheels all_success hopen, ?_⟩
  simp only [PluginManager.update_force_feedback, hfc]
  split_ifs with he
  · have e : pm.wheels_ = [] := by
      cases hw : pm.wheels_ with
      | nil => rfl
      | cons x xs => rw [hw] at he; simp at he
    rw [e]
    exact List.Forall₂.nil
  · exact key _ hpc pm.wheels_ true hpm

theorem constant_force_exclusive_witness :
    List.Forall₂
      (fun (w w2 : WheelController) =>
        w2.device_interface_.io.calls = w.device_interface_.io.calls ++
        (if w.is_initialized_ = true then
          [HidCall.set_report [0xF1, 0x00, 30, 30, 30, 30, 0, 0]]
        else []))
      ([{ device_ := {}, device_interface_ := { device_ := {}, is_open_ := true },
          is_initialized_ := true },
        { device_ := {}, device_interface_ := { device_ := {} } }] : List WheelController)
      (PluginManager.update_force_feedback_wheels
        { use_constant_force := true, constant_force := 30, use_custom_spring := true,
          spring_k1 := 4, damper_force_positive := 3, autocenter_force := 20 }
        [{ device_ := {}, device_interface_ := { device_ := {}, is_open_ := true },
            is_initialized_ := true },
          { device_ := {}, device_interface_ := { device_ := {} } }] true).1 :=
  (constant_force_exclusive
    { use_constant_force := true, constant_force := 30, use_custom_spring := true,
      spring_k1 := 4, damper_force_positive := 3, autocenter_force := 20 }
    [{ device_ := {}, device_interface_ := { device_ := {}, is_open_ := true },
        is_initialized_ := true },
      { device_ := {}, device_interface_ := { device_ := {} } }] true
    { telemetry_data_ := { speed := 10, angular_acceleration_z := 3 }
      force_calculator_ := some {}
      wheels_ := [{ device_ := {}, is_initialized_ := true,
                    device_interface_ := { device_ := {}, is_open_ := true } }] }
    {} rfl (by simp) rfl
    (by rw [calculate_use_constant_force]; norm_num [FfbConfig.default])
    (by simp)).1

/-- C18: the destruction of an initialized WheelController whose transport is
open issues exactly the three reports stop-forces, disable-autocenter and
LED-off, in that order, and only then closes the transport (a failed close is
repeated once when the interface is destroyed). reset_all_wheels issues exactly
the same three reports, in that order, to every initialized wheel whose
transport is open, and nothing to the other wheels. -/
theorem teardown_order (w : WheelController) (pm : PluginManager)
    (hinit : w.is_initialized_ = true) (hopen : w.device_interface_.is_open_ = true) :
    w.destructor.io.calls = w.device_interface_.io.calls ++
      [HidCall.set_report [0xF3, 0, 0, 0, 0, 0, 0, 0],
        HidCall.set_report [0xF5, 0, 0, 0, 0, 0, 0, 0],
        HidCall.set_report [0xF8, 0x12, 0x00, 0, 0, 0, 0, 0]] ++
      (if w.device_interface_.io.succeeds (w.device_interface_.io.calls.length + 3) = true
        then [HidCall.device_close] else [HidCall.device_close, HidCall.device_close]) ∧
    List.Forall₂
      (fun (u u2 : WheelController) =>
        u2.device_interface_.io.calls = u.device_interface_.io.calls ++
        (if u.is_initialized_ = true ∧ u.device_interface_.is_open_ = true then
          [HidCall.set_report [0xF3, 0, 0, 0, 0, 0, 0, 0],
            HidCall.set_report [0xF5, 0, 0, 0, 0, 0, 0, 0],
            HidCall.set_report [0xF8, 0x12, 0x00, 0, 0, 0, 0, 0]]
        else []))
      pm.wheels_ pm.reset_all_wheels.wheels_ := by
  refine ⟨WheelController.destructor_calls w hinit hopen, ?_⟩
  simp only [PluginManager.reset_all_wheels]
  generalize pm.wheels_ = ws
  induction ws with
  | nil => exact List.Forall₂.nil
  | cons u rest ih =>
    rw [List.map_cons]
    exact List.Forall₂.cons (PluginManager.reset_wheel_calls u) ih

theorem teardown_order_witness :
    (WheelController.destructor
      { device_ := {}, device_interface_ := { device_ := {}, is_open_ := true },
        is_initialized_ := true }).io.calls =
      [HidCall.set_report [0xF3, 0, 0, 0, 0, 0, 0, 0],
        HidCall.set_report [0xF5, 0, 0, 0, 0, 0, 0, 0],
        HidCall.set_report [0xF8, 0x12, 0x00, 0, 0, 0, 0, 0],
        HidCall.device_close] :=
  (teardown_order
    { device_ := {}, device_interface_ := { device_ := {}, is_open_ := true },
      is_initialized_ := true } {} rfl rfl).1

set_option maxRecDepth 20000

/-- C19, as stated, fails: on a freshly initialized controller whose device
rejects exactly the call at position 4, which is the forward-sweep LED step
with pattern 1, calibrate still returns true and sets is_calibrated. -/
theorem calibrate_survives_failed_sweep_step :
    ((WheelController.create { device_id := G923_DEVICE_ID, hid_device := some 1 }
      { succeeds := fun k => k != 4 }).initialise.2).is_initialized_ = true ∧
    ((WheelController.create { device_id := G923_DEVICE_ID, hid_device := some 1 }
      { succeeds := fun k => k != 4 }).initialise.2).is_calibrated_ = false ∧
    ((WheelController.create { device_id := G923_DEVICE_ID, hid_device := some 1 }
      { succeeds := fun k => k != 4 }).initialise.2).calibrate.2.device_interface_.io.calls[4]? =
        some (HidCall.set_report [0xF8, 0x12, 1, 0, 0, 0, 0, 0]) ∧
    ((WheelController.create { device_id := G923_DEVICE_ID, hid_device := some 1 }
      { succeeds := fun k => k != 4 }).initialise.2).calibrate.1 = true ∧
    ((WheelController.create { device_id := G923_DEVICE_ID, hid_device := some 1 }
      { succeeds := fun k => k != 4 }).initialise.2).calibrate.2.is_calibrated_ = true :=
  ⟨rfl, rfl, rfl, rfl, rfl⟩

/-- C19, amended: on an initialized, uncalibrated WheelController with an open
transport, if the send of the first LED-off command (position 0 of the
sequence) or of any of the five self-test commands (positions 65 to 69) fails,
calibrate returns false and is_calibrated stays false. A failing step of the
forward or backward LED sweep is only logged and does not abort. -/
theorem calibrate_aborts_on_failed_step (w : WheelController) (k : Nat)
    (hinit : w.is_initialized_ = true) (huncal : w.is_calibrated_ = false)
    (hopen : w.device_interface_.is_open_ = true)
    (hk : k = 0 ∨ k = 65 ∨ k = 66 ∨ k = 67 ∨ k = 68 ∨ k = 69)
    (hfail : w.device_interface_.io.succeeds (w.device_interface_.io.calls.length + k) = false) :
    w.calibrate.1 = false ∧ w.calibrate.2.is_calibrated_ = false ∧
      w.calibrate.2.is_initialized_ = true := by
  obtain ⟨h1, h2, h3⟩ := WheelController.calibrate_open w hinit huncal hopen
  have hf : w.outcome k = false := hfail
  rw [h1, h2]
  refine ⟨?_, ?_, h3⟩ <;>
    (rcases hk with rfl | rfl | rfl | rfl | rfl | rfl <;> simp [hf])

theorem calibrate_aborts_on_failed_step_witness :
    (WheelController.calibrate
      { device_ := {}, is_initialized_ := true, device_interface_ :=
        { device_ := {}, is_open_ := true, io := { succeeds := fun k => k != 66 } } }).1 = false ∧
    (WheelController.calibrate
      { device_ := {}, is_initialized_ := true, device_interface_ :=
        { device_ := {}, is_open_ := true, io := { succeeds := fun k => k != 66 } } }).2.is_calibrated_ = false ∧
    (WheelController.calibrate
      { device_ := {}, is_initialized_ := true, device_interface_ :=
        { device_ := {}, is_open_ := true, io := { succeeds := fun k => k != 66 } } }).2.is_initialized_ = true :=
  calibrate_aborts_on_failed_step
    { device_ := {}, is_initialized_ := true, device_interface_ :=
      { device_ := {}, is_open_ := true, io := { succeeds := fun k => k != 66 } } } 66 rfl rfl rfl
    (Or.inr (Or.inr (Or.inl rfl))) rfl

/-- C20: on an initialized, uncalibrated controller with an open transport
whose next 70 sends all succeed, calibrate sends exactly the 70 commands LED(0),
LED(0) to LED(31) ascending, LED(31) to LED(0) descending, disable-autocenter,
constant-force(120), stop-forces, autocenter-spring(2,2,48), enable-autocenter,
in that order, sets is_calibrated and returns true; calibrate on the result
sends nothing and returns true; and calibrate on an uninitialized controller
sends nothing and returns false. -/
theorem calibration_trace (w u : WheelController)
    (hinit : w.is_initialized_ = true) (huncal : w.is_calibrated_ = false)
    (hopen : w.device_interface_.is_open_ = true)
    (hall : ∀ k, k < 70 →
      w.device_interface_.io.succeeds (w.device_interface_.io.calls.length + k) = true)
    (hu : u.is_initialized_ = false) :
    w.calibrate.1 = true ∧ w.calibrate.2.is_calibrated_ = true ∧
    w.calibrate.2.device_interface_.io.calls = w.device_interface_.io.calls ++
      ([HidCall.set_report [0xF8, 0x12, 0, 0, 0, 0, 0, 0]] ++
        (List.range 32).map (fun i => HidCall.set_report [0xF8, 0x12, i, 0, 0, 0, 0, 0]) ++
        (List.range 32).reverse.map (fun i => HidCall.set_report [0xF8, 0x12, i, 0, 0, 0, 0, 0]) ++
        [HidCall.set_report [0xF5, 0, 0, 0, 0, 0, 0, 0],
          HidCall.set_report [0xF1, 0x00, 120, 120, 120, 120, 0, 0],
          HidCall.set_report [0xF3, 0, 0, 0, 0, 0, 0, 0],
          HidCall.set_report [0xFE, 0x00, 2, 2, 48, 0, 0, 0],
          HidCall.set_report [0xF4, 0, 0, 0, 0, 0, 0, 0]]) ∧
    w.calibrate.2.device_interface_.io.calls.length = w.device_interface_.io.calls.length + 70 ∧
    w.calibrate.2.calibrate = (true, w.calibrate.2) ∧
    u.calibrate = (false, u) := by
  have ho : ∀ k, k < 70 → w.outcome k = true := hall
  have e : w.calibrate = (true, { w.logged (led_calls ++ self_test_calls) with
      is_calibrated_ := true }) := by
    simp only [WheelController.calibrate, hinit, huncal,
      WheelController.perform_calibration_sequence_open w hopen,
      ho 0 (by norm_num), ho 65 (by norm_num), ho 66 (by norm_num), ho 67 (by norm_num),
      ho 68 (by norm_num), ho 69 (by norm_num)]
    simp
  rw [e]
  refine ⟨rfl, rfl, rfl, ?_, ?_, ?_⟩
  · simp [WheelController.logged, led_calls, self_test_calls]
  · simp [WheelController.calibrate, WheelController.logged, hinit]
  · simp [WheelController.calibrate, hu]

theorem calibration_trace_witness :
    (WheelController.calibrate
      { device_ := {}, is_initialized_ := true,
        device_interface_ := { device_ := {}, is_open_ := true } }).1 = true ∧
    (WheelController.calibrate
      { device_ := {}, is_initialized_ := true,
        device_interface_ := { device_ := {}, is_open_ := true } }).2.is_calibrated_ = true :=
  ⟨(calibration_trace
      { device_ := {}, is_initialized_ := true,
        device_interface_ := { device_ := {}, is_open_ := true } }
      { device_ := {}, device_interface_ := { device_ := {} } }
      rfl rfl rfl (fun _ _ => rfl) rfl).1,
    (calibration_trace
      { device_ := {}, is_initialized_ := true,
        device_interface_ := { device_ := {}, is_open_ := true } }
      { device_ := {}, device_interface_ := { device_ := {} } }
      rfl rfl rfl (fun _ _ => rfl) rfl).2.1⟩

/-- C21: from an orchestrator with both counters at 0 that is not paused, over
any run of consecutive on_frame_end ticks numbered 1, 2, 3, ... and whatever
samples arrive in between, the force update runs on tick k exactly when
(k - 1) mod 8 = 0 and the LED update exactly when (k - 1) mod 32 = 0: the guard
of each update holds on tick k exactly under that condition, and the
orchestrator after tick k is the one before it with the sample of the tick,
taken through the counter step, update_force_feedback under the first
condition, update_leds under the second, and the store of the vertical
acceleration. On a tick with (k - 1) mod 8 other than 0 the wheels and the LED
controller are left as they were. After every tick the counters lie in 1..8 and
1..32. -/
theorem update_cadence (tel : Nat → TelemetryData) (pm : PluginManager) (k : Nat)
    (hf : pm.force_update_counter_ = 0) (hl : pm.led_update_counter_ = 0)
    (hp : pm.is_paused_ = false) (hk : 1 ≤ k) :
    ((PluginManager.run_frames tel pm (k - 1)).force_update_counter_ - 1 ≤ 0 ↔
      (k - 1) % 8 = 0) ∧
    ((PluginManager.run_frames tel pm (k - 1)).led_update_counter_ - 1 ≤ 0 ↔
      (k - 1) % 32 = 0) ∧
    (PluginManager.run_frames tel pm (k - 1)).is_paused_ = false ∧
    1 ≤ (PluginManager.run_frames tel pm k).force_update_counter_ ∧
    (PluginManager.run_frames tel pm k).force_update_counter_ ≤ 8 ∧
    1 ≤ (PluginManager.run_frames tel pm k).led_update_counter_ ∧
    (PluginManager.run_frames tel pm k).led_update_counter_ ≤ 32 ∧
    PluginManager.run_frames tel pm k =
      (let p0 : PluginManager :=
        { PluginManager.run_frames tel pm (k - 1) with telemetry_data_ := tel (k - 1) }
      let p1 : PluginManager :=
        { p0 with force_update_counter_ := p0.force_update_counter_ - 1 }
      let p2 : PluginManager :=
        if (k - 1) % 8 = 0 then
          { (PluginManager.update_force_feedback p1).2 with force_update_counter_ := 8 }
        else p1
      let p3 : PluginManager :=
        { p2 with led_update_counter_ := p2.led_update_counter_ - 1 }
      let p4 : PluginManager :=
        if (k - 1) % 32 = 0 then
          { (PluginManager.update_leds p3).2 with led_update_counter_ := 32 }
        else p3
      { p4 with terrain_state_ :=
          { p4.terrain_state_ with
            last_vertical_acceleration := p4.telemetry_data_.linear_acceleration_y } }) ∧
    ((k - 1) % 8 ≠ 0 →
      (PluginManager.run_frames tel pm k).wheels_ =
        (PluginManager.run_frames tel pm (k - 1)).wheels_ ∧
      (PluginManager.run_frames tel pm k).led_controller_ =
        (PluginManager.run_frames tel pm (k - 1)).led_controller_) := by
  obtain ⟨a1, a2, a3⟩ := PluginManager.run_frames_counters tel pm hf hl hp (k - 1)
  obtain ⟨_, b2, b3⟩ := PluginManager.run_frames_counters tel pm hf hl hp k
  have hk0 : k ≠ 0 := by omega
  have g1 : (PluginManager.run_frames tel pm (k - 1)).force_update_counter_ - 1 ≤ 0 ↔
      (k - 1) % 8 = 0 := by
    rw [a2]
    by_cases h1 : k - 1 = 0
    · simp [h1]
    · simp only [h1, if_false]
      omega
  have g2 : (PluginManager.run_frames tel pm (k - 1)).led_update_counter_ - 1 ≤ 0 ↔
      (k - 1) % 32 = 0 := by
    rw [a3]
    by_cases h1 : k - 1 = 0
    · simp [h1]
    · simp only [h1, if_false]
      omega
  have hstep : PluginManager.run_frames tel pm k =
      PluginManager.on_frame_end
        { PluginManager.run_frames tel pm (k - 1) with telemetry_data_ := tel (k - 1) } := by
    obtain ⟨n, rfl⟩ := Nat.exists_eq_succ_of_ne_zero hk0
    rfl
  have heq := PluginManager.on_frame_end_running
    { PluginManager.run_frames tel pm (k - 1) with telemetry_data_ := tel (k - 1) }
    ((k - 1) % 8 = 0) ((k - 1) % 32 = 0) a1 g1 g2
  rw [← hstep] at heq
  refine ⟨g1, g2, a1, ?_, ?_, ?_, ?_, heq, ?_⟩
  · rw [b2]
    simp only [hk0, if_false]
    omega
  · rw [b2]
    simp only [hk0, if_false]
    omega
  · rw [b3]
    simp only [hk0, if_false]
    omega
  · rw [b3]
    simp only [hk0, if_false]
    omega
  · intro h8
    have h32 : (k - 1) % 32 ≠ 0 := by omega
    rw [heq]
    simp [h8, h32]

theorem update_cadence_witness :
    ((PluginManager.run_frames (fun _ => {})
        { is_paused_ := false, force_calculator_ := some {}, led_controller_ := some {} }
        (10 - 1)).force_update_counter_ - 1 ≤ 0 ↔ (10 - 1) % 8 = 0) ∧
    (PluginManager.run_frames (fun _ => {})
        { is_paused_ := false, force_calculator_ := some {}, led_controller_ := some {} }
        10).wheels_ =
      (PluginManager.run_frames (fun _ => {})
        { is_paused_ := false, force_calculator_ := some {}, led_controller_ := some {} }
        (10 - 1)).wheels_ :=
  ⟨(update_cadence (fun _ => {})
      { is_paused_ := false, force_calculator_ := some {}, led_controller_ := some {} }
      10 rfl rfl rfl (by decide)).1,
    ((update_cadence (fun _ => {})
      { is_paused_ := false, force_calculator_ := some {}, led_controller_ := some {} }
      10 rfl rfl rfl (by decide)).2.2.2.2.2.2.2.2 (by decide)).1⟩

/-- C22: on_pause(true) sets the paused flag and issues the neutral reset
(stop-forces, disable-autocenter, LED-off) to every initialized wheel. While
paused, on_frame_end issues only that neutral reset and leaves both cadence
counters, the terrain state and the LED controller with its toggle unchanged.
on_pause(false) clears the flag without sending anything, and the next
on_frame_end is a regular one: it advances the cadence counters, calls
update_force_feedback when the force counter has run down and update_leds when
the LED counter has, and stores the vertical acceleration. Wheels are
initialized only with an open transport. -/
theorem pause_suppresses_updates (pm : PluginManager)
    (hopen : ∀ w ∈ pm.wheels_, w.is_initialized_ = true →
      w.device_interface_.is_open_ = true) :
    (pm.on_pause true).is_paused_ = true ∧
    List.Forall₂
      (fun (w w2 : WheelController) =>
        w2.device_interface_.io.calls = w.device_interface_.io.calls ++
          (if w.is_initialized_ = true then
            [HidCall.set_report [0xF3, 0, 0, 0, 0, 0, 0, 0],
              HidCall.set_report [0xF5, 0, 0, 0, 0, 0, 0, 0],
              HidCall.set_report [0xF8, 0x12, 0x00, 0, 0, 0, 0, 0]]
          else []))
      pm.wheels_ (pm.on_pause true).wheels_ ∧
    (pm.is_paused_ = true →
      List.Forall₂
        (fun (w w2 : WheelController) =>
          w2.device_interface_.io.calls = w.device_interface_.io.calls ++
            (if w.is_initialized_ = true then
              [HidCall.set_report [0xF3, 0, 0, 0, 0, 0, 0, 0],
                HidCall.set_report [0xF5, 0, 0, 0, 0, 0, 0, 0],
                HidCall.set_report [0xF8, 0x12, 0x00, 0, 0, 0, 0, 0]]
            else []))
        pm.wheels_ pm.on_frame_end.wheels_ ∧
      pm.on_frame_end.force_update_counter_ = pm.force_update_counter_ ∧
      pm.on_frame_end.led_update_counter_ = pm.led_update_counter_ ∧
      pm.on_frame_end.terrain_state_ = pm.terrain_state_ ∧
      pm.on_frame_end.led_controller_ = pm.led_controller_ ∧
      pm.on_frame_end.is_paused_ = true) ∧
    (pm.on_pause false).is_paused_ = false ∧
    (pm.on_pause false).wheels_ = pm.wheels_ ∧
    (pm.on_pause false).on_frame_end.force_update_counter_ =
      (if pm.force_update_counter_ - 1 ≤ 0 then 8 else pm.force_update_counter_ - 1) ∧
    (pm.on_pause false).on_frame_end.led_update_counter_ =
      (if pm.led_update_counter_ - 1 ≤ 0 then 32 else pm.led_update_counter_ - 1) ∧
    (pm.on_pause false).on_frame_end =
      (let p1 : PluginManager :=
        { pm with is_paused_ := false, force_update_counter_ := pm.force_update_counter_ - 1 }
      let p2 : PluginManager :=
        if pm.force_update_counter_ - 1 ≤ 0 then
          { (PluginManager.update_force_feedback p1).2 with force_update_counter_ := 8 }
        else p1
      let p3 : PluginManager :=
        { p2 with led_update_counter_ := p2.led_update_counter_ - 1 }
      let p4 : PluginManager :=
        if pm.led_update_counter_ - 1 ≤ 0 then
          { (PluginManager.update_leds p3).2 with led_update_counter_ := 32 }
        else p3
      { p4 with terrain_state_ :=
          { p4.terrain_state_ with
            last_vertical_acceleration := p4.telemetry_data_.linear_acceleration_y } }) := by
  have hr := PluginManager.reset_wheels_calls pm.wheels_ hopen
  have hc := PluginManager.on_frame_end_counters (pm.on_pause false) rfl
  have hrun := PluginManager.on_frame_end_running (pm.on_pause false)
    (pm.force_update_counter_ - 1 ≤ 0) (pm.led_update_counter_ - 1 ≤ 0) rfl Iff.rfl Iff.rfl
  refine ⟨rfl, hr, ?_, rfl, rfl, hc.1, hc.2.1, hrun⟩
  intro hpaused
  simp only [PluginManager.on_frame_end, hpaused, if_true]
  exact ⟨hr, rfl, rfl, rfl, rfl, hpaused⟩

theorem pause_suppresses_updates_witness :
    (PluginManager.on_pause
      { force_update_counter_ := 5, led_update_counter_ := 17,
        wheels_ := [{ device_ := {}, is_initialized_ := true,
                      device_interface_ := { device_ := {}, is_open_ := true } }] }
      true).is_paused_ = true ∧
    (PluginManager.on_frame_end
      { force_update_counter_ := 5, led_update_counter_ := 17,
        wheels_ := [{ device_ := {}, is_initialized_ := true,
                      device_interface_ := { device_ := {}, is_open_ := true } }] }
      ).force_update_counter_ = 5 :=
  ⟨(pause_suppresses_updates
      { force_update_counter_ := 5, led_update_counter_ := 17,
        wheels_ := [{ device_ := {}, is_initialized_ := true,
                      device_interface_ := { device_ := {}, is_open_ := true } }] }
      (by simp)).1,
    ((pause_suppresses_updates
      { force_update_counter_ := 5, led_update_counter_ := 17,
        wheels_ := [{ device_ := {}, is_initialized_ := true,
                      device_interface_ := { device_ := {}, is_open_ := true } }] }
      (by simp)).2.2.1 rfl).2.1⟩

/-- C24 against the code: at speed = 1 m/s, which is 3.6 km/h and so not below
2 km/h, calculate_base_forces under the default configuration still selects the
stationary regime: no centering, slope 0 and the stationary damper 4, where the
low-speed regime would give slope 2. -/
theorem stationary_threshold_is_in_metres_per_second :
    ¬ (|(({ speed := 1 } : TelemetryData)).speed_kmh| < 2) ∧
    calculate_base_forces FfbConfig.default { speed := 1 } {} =
      { autocenter_force := 0, autocenter_slope := 0, damper_force_positive := 4,
        damper_force_negative := 4 } := by
  refine ⟨?_, base_forces_stationary { speed := 1 } (by norm_num [abs_lt]) (by simp)⟩
  have h3 := TelemetryData.natCast_le_speed_kmh { speed := 1 } 3 (by norm_num) (by norm_num)
  rw [abs_lt]
  rintro ⟨_, h2⟩
  have h3q : (3 : ℚ) ≤ (({ speed := 1 } : TelemetryData)).speed_kmh := by exact_mod_cast h3
  linarith

/-- C30: under the default configuration, for every sample with speed <= -2
m/s, calculate_base_forces takes the low-speed branch: autocenter_slope = 2
(never 3, 4 or 5), both dampers are the saturated 2.5 times the power-steering
multiplier, which is 1 with power steering and 5 without, and the base
autocenter_force is 0 whenever speed_kmh <= -25. -/
theorem reverse_is_low_speed (t : TelemetryData) (p : ForceParameters) (h : t.speed ≤ -2) :
    (calculate_base_forces FfbConfig.default t p).autocenter_slope = 2 ∧
    (calculate_base_forces FfbConfig.default t p).damper_force_positive =
      clamp_to_byte (2.5 * calculate_power_steering_multiplier t) ∧
    (calculate_base_forces FfbConfig.default t p).damper_force_negative =
      clamp_to_byte (2.5 * calculate_power_steering_multiplier t) ∧
    (calculate_base_forces FfbConfig.default t p).damper_force_positive =
      (if t.engine_enabled = true ∧ t.rpm > 500 then 1 else 5) ∧
    (calculate_base_forces FfbConfig.default t p).autocenter_force =
      clamp_to_byte ((20 + t.speed_kmh * 0.8) * calculate_centering_multiplier t) ∧
    (t.speed_kmh ≤ -25 → (calculate_base_forces FfbConfig.default t p).autocenter_force = 0) := by
  rw [base_forces_reverse t p h]
  refine ⟨rfl, rfl, rfl, ?_, rfl, ?_⟩
  · have hk : t.speed_kmh < 10 := by
      have := t.speed_kmh_le_of_reverse h
      linarith
    show clamp_to_byte (2.5 * calculate_power_steering_multiplier t) = _
    simp only [calculate_power_steering_multiplier, if_pos hk]
    split_ifs
    · exact clamp_to_byte_eq _ 1 (by norm_num) (by norm_num) (by norm_num)
    · exact clamp_to_byte_eq _ 5 (by norm_num) (by norm_num) (by norm_num)
  · intro hk
    show clamp_to_byte ((20 + t.speed_kmh * 0.8) * calculate_centering_multiplier t) = 0
    apply clamp_to_byte_of_nonpos
    have h1 : 20 + t.speed_kmh * 0.8 ≤ 0 := by
      norm_num
      linarith
    have h2 : 0 ≤ calculate_centering_multiplier t := by
      unfold calculate_centering_multiplier
      split_ifs <;> norm_num
    exact mul_nonpos_of_nonpos_of_nonneg h1 h2

theorem reverse_is_low_speed_witness :
    (calculate_base_forces FfbConfig.default { speed := -10 } {}).autocenter_slope = 2 ∧
    (calculate_base_forces FfbConfig.default { speed := -10 } {}).damper_force_positive = 5 ∧
    (calculate_base_forces FfbConfig.default { speed := -10 } {}).autocenter_force = 0 :=
  ⟨(reverse_is_low_speed { speed := -10 } {} (by norm_num)).1,
    (reverse_is_low_speed { speed := -10 } {} (by norm_num)).2.2.2.1,
    (reverse_is_low_speed { speed := -10 } {} (by norm_num)).2.2.2.2.2
      (by
        have := TelemetryData.speed_kmh_le_neg_natCast { speed := -10 } 25 (by norm_num)
          (by norm_num)
        exact_mod_cast this)⟩

/-- C25: under the default configuration, for a sample with parking brake off
and brake <= 0.5, calculate_pattern returns 0x00 when rpm = 0; otherwise, with
the baseline B = 800 above 50 km/h, 1200 below 10 km/h and 1000 in between, it
returns 0x01 if rpm < B, 0x03 if rpm < B + 300, 0x07 if rpm < B + 600, 0x0F if
rpm < B + 800 and 0x1F if rpm < B + 1000, first match winning. In all these
cases the controller, and with it the flash toggle, is left unchanged, and at a
fixed speed the byte is non-decreasing in rpm over 0 < rpm < B + 1000. -/
theorem rpm_bucket_table (l : LedController) (t t2 : TelemetryData) (B : ℚ)
    (hcfg : l.config_ = FfbConfig.default)
    (hpark : t.parking_brake = false) (hbrake : t.brake ≤ 0.5)
    (hB : B = if t.speed_kmh > 50 then 800 else if t.speed_kmh < 10 then 1200 else 1000) :
    (t.rpm = 0 → l.calculate_pattern t = (0x00, l)) ∧
    (t.rpm ≠ 0 → t.rpm < B + 1000 →
      l.calculate_pattern t =
        (if t.rpm < B then 0x01
          else if t.rpm < B + 300 then 0x03
          else if t.rpm < B + 600 then 0x07
          else if t.rpm < B + 800 then 0x0F
          else 0x1F, l)) ∧
    (t2.parking_brake = false → t2.brake ≤ 0.5 → t2.speed = t.speed →
      0 < t.rpm → t.rpm ≤ t2.rpm → t2.rpm < B + 1000 →
      (l.calculate_pattern t).1 ≤ (l.calculate_pattern t2).1) := by
  refine ⟨?_, ?_, ?_⟩
  · intro h0
    have hpos : (0 : ℚ) < B + 1000 := by
      rw [hB]
      split_ifs <;> norm_num
    rw [LedController.calculate_pattern_table l t B hcfg hpark hbrake hB (by rw [h0]; exact hpos),
      if_pos h0]
  · intro h0 htop
    rw [LedController.calculate_pattern_table l t B hcfg hpark hbrake hB htop, if_neg h0]
  · intro hpark2 hbrake2 hspeed hpos hle htop2
    have hB2 : B = if t2.speed_kmh > 50 then 800 else if t2.speed_kmh < 10 then 1200
        else 1000 := by
      rw [hB]
      simp only [TelemetryData.speed_kmh, hspeed]
    rw [LedController.calculate_pattern_table l t B hcfg hpark hbrake hB (by linarith),
      LedController.calculate_pattern_table l t2 B hcfg hpark2 hbrake2 hB2 htop2,
      if_neg (ne_of_gt hpos), if_neg (ne_of_gt (lt_of_lt_of_le hpos hle))]
    show (if t.rpm < B then (1 : Nat) else if t.rpm < B + 300 then 3 else
        if t.rpm < B + 600 then 7 else if t.rpm < B + 800 then 15 else 31) ≤
      (if t2.rpm < B then (1 : Nat) else if t2.rpm < B + 300 then 3 else
        if t2.rpm < B + 600 then 7 else if t2.rpm < B + 800 then 15 else 31)
    split_ifs <;> first | (exfalso; linarith) | norm_num

theorem rpm_bucket_table_witness :
    LedController.calculate_pattern {} { speed := 3640889 / 262144, rpm := 900 } =
      (if (900 : ℚ) < 1000 then 0x01
        else if (900 : ℚ) < 1000 + 300 then 0x03
        else if (900 : ℚ) < 1000 + 600 then 0x07
        else if (900 : ℚ) < 1000 + 800 then 0x0F
        else 0x1F, {}) ∧
    (LedController.calculate_pattern {} { speed := 3640889 / 262144, rpm := 900 }).1 ≤
      (LedController.calculate_pattern {} { speed := 3640889 / 262144, rpm := 1700 }).1 :=
  ⟨(rpm_bucket_table {} { speed := 3640889 / 262144, rpm := 900 }
      { speed := 3640889 / 262144, rpm := 1700 } 1000 rfl rfl (by norm_num)
      (by rw [TelemetryData.speed_kmh_eq_fifty _ rfl]; norm_num)).2.1 (by norm_num)
      (by norm_num),
    (rpm_bucket_table {} { speed := 3640889 / 262144, rpm := 900 }
      { speed := 3640889 / 262144, rpm := 1700 } 1000 rfl rfl (by norm_num)
      (by rw [TelemetryData.speed_kmh_eq_fifty _ rfl]; norm_num)).2.2 rfl (by norm_num) rfl
      (by norm_num) (by norm_num) (by norm_num)⟩

/-- C23 against the code: with speed 10 m/s, a stored previous vertical
acceleration of 0 and a sample with vertical acceleration 0.1, all five
conditions of the detector hold on the state as calculate receives it, yet
calculate does not arm the impact: afterwards impact_timer and impact_cooldown
are 0 and use_custom_spring is false. The reason is general: calculate first
stores the vertical acceleration of the sample itself, so the detector inside it
always sees a change of 0 and returns false. -/
theorem impact_never_armed_by_calculate :
    detect_terrain_impact FfbConfig.default { speed := 10, linear_acceleration_y := 0.1 }
      { last_vertical_acceleration := 0 } = true ∧
    (calculate FfbConfig.default { speed := 10, linear_acceleration_y := 0.1 }
      { last_vertical_acceleration := 0 }).2.impact_timer = 0 ∧
    (calculate FfbConfig.default { speed := 10, linear_acceleration_y := 0.1 }
      { last_vertical_acceleration := 0 }).2.impact_cooldown = 0 ∧
    (calculate FfbConfig.default { speed := 10, linear_acceleration_y := 0.1 }
      { last_vertical_acceleration := 0 }).1.use_custom_spring = false ∧
    (∀ (t : TelemetryData) (s : TerrainState),
      detect_terrain_impact FfbConfig.default t (update_terrain_state t s) = false) := by
  have hg : |(({ speed := 10, linear_acceleration_y := 0.1 } : TelemetryData)).vertical_g|
      = 10 / 981 := by
    norm_num [TelemetryData.vertical_g, abs_of_pos]
  have hs := calculate_no_spring { speed := 10, linear_acceleration_y := 0.1 }
    { last_vertical_acceleration := 0 } (by norm_num [TerrainState.update])
    (by rw [hg]; norm_num) (by rw [hg]; norm_num)
  rw [calculate_state]
  refine ⟨?_, ?_, ?_, hs, detect_terrain_impact_in_calculate⟩
  · have ha : |(1 / 10 : ℚ)| = 1 / 10 := abs_of_pos (by norm_num)
    norm_num [detect_terrain_impact, impact_threshold, FfbConfig.default, ha]
  · norm_num [TerrainState.update]
  · norm_num [TerrainState.update]

/-- C27: for every configuration, sample and terrain state, the parameters that
calculate returns have, when use_custom_spring is true, spring_k1 = spring_k2 =
the terrain intensity and spring_clip = min(255, 20 + 8 * spring_k1), and when
use_custom_spring is false, spring_k1 = spring_k2 = spring_clip = 0. Moreover
the terrain stage either leaves autocenter_force and both damper bytes as they
were, or leaves autocenter_force <= 80 and both damper bytes <= 8. -/
theorem terrain_spring_parameters (c : FfbConfig) (t : TelemetryData) (s : TerrainState)
    (p : ForceParameters) :
    ((calculate c t s).1.use_custom_spring = true →
      (calculate c t s).1.spring_k1 = (calculate c t s).1.spring_k2 ∧
      (calculate c t s).1.spring_k1 =
        (terrain_regime c t (calculate c t s).2).terrain_spring_intensity ∧
      (calculate c t s).1.spring_clip = min 255 (20 + 8 * (calculate c t s).1.spring_k1)) ∧
    ((calculate c t s).1.use_custom_spring = false →
      (calculate c t s).1.spring_k1 = 0 ∧ (calculate c t s).1.spring_k2 = 0 ∧
      (calculate c t s).1.spring_clip = 0) ∧
    (((calculate_terrain_effects c t s p).2.autocenter_force = p.autocenter_force ∧
        (calculate_terrain_effects c t s p).2.damper_force_positive = p.damper_force_positive ∧
        (calculate_terrain_effects c t s p).2.damper_force_negative = p.damper_force_negative) ∨
      ((calculate_terrain_effects c t s p).2.autocenter_force ≤ 80 ∧
        (calculate_terrain_effects c t s p).2.damper_force_positive ≤ 8 ∧
        (calculate_terrain_effects c t s p).2.damper_force_negative ≤ 8)) := by
  obtain ⟨h0, h1, h2, h3⟩ := calculate_spring c t s
  refine ⟨?_, ?_, terrain_effects_forces c t s p⟩
  · intro hu
    rw [h0] at hu
    rw [h1, h2, h3]
    simp only [hu, if_true, true_and]
    rw [clamp_to_byte_nat]
    omega
  · intro hu
    rw [h0] at hu
    rw [h1, h2, h3]
    simp [hu]

theorem terrain_spring_parameters_witness :
    (calculate FfbConfig.default { speed := 10, linear_acceleration_y := 19.62 } {}).1.spring_clip
      = min 255 (20 + 8 *
        (calculate FfbConfig.default { speed := 10, linear_acceleration_y := 19.62 }
          {}).1.spring_k1) ∧
    (calculate FfbConfig.default {} {}).1.spring_clip = 0 :=
  ⟨((terrain_spring_parameters FfbConfig.default
      { speed := 10, linear_acceleration_y := 19.62 } {} {}).1 calculate_spring_two_g.1).2.2,
    ((terrain_spring_parameters FfbConfig.default {} {} {}).2.1
      (calculate_no_spring {} {} (by norm_num [TerrainState.update])
        (by norm_num [TelemetryData.vertical_g]) (by norm_num [TelemetryData.vertical_g]))).2.2⟩

/-- C28: with the default configuration, for every telemetry sample and every
terrain state, calculate returns autocenter_force <= 80, autocenter_slope <= 5,
constant_force <= 40 and both damper bytes <= 10. The damper bound is attained:
there is a sample for which, on a fresh terrain state, both dampers leave the
terrain stage at its cap of 8 and the yaw stage that follows raises them to 10. -/
theorem calculate_output_bounds :
    (∀ (t : TelemetryData) (s : TerrainState),
      (calculate FfbConfig.default t s).1.autocenter_force ≤ 80 ∧
      (calculate FfbConfig.default t s).1.autocenter_slope ≤ 5 ∧
      (calculate FfbConfig.default t s).1.constant_force ≤ 40 ∧
      (calculate FfbConfig.default t s).1.damper_force_positive ≤ 10 ∧
      (calculate FfbConfig.default t s).1.damper_force_negative ≤ 10) ∧
    (∃ t : TelemetryData,
      (calculate_terrain_effects FfbConfig.default t (update_terrain_state t {})
        (calculate_power_steering_effects FfbConfig.default t
          (calculate_self_aligning_torque FfbConfig.default t
            (calculate_base_forces FfbConfig.default t {})))).2.damper_force_positive = 8 ∧
      (calculate_terrain_effects FfbConfig.default t (update_terrain_state t {})
        (calculate_power_steering_effects FfbConfig.default t
          (calculate_self_aligning_torque FfbConfig.default t
            (calculate_base_forces FfbConfig.default t {})))).2.damper_force_negative = 8 ∧
      (calculate FfbConfig.default t {}).1.damper_force_positive = 10 ∧
      (calculate FfbConfig.default t {}).1.damper_force_negative = 10) := by
  refine ⟨fun t s => ?_, bump_oversteer_sample, calculate_damper_ten⟩
  obtain ⟨ha, hp, hn⟩ := calculate_bounds t s
  refine ⟨ha, ?_, ?_, hp, hn⟩
  · rw [calculate_slope, base_forces_slope]
    split_ifs <;> norm_num
  · rw [calculate_constant_force]
    split_ifs
    · exact clamp_to_byte_le_of_le _ 40 (by norm_num)
        (le_trans (min_le_left _ _) (by norm_num [FfbConfig.default]))
    · exact Nat.zero_le _

/-- C29: for the sample with speed 10 m/s and a vertical acceleration of 2 g, on
a fresh terrain state and under the default configuration, calculate returns
use_custom_spring = true with spring_k1 = spring_k2 = 18, above 15. For every
initialized wheel with an open transport, update_force_feedback on that sample
sends the stop-forces report and then the spring report built from k1 = k2 = 18
as they are, and byte 4 of that report is a byte b with neither (b & 0xF) = k1
nor (b >> 4) = k2. -/
theorem spring_operands_exceed_nibble (w : WheelController)
    (hinit : w.is_initialized_ = true) (hopen : w.device_interface_.is_open_ = true) :
    (calculate FfbConfig.default { speed := 10, linear_acceleration_y := 19.62 }
      {}).1.use_custom_spring = true ∧
    (calculate FfbConfig.default { speed := 10, linear_acceleration_y := 19.62 }
      {}).1.spring_k1 = 18 ∧
    (calculate FfbConfig.default { speed := 10, linear_acceleration_y := 19.62 }
      {}).1.spring_k2 = 18 ∧
    (15 : Nat) < 18 ∧
    (∃ rest : List HidCall,
      (PluginManager.update_force_feedback
        { telemetry_data_ := { speed := 10, linear_acceleration_y := 19.62 }
          force_calculator_ := some { config_ := FfbConfig.default }
          wheels_ := [w] }).2.wheels_ =
        [w.logged (HidCall.set_report create_stop_forces ::
          HidCall.set_report (create_custom_spring 0 0 18 18 0 0 164) :: rest)]) ∧
    (∃ b, (create_custom_spring 0 0 18 18 0 0 164)[4]? = some b ∧
      b &&& 0xF ≠ 18 ∧ b >>> 4 ≠ 18) := by
  obtain ⟨h0, h1, h2, h3⟩ := calculate_spring_two_g
  refine ⟨h0, h1, h2, by decide, ?_, 0x32, rfl, by decide, by decide⟩
  have hc : (calculate FfbConfig.default { speed := 10, linear_acceleration_y := 19.62 }
      {}).1.use_constant_force = false := by
    rw [calculate_use_constant_force]
    norm_num [FfbConfig.default]
  obtain ⟨rest, hr⟩ := PluginManager.update_force_feedback_wheel_spring _ w true hc h0 hinit
    hopen
  rw [h1, h2, h3] at hr
  refine ⟨rest, ?_⟩
  simp only [PluginManager.update_force_feedback, PluginManager.update_force_feedback_wheels,
    List.isEmpty_cons, Bool.false_eq_true, if_false]
  rw [← hr]

theorem spring_operands_exceed_nibble_witness :
    ∃ b, (CommandBuilder.create_custom_spring 0 0 18 18 0 0 164)[4]? = some b ∧
      b &&& 0xF ≠ 18 ∧ b >>> 4 ≠ 18 :=
  (spring_operands_exceed_nibble
    { device_ := {}, device_interface_ := { device_ := {}, is_open_ := true },
      is_initialized_ := true } rfl rfl).2.2.2.2.2

end G923
